import Mathlib

/-!
# DTCP control plane (linux/net/rina/dtcp.c)

A state-passing embedding of the DTCP engine of `src/linux/net/rina/dtcp.c`.

* `seq_num_t` and `uint_t` are unsigned 32-bit: they are natural numbers, and every
  increment or addition the C code performs is reduced modulo `SEQ_MOD = 2 ^ 32`.
  Comparisons are the plain unsigned comparisons the C code writes.
* A C function `int f(struct dtcp * dtcp, ...)` becomes `f : dtcp → ... → dtcp × Int`:
  the instance after the call and the returned value.
* The spin locks protect single reads and writes and are not represented.
* `ASSERT` and `LOG_*` lines (and `dump_we`, which only reads and logs) have no effect
  on the state and are left out, except that the calls made to the collaborators of
  dtcp.c (RTXQ, CWQ, DT state vector, PDU destruction) and the run of a policy are
  recorded, in order, in the `trace` of the instance.
* A `NULL` instance pointer has no state to pass: the `!dtcp` guards are not represented.
* Code outside dtcp.c is a parameter: the queues and the A-timer step act on the DT parent,
  the calls into the PDU library are given by their outcomes (`pdu_lib`), the allocations
  of `dtcp_create` by theirs (`create_env`).
* A call through a member of the policy table is recorded as `event.policy`; the members
  a function calls are parameters, and the table that `dtcp_create` installs is
  `default_policies_table`, which names the function each member holds.
-/

namespace Dtcp

/-- Modulus of the 32-bit unsigned types `seq_num_t` and `uint_t`. -/
def SEQ_MOD : Nat := 2 ^ 32

/-- Modelled from the spec: the PDU types of the missing header pdu.h (DT, ACK, NACK, FC,
ACK+FC, NACK+FC, and other control kinds), a management type, and the value 0 that
`pdu_ctrl_type_get` returns when there is nothing to send. -/
inductive pdu_type_t where
  | ZERO
  | PDU_TYPE_DT
  | PDU_TYPE_MGMT
  | PDU_TYPE_ACK
  | PDU_TYPE_NACK
  | PDU_TYPE_FC
  | PDU_TYPE_ACK_AND_FC
  | PDU_TYPE_NACK_AND_FC
  | PDU_TYPE_OTHER_CONTROL
  deriving DecidableEq, Repr

open pdu_type_t

/-- Modelled from the spec: `pdu_type_is_control` of the missing pdu.h: ACK, NACK, FC, ACK+FC,
NACK+FC and the other control kinds are control types; DT, management and 0 are not. -/
def pdu_type_is_control (t : pdu_type_t) : Bool :=
  match t with
  | PDU_TYPE_ACK => true
  | PDU_TYPE_NACK => true
  | PDU_TYPE_FC => true
  | PDU_TYPE_ACK_AND_FC => true
  | PDU_TYPE_NACK_AND_FC => true
  | PDU_TYPE_OTHER_CONTROL => true
  | _ => false

/-- Modelled from the spec: the PCI (header) of a PDU, with the fields dtcp.c reads and
writes through the `pci_*` accessors; `ok` is the verdict of `pci_is_ok`. -/
structure pci where
  ok : Bool
  type : pdu_type_t
  source_cep_id : Nat
  destination_cep_id : Nat
  source_address : Nat
  destination_address : Nat
  qos_id : Nat
  sequence_number : Nat
  last_seq_num_rcvd : Nat
  ack_seq_num : Nat
  new_rt_wind_edge : Nat
  new_left_wind_edge : Nat
  my_rt_wind_edge : Nat
  my_left_wind_edge : Nat
  deriving DecidableEq, Repr

/-- Modelled from the spec: a PDU is a PCI plus an opaque payload; `ok` is the verdict of
`pdu_is_ok` (false for a null or unusable PDU). -/
structure pdu where
  ok : Bool
  pci : pci
  deriving DecidableEq, Repr

/-- The DT-SV part maintained by DTCP (`struct dtcp_sv`, without the lock). -/
structure dtcp_sv where
  pdus_per_time_unit : Nat
  next_snd_ctl_seq : Nat
  last_rcv_ctl_seq : Nat
  last_snd_data_ack : Nat
  snd_lft_win : Nat
  data_retransmit_max : Nat
  last_rcv_data_ack : Nat
  time_unit : Nat
  sndr_credit : Nat
  snd_rt_wind_edge : Nat
  sndr_rate : Nat
  pdus_sent_in_time_unit : Nat
  rcvr_credit : Nat
  rcvr_rt_wind_edge : Nat
  rcvr_rate : Nat
  pdus_rcvd_in_time_unit : Nat
  acks : Nat
  flow_ctl : Nat
  deriving DecidableEq, Repr

/-- Modelled from the spec: the DTCP part of the policy parameters of a connection
(`struct dtcp_config`, declared outside dtcp.c). -/
structure dtcp_config where
  flow_ctrl : Bool
  window_based_fctrl : Bool
  rate_based_fctrl : Bool
  rtx_ctrl : Bool
  initial_credit : Nat
  data_retransmit_max : Nat
  deriving DecidableEq, Repr

/-- Modelled from the spec: the policy parameters a connection points to; `dtcp_cfg` may be
null. -/
structure conn_policies where
  dtcp_cfg : Option dtcp_config
  deriving DecidableEq, Repr

/-- Modelled from the spec: the connection (`struct connection`, declared outside dtcp.c);
`policies_params` may be null. -/
structure connection where
  source_cep_id : Nat
  destination_cep_id : Nat
  source_address : Nat
  destination_address : Nat
  qos_id : Nat
  policies_params : Option conn_policies
  deriving DecidableEq, Repr

/-- Modelled from the spec: the DTP instance as dtcp.c sees it: the highest data sequence
number handed to the RMT (`dtp_sv_max_seq_nr_sent`). -/
structure dtp where
  max_seq_nr_sent : Nat
  deriving DecidableEq, Repr

/-- Modelled from the spec: the closed-window queue, the sequence numbers of the parked
PDUs in FIFO order. -/
structure cwq where
  entries : List Nat
  deriving DecidableEq, Repr

/-- Modelled from the spec: the retransmission queue, the sequence numbers of the
sent-but-unacked PDUs. -/
structure rtxq where
  entries : List Nat
  deriving DecidableEq, Repr

/-- Modelled from the spec: the DT parent as dtcp.c sees it through `dt_dtp`, `dt_cwq`,
`dt_rtxq` (each may be null), `dt_sv_rcv_lft_win`, `dt_sv_a`, `dt_sv_tr` and
`dt_sv_window_closed_set`. -/
structure dt where
  dtp : Option dtp
  cwq : Option cwq
  rtxq : Option rtxq
  rcv_lft_win : Nat
  a : Nat
  tr : Nat
  window_closed : Bool
  deriving DecidableEq, Repr

/-- The members of the policy table `struct dtcp_policies`. -/
inductive hook where
  | flow_init
  | sv_update
  | lost_control_pdu
  | rtt_estimator
  | retransmission_timer_expiry
  | received_retransmission
  | rcvr_ack
  | sender_ack
  | sending_ack
  | receiving_ack_list
  | initial_rate
  | receiving_flow_control
  | update_credit
  | flow_control_overrun
  | reconcile_flow_conflict
  | rcvr_flow_control
  | rate_reduction
  | rcvr_control_ack
  | no_rate_slow_down
  | no_override_default_peak
  deriving DecidableEq, Repr

/-- Calls that leave dtcp.c, and policy runs, in the order they happen; `policy h` is a
call made through the member `h` of the policy table. -/
inductive event where
  | pdu_destroy
  | lost_control_pdu
  | sender_ack (seq : Nat)
  | rtxq_ack (seq : Nat) (tr : Nat)
  | rtxq_nack (seq : Nat) (tr : Nat)
  | cwq_deliver (address : Nat) (qos_id : Nat)
  | window_closed_set (b : Bool)
  | buffer_destroy
  | pci_destroy
  | policy (h : hook)
  | rmt_send (address : Nat) (qos_id : Nat)
  deriving DecidableEq, Repr

/-- A DTCP instance (`struct dtcp`): the DT parent, the state vector, the connection and the
count of control PDUs in transit; the policy table is passed separately; `trace` is the
record of outgoing calls. -/
structure dtcp where
  parent : dt
  sv : dtcp_sv
  conn : connection
  cpdus_in_transit : Int
  trace : List event
  deriving DecidableEq, Repr

/-- The operations of the collaborators whose code is outside dtcp.c. They act on the DT
parent only: the DTCP state vector is written by the accessors of dtcp.c alone.
`cwq_deliver` may read the state vector (the sender right window edge). -/
structure collaborators where
  cwq_deliver : dt → dtcp_sv → Nat → Nat → dt
  rtxq_ack : dt → Nat → Nat → dt
  rtxq_nack : dt → Nat → Nat → dt

/-- The two policy hooks that the control receive path calls (`struct dtcp_policies`). -/
structure dtcp_policies where
  lost_control_pdu : dtcp → dtcp × Int
  sender_ack : dtcp → Nat → dtcp × Int

/-- Appends an event to the trace of the instance. -/
def record (d : dtcp) (e : event) : dtcp :=
  { d with trace := d.trace ++ [e] }

/-- The function `dtcp_config_get` (the connection itself is never null here). -/
def dtcp_config_get (d : dtcp) : Option dtcp_config :=
  match d.conn.policies_params with
  | none => none
  | some pp => pp.dtcp_cfg

/-- Modelled from the spec: the flow-control toggle (`dtcp_flow_ctrl` of dtcp-utils); a null
configuration reads as off. -/
def dtcp_flow_ctrl (cfg : Option dtcp_config) : Bool :=
  match cfg with
  | some c => c.flow_ctrl
  | none => false

/-- Modelled from the spec: the retransmission-control toggle (`dtcp_rtx_ctrl` of
dtcp-utils); a null configuration reads as off. -/
def dtcp_rtx_ctrl (cfg : Option dtcp_config) : Bool :=
  match cfg with
  | some c => c.rtx_ctrl
  | none => false

/-- Modelled from the spec: `pdu_destroy` frees the PDU; only the call is recorded. -/
def pdu_destroy (d : dtcp) : dtcp :=
  record d event.pdu_destroy

/-- Modelled from the spec: `dt_sv_window_closed_set` sets the window-closed flag of the DT
parent. -/
def dt_sv_window_closed_set (d : dtcp) (b : Bool) : dtcp :=
  record { d with parent := { d.parent with window_closed := b } } (event.window_closed_set b)

/-- Modelled from the spec: `cwq_is_empty`. -/
def cwq_is_empty (q : cwq) : Bool :=
  q.entries.isEmpty

/-- The operation `atomic_inc(&dtcp->cpdus_in_transit)`. -/
def atomic_inc (d : dtcp) : dtcp :=
  { d with cpdus_in_transit := d.cpdus_in_transit + 1 }

/-- The operation `atomic_dec(&dtcp->cpdus_in_transit)`. -/
def atomic_dec (d : dtcp) : dtcp :=
  { d with cpdus_in_transit := d.cpdus_in_transit - 1 }

/-- The setter `last_rcv_ctrl_seq_set`. -/
def last_rcv_ctrl_seq_set (d : dtcp) (last_rcv_ctrl_seq : Nat) : dtcp :=
  { d with sv := { d.sv with last_rcv_ctl_seq := last_rcv_ctrl_seq } }

/-- The getter `last_rcv_ctrl_seq`. -/
def last_rcv_ctrl_seq (d : dtcp) : Nat :=
  d.sv.last_rcv_ctl_seq

/-- The function `flow_ctrl_inc`: `flow_ctl++` on a 32-bit unsigned. -/
def flow_ctrl_inc (d : dtcp) : dtcp :=
  { d with sv := { d.sv with flow_ctl := (d.sv.flow_ctl + 1) % SEQ_MOD } }

/-- The function `acks_inc`: `acks++` on a 32-bit unsigned. -/
def acks_inc (d : dtcp) : dtcp :=
  { d with sv := { d.sv with acks := (d.sv.acks + 1) % SEQ_MOD } }

/-- The setter `snd_rt_wind_edge_set`. -/
def snd_rt_wind_edge_set (d : dtcp) (new_rt_win : Nat) : dtcp :=
  { d with sv := { d.sv with snd_rt_wind_edge := new_rt_win } }

/-- The getter `snd_rt_wind_edge`. -/
def snd_rt_wind_edge (d : dtcp) : Nat :=
  d.sv.snd_rt_wind_edge

/-- The getter `last_snd_data_ack`. -/
def last_snd_data_ack (d : dtcp) : Nat :=
  d.sv.last_snd_data_ack

/-- The setter `last_snd_data_ack_set`. -/
def last_snd_data_ack_set (d : dtcp) (seq_num : Nat) : dtcp :=
  { d with sv := { d.sv with last_snd_data_ack := seq_num } }

/-- The function `push_pdus_rmt`: without a closed-window queue it fails, otherwise it has
the queue deliver to the RMT. -/
def push_pdus_rmt (ext : collaborators) (d : dtcp) : dtcp × Int :=
  match d.parent.cwq with
  | none => (d, -1)
  | some _ =>
    (record
      { d with parent := ext.cwq_deliver d.parent d.sv d.conn.destination_address d.conn.qos_id }
      (event.cwq_deliver d.conn.destination_address d.conn.qos_id), 0)

/-- The policy `default_sender_ack`. -/
def default_sender_ack (ext : collaborators) (d : dtcp) (seq_num : Nat) : dtcp × Int :=
  let d := record d (event.sender_ack seq_num)
  if dtcp_rtx_ctrl (dtcp_config_get d) then
    match d.parent.rtxq with
    | none => (d, -1)
    | some _ =>
      (record { d with parent := ext.rtxq_ack d.parent seq_num d.parent.tr }
        (event.rtxq_ack seq_num d.parent.tr), 0)
  else (d, 0)

/-- The function `rcv_nack_ctl`. -/
def rcv_nack_ctl (ext : collaborators) (d : dtcp) (seq_num : Nat) : dtcp × Int :=
  if dtcp_rtx_ctrl (dtcp_config_get d) then
    match d.parent.rtxq with
    | none => (d, -1)
    | some _ =>
      (record { d with parent := ext.rtxq_nack d.parent seq_num d.parent.tr }
        (event.rtxq_nack seq_num d.parent.tr), 0)
  else (d, 0)

/-- The function `rcv_flow_ctl`. -/
def rcv_flow_ctl (ext : collaborators) (d : dtcp) (pci : pci) : dtcp × Int :=
  let d := snd_rt_wind_edge_set d pci.new_rt_wind_edge
  let d := pdu_destroy d
  let d := (push_pdus_rmt ext d).1
  match d.parent.dtp with
  | none => (d, -1)
  | some dtp =>
    match d.parent.cwq with
    | none => (d, -1)
    | some q =>
      if cwq_is_empty q && decide (dtp.max_seq_nr_sent < snd_rt_wind_edge d) then
        (dt_sv_window_closed_set d false, 0)
      else (d, 0)

/-- The function `rcv_ack_and_flow_ctl`: a failure of the `sender_ack` policy is logged
only. -/
def rcv_ack_and_flow_ctl (ext : collaborators) (pol : dtcp_policies) (d : dtcp) (pci : pci) :
    dtcp × Int :=
  let seq := pci.ack_seq_num
  let d := (pol.sender_ack d seq).1
  let d := snd_rt_wind_edge_set d pci.new_rt_wind_edge
  let d := pdu_destroy d
  let d := (push_pdus_rmt ext d).1
  (d, 0)

/-- The policy `default_lost_control_pdu`. -/
def default_lost_control_pdu (d : dtcp) : dtcp × Int :=
  (record d event.lost_control_pdu, 0)

/-- The part of `default_policies` that the control receive path uses. -/
def default_policies (ext : collaborators) : dtcp_policies :=
  { lost_control_pdu := default_lost_control_pdu
    sender_ack := default_sender_ack ext }

/-- The function `dtcp_common_rcv_control`. -/
def dtcp_common_rcv_control (ext : collaborators) (pol : dtcp_policies) (d : dtcp) (p : pdu) :
    dtcp × Int :=
  if p.ok = false then (pdu_destroy d, -1)
  else
    let d := atomic_inc d
    let pci := p.pci
    if pci.ok = false then (pdu_destroy (atomic_dec d), -1)
    else
      let type := pci.type
      if pdu_type_is_control type = false then (pdu_destroy (atomic_dec d), -1)
      else
        let seq_num := pci.sequence_number
        let last_ctrl := last_rcv_ctrl_seq d
        let d := if seq_num > (last_ctrl + 1) % SEQ_MOD then (pol.lost_control_pdu d).1 else d
        if seq_num ≤ last_ctrl then
          let d :=
            match type with
            | PDU_TYPE_FC => flow_ctrl_inc d
            | PDU_TYPE_ACK => acks_inc d
            | PDU_TYPE_ACK_AND_FC => flow_ctrl_inc (acks_inc d)
            | _ => d
          (pdu_destroy d, 0)
        else
          let d := last_rcv_ctrl_seq_set d seq_num
          let r :=
            match type with
            | PDU_TYPE_ACK => pol.sender_ack d pci.ack_seq_num
            | PDU_TYPE_NACK => rcv_nack_ctl ext d pci.ack_seq_num
            | PDU_TYPE_FC => rcv_flow_ctl ext d pci
            | PDU_TYPE_ACK_AND_FC => rcv_ack_and_flow_ctl ext pol d pci
            | _ => (d, -1)
          (atomic_dec r.1, r.2)

/-- The function `pdu_ctrl_type_get`; the branches under `#if 0` are not compiled. -/
def pdu_ctrl_type_get (d : dtcp) (_seq : Nat) : dtcp × pdu_type_t :=
  let dtcp_cfg := dtcp_config_get d
  let a := d.parent.a
  let LWE := d.parent.rcv_lft_win
  if last_snd_data_ack d < LWE then
    let d := last_snd_data_ack_set d LWE
    if a = 0 then
      if dtcp_flow_ctrl dtcp_cfg then (d, PDU_TYPE_ACK_AND_FC) else (d, PDU_TYPE_ACK)
    else
      if dtcp_flow_ctrl dtcp_cfg then (d, PDU_TYPE_ACK_AND_FC) else (d, PDU_TYPE_ACK)
  else (d, ZERO)

/-- The instance at the point where `dtcp_common_rcv_control` dispatches on the type of an
accepted PDU: the count of PDUs in transit is incremented, the lost-control-PDU policy has
run if the gap test fired, and the sequence number of the PDU is stored. -/
def at_dispatch (pol : dtcp_policies) (d : dtcp) (p : pdu) : dtcp :=
  last_rcv_ctrl_seq_set
    (if p.pci.sequence_number > (d.sv.last_rcv_ctl_seq + 1) % SEQ_MOD then
      (pol.lost_control_pdu (atomic_inc d)).1 else atomic_inc d)
    p.pci.sequence_number

/-- Modelled from the spec: the signed-difference rule of the data model, the difference
`a - b` of two 32-bit sequence numbers read as a signed 32-bit integer; `a < b` iff it is
negative. -/
def int32_diff (a b : Nat) : Int :=
  if (a + SEQ_MOD - b % SEQ_MOD) % SEQ_MOD < 2 ^ 31 then
    ((a + SEQ_MOD - b % SEQ_MOD) % SEQ_MOD : Nat)
  else ((a + SEQ_MOD - b % SEQ_MOD) % SEQ_MOD : Nat) - (2 ^ 32 : Int)

/-- Modelled from the spec: the ACK+FC handling in the words of the spec, "perform both of
the above, in that order": the ACK handling (the `sender_ack` policy on the ACK sequence
number of the PDU) followed by the FC handling. -/
def spec_ack_then_flow_ctl (ext : collaborators) (pol : dtcp_policies) (d : dtcp) (pci : pci) :
    dtcp × Int :=
  rcv_flow_ctl ext (pol.sender_ack d pci.ack_seq_num).1 pci

/-! ## Control-PDU generation -/

/-- Modelled from the spec: the window-based toggle (`dtcp_window_based_fctrl` of
dtcp-utils); a null configuration reads as off. -/
def dtcp_window_based_fctrl (cfg : Option dtcp_config) : Bool :=
  match cfg with
  | some c => c.window_based_fctrl
  | none => false

/-- Modelled from the spec: the rate-based toggle (`dtcp_rate_based_fctrl` of dtcp-utils); a
null configuration reads as off. -/
def dtcp_rate_based_fctrl (cfg : Option dtcp_config) : Bool :=
  match cfg with
  | some c => c.rate_based_fctrl
  | none => false

/-- Modelled from the spec: the initial credit of the policy parameters
(`dtcp_initial_credit` of dtcp-utils). -/
def dtcp_initial_credit (cfg : dtcp_config) : Nat :=
  cfg.initial_credit

/-- Modelled from the spec: the data-retransmit-max of the policy parameters
(`dtcp_data_retransmit_max` of dtcp-utils). -/
def dtcp_data_retransmit_max (cfg : dtcp_config) : Nat :=
  cfg.data_retransmit_max

/-- The getter `snd_lft_win`. -/
def snd_lft_win (d : dtcp) : Nat :=
  d.sv.snd_lft_win

/-- The getter `rcvr_rt_wind_edge`. -/
def rcvr_rt_wind_edge (d : dtcp) : Nat :=
  d.sv.rcvr_rt_wind_edge

/-- The function `next_snd_ctl_seq`: `++next_snd_ctl_seq` on a 32-bit unsigned; the new
value is returned. -/
def next_snd_ctl_seq (d : dtcp) : dtcp × Nat :=
  ({ d with sv := { d.sv with next_snd_ctl_seq := (d.sv.next_snd_ctl_seq + 1) % SEQ_MOD } },
    (d.sv.next_snd_ctl_seq + 1) % SEQ_MOD)

/-- Outcomes of the fallible calls into the PDU library (not under src/) made while a
control PDU is built; `true` is success. -/
structure pdu_lib where
  buffer_create_ni : Bool
  pdu_create_ni : Bool
  pci_create_ni : Bool
  pci_format : Bool
  pci_control_last_seq_num_rcvd_set : Bool
  pdu_pci_set : Bool
  pdu_buffer_set : Bool
  pci_control_ack_seq_num_set : Bool
  deriving DecidableEq, Repr

/-- Modelled from the spec: the PCI that `pci_create_ni` allocates, every field zero. -/
def pci_create_ni : pci :=
  { ok := false, type := ZERO, source_cep_id := 0, destination_cep_id := 0,
    source_address := 0, destination_address := 0, qos_id := 0, sequence_number := 0,
    last_seq_num_rcvd := 0, ack_seq_num := 0, new_rt_wind_edge := 0, new_left_wind_edge := 0,
    my_rt_wind_edge := 0, my_left_wind_edge := 0 }

/-- Modelled from the spec: `pci_format` stores the CEP-ids, the addresses, the sequence
number, the QoS id and the type in the PCI, in the order of its arguments. -/
def pci_format (c : pci) (src_cep_id dst_cep_id src_address dst_address seq qos_id : Nat)
    (type : pdu_type_t) : pci :=
  { c with
    ok := true, source_cep_id := src_cep_id, destination_cep_id := dst_cep_id,
    source_address := src_address, destination_address := dst_address,
    sequence_number := seq, qos_id := qos_id, type := type }

/-- The function `pdu_ctrl_create_ni`: `none` is the `NULL` result. -/
def pdu_ctrl_create_ni (lib : pdu_lib) (d : dtcp) (type : pdu_type_t) : dtcp × Option pdu :=
  if pdu_type_is_control type = false then (d, none)
  else if lib.buffer_create_ni = false then (d, none)
  else if lib.pdu_create_ni = false then (record d event.buffer_destroy, none)
  else if lib.pci_create_ni = false then (pdu_destroy d, none)
  else
    let r := next_snd_ctl_seq d
    let d := r.1
    let seq := r.2
    if lib.pci_format = false then (record (pdu_destroy d) event.pci_destroy, none)
    else
      let c := pci_format pci_create_ni d.conn.source_cep_id d.conn.destination_cep_id
        d.conn.source_address d.conn.destination_address seq d.conn.qos_id type
      if lib.pci_control_last_seq_num_rcvd_set = false then
        (pdu_destroy (record d event.pci_destroy), none)
      else
        let c := { c with last_seq_num_rcvd := last_rcv_ctrl_seq d }
        if lib.pdu_pci_set = false then (record (pdu_destroy d) event.pci_destroy, none)
        else if lib.pdu_buffer_set = false then (pdu_destroy d, none)
        else (d, some { ok := true, pci := c })

/-- The function `populate_ctrl_pci`: the PCI after the call and the value returned. -/
def populate_ctrl_pci (lib : pdu_lib) (c : pci) (d : dtcp) : pci × Int :=
  match dtcp_config_get d with
  | none => (c, -1)
  | some cfg =>
    let LWE := d.parent.rcv_lft_win
    let c :=
      if dtcp_flow_ctrl (some cfg) then
        if dtcp_window_based_fctrl (some cfg) then
          { c with
            new_left_wind_edge := LWE, new_rt_wind_edge := rcvr_rt_wind_edge d,
            my_left_wind_edge := snd_lft_win d, my_rt_wind_edge := snd_rt_wind_edge d }
        else c
      else c
    match c.type with
    | PDU_TYPE_ACK_AND_FC =>
      if lib.pci_control_ack_seq_num_set = false then (c, -1)
      else ({ c with ack_seq_num := LWE }, 0)
    | PDU_TYPE_ACK =>
      if lib.pci_control_ack_seq_num_set = false then (c, -1)
      else ({ c with ack_seq_num := LWE }, 0)
    | PDU_TYPE_NACK_AND_FC =>
      if lib.pci_control_ack_seq_num_set = false then (c, -1)
      else ({ c with ack_seq_num := (LWE + 1) % SEQ_MOD }, 0)
    | PDU_TYPE_NACK =>
      if lib.pci_control_ack_seq_num_set = false then (c, -1)
      else ({ c with ack_seq_num := (LWE + 1) % SEQ_MOD }, 0)
    | _ => (c, 0)

/-- The function `pdu_ctrl_generate`: `none` is the `NULL` result. -/
def pdu_ctrl_generate (lib : pdu_lib) (d : dtcp) (type : pdu_type_t) : dtcp × Option pdu :=
  if type = ZERO then (d, none)
  else
    match pdu_ctrl_create_ni lib d type with
    | (d, none) => (d, none)
    | (d, some p) =>
      if (populate_ctrl_pci lib p.pci d).2 ≠ 0 then (pdu_destroy d, none)
      else (d, some { p with pci := (populate_ctrl_pci lib p.pci d).1 })

/-! ## State-vector update policies -/

/-- The function `update_rt_wind_edge`: the receiver right window edge becomes the receiver
left window edge plus the receiver credit, a 32-bit unsigned sum. -/
def update_rt_wind_edge (d : dtcp) : dtcp :=
  { d with sv := { d.sv with
      rcvr_rt_wind_edge := (d.parent.rcv_lft_win + d.sv.rcvr_credit) % SEQ_MOD } }

/-- The policy `default_rcvr_flow_control`. -/
def default_rcvr_flow_control (d : dtcp) (_seq : Nat) : dtcp × Int :=
  (update_rt_wind_edge d, 0)

/-- The policy `default_rate_reduction`. -/
def default_rate_reduction (d : dtcp) : dtcp × Int :=
  (d, 0)

/-- The four members of the policy table that `default_sv_update` calls; a member that is
called is taken to be present. -/
structure sv_update_policies where
  rcvr_flow_control : dtcp → Nat → dtcp × Int
  rate_reduction : dtcp → dtcp × Int
  receiving_flow_control : dtcp → Nat → dtcp × Int
  rcvr_ack : dtcp → Nat → dtcp × Int

/-- A call through the member `h` of the policy table: the call is recorded, then the policy
runs. -/
def invoke (h : hook) (f : dtcp → dtcp × Int) (d : dtcp) : dtcp × Int :=
  f (record d (event.policy h))

/-- The policy `default_sv_update`: `retval` starts at 0 and becomes -1 when a sub-policy
returns non-zero. -/
def default_sv_update (pol : sv_update_policies) (d : dtcp) (seq : Nat) : dtcp × Int :=
  match dtcp_config_get d with
  | none => (d, -1)
  | some cfg =>
    let flow_ctrl := dtcp_flow_ctrl (some cfg)
    let win_based := dtcp_window_based_fctrl (some cfg)
    let rate_based := dtcp_rate_based_fctrl (some cfg)
    let rtx_ctrl := dtcp_rtx_ctrl (some cfg)
    if flow_ctrl then
      let r1 : dtcp × Int :=
        if win_based then
          ((invoke hook.rcvr_flow_control (fun x => pol.rcvr_flow_control x seq) d).1,
            if (invoke hook.rcvr_flow_control (fun x => pol.rcvr_flow_control x seq) d).2 ≠ 0
            then -1 else 0)
        else (d, 0)
      let r2 : dtcp × Int :=
        if rate_based then
          ((invoke hook.rate_reduction pol.rate_reduction r1.1).1,
            if (invoke hook.rate_reduction pol.rate_reduction r1.1).2 ≠ 0 then -1 else r1.2)
        else r1
      if rtx_ctrl = false then
        ((invoke hook.receiving_flow_control
            (fun x => pol.receiving_flow_control x seq) r2.1).1,
          if (invoke hook.receiving_flow_control
            (fun x => pol.receiving_flow_control x seq) r2.1).2 ≠ 0 then -1 else r2.2)
      else
        ((invoke hook.rcvr_ack (fun x => pol.rcvr_ack x seq) r2.1).1,
          if (invoke hook.rcvr_ack (fun x => pol.rcvr_ack x seq) r2.1).2 ≠ 0 then -1
          else r2.2)
    else if rtx_ctrl then
      ((invoke hook.rcvr_ack (fun x => pol.rcvr_ack x seq) d).1,
        if (invoke hook.rcvr_ack (fun x => pol.rcvr_ack x seq) d).2 ≠ 0 then -1 else 0)
    else (d, 0)

/-- The calls made through the policy table that the trace of an instance records, in
order. -/
def policy_runs (d : dtcp) : List hook :=
  d.trace.filterMap fun e =>
    match e with
    | event.policy h => some h
    | _ => none

/-- A policy that makes no call through the policy table itself: the calls recorded after
it are those recorded before it. -/
def quiet (f : dtcp → dtcp × Int) : Prop :=
  ∀ d : dtcp, policy_runs (f d).1 = policy_runs d

/-- The sub-policies that `default_sv_update` runs for a configuration, in the order of the
code: the flow-control ones only when flow control is on. -/
def sv_update_runs (cfg : dtcp_config) : List hook :=
  if cfg.flow_ctrl then
    (if cfg.window_based_fctrl then [hook.rcvr_flow_control] else []) ++
      (if cfg.rate_based_fctrl then [hook.rate_reduction] else []) ++
      [if cfg.rtx_ctrl then hook.rcvr_ack else hook.receiving_flow_control]
  else if cfg.rtx_ctrl then [hook.rcvr_ack] else []

/-- The value of a 32-bit unsigned read as a signed 32-bit integer, the cast `(int)`. -/
def to_int (n : Nat) : Int :=
  if n % SEQ_MOD < 2 ^ 31 then (n % SEQ_MOD : Nat) else (n % SEQ_MOD : Nat) - (2 ^ 32 : Int)

/-- The policy `default_sending_ack`. `process_A_expiration` is outside src/: it acts on
the DT parent and returns a sequence number; `sv_update` is the member of the policy
table, `none` when it is `NULL`. -/
def default_sending_ack (process_A_expiration : dt → dt × Nat)
    (sv_update : Option (dtcp → Nat → dtcp × Int)) (d : dtcp) : dtcp × Int :=
  match d.parent.dtp with
  | none => (d, -1)
  | some _ =>
    let seq_num := (process_A_expiration d.parent).2
    let d := { d with parent := (process_A_expiration d.parent).1 }
    if to_int seq_num < 0 then (d, -1)
    else
      match sv_update with
      | none => (d, -1)
      | some f => invoke hook.sv_update (fun x => f x seq_num) d

/-! ## Creation of an instance -/

/-- The state vector `default_sv`. -/
def default_sv : dtcp_sv :=
  { pdus_per_time_unit := 0, next_snd_ctl_seq := 0, last_rcv_ctl_seq := 0,
    last_snd_data_ack := 0, snd_lft_win := 0, data_retransmit_max := 0,
    last_rcv_data_ack := 0, time_unit := 0, sndr_credit := 1, snd_rt_wind_edge := 100,
    sndr_rate := 0, pdus_sent_in_time_unit := 0, rcvr_credit := 1, rcvr_rt_wind_edge := 100,
    rcvr_rate := 0, pdus_rcvd_in_time_unit := 0, acks := 0, flow_ctl := 0 }

/-- The state vector that `rkzalloc` returns, every field zero. -/
def zero_sv : dtcp_sv :=
  { pdus_per_time_unit := 0, next_snd_ctl_seq := 0, last_rcv_ctl_seq := 0,
    last_snd_data_ack := 0, snd_lft_win := 0, data_retransmit_max := 0,
    last_rcv_data_ack := 0, time_unit := 0, sndr_credit := 0, snd_rt_wind_edge := 0,
    sndr_rate := 0, pdus_sent_in_time_unit := 0, rcvr_credit := 0, rcvr_rt_wind_edge := 0,
    rcvr_rate := 0, pdus_rcvd_in_time_unit := 0, acks := 0, flow_ctl := 0 }

/-- The function `dtcp_sv_init` (the instance and its state vector are not null here). -/
def dtcp_sv_init (inst : dtcp) (sv : dtcp_sv) : dtcp × Int :=
  match dtcp_config_get inst with
  | none => (inst, -1)
  | some cfg =>
    let sv :=
      if dtcp_rtx_ctrl (some cfg) then
        { sv with data_retransmit_max := dtcp_data_retransmit_max cfg }
      else sv
    ({ inst with sv := { sv with
        sndr_credit := dtcp_initial_credit cfg, snd_rt_wind_edge := dtcp_initial_credit cfg,
        rcvr_credit := dtcp_initial_credit cfg,
        rcvr_rt_wind_edge := dtcp_initial_credit cfg } }, 0)

/-- The functions of dtcp.c that `default_policies` installs. -/
inductive policy_fn where
  | default_sv_update
  | default_lost_control_pdu
  | default_sender_ack
  | default_sending_ack
  | default_receiving_flow_control
  | default_flow_control_overrun
  | default_rcvr_ack
  | default_rcvr_ack_atimer
  | default_rcvr_flow_control
  | default_rate_reduction
  deriving DecidableEq, Repr

/-- The two build options that decide the `rcvr_ack` member of `default_policies`. -/
structure build_config where
  CONFIG_RINA_DTCP_RCVR_ACK : Bool
  CONFIG_RINA_DTCP_RCVR_ACK_ATIMER : Bool
  deriving DecidableEq, Repr

/-- The table `default_policies` as a whole: for each member the function installed, `none`
for `NULL`. With both build options the later initialiser of `rcvr_ack` stands; with
neither the member is not initialised and is `NULL`. -/
def default_policies_table (k : build_config) (h : hook) : Option policy_fn :=
  match h with
  | hook.flow_init => none
  | hook.sv_update => some policy_fn.default_sv_update
  | hook.lost_control_pdu => some policy_fn.default_lost_control_pdu
  | hook.rtt_estimator => none
  | hook.retransmission_timer_expiry => none
  | hook.received_retransmission => none
  | hook.sender_ack => some policy_fn.default_sender_ack
  | hook.sending_ack => some policy_fn.default_sending_ack
  | hook.receiving_ack_list => none
  | hook.initial_rate => none
  | hook.receiving_flow_control => some policy_fn.default_receiving_flow_control
  | hook.update_credit => none
  | hook.flow_control_overrun => some policy_fn.default_flow_control_overrun
  | hook.reconcile_flow_conflict => none
  | hook.rcvr_ack =>
    if k.CONFIG_RINA_DTCP_RCVR_ACK_ATIMER then some policy_fn.default_rcvr_ack_atimer
    else if k.CONFIG_RINA_DTCP_RCVR_ACK then some policy_fn.default_rcvr_ack
    else none
  | hook.rcvr_flow_control => some policy_fn.default_rcvr_flow_control
  | hook.rate_reduction => some policy_fn.default_rate_reduction
  | hook.rcvr_control_ack => none
  | hook.no_rate_slow_down => none
  | hook.no_override_default_peak => none

/-- Outcomes of the three allocations of `dtcp_create`; `true` is success. -/
structure create_env where
  alloc_dtcp : Bool
  alloc_sv : Bool
  alloc_policies : Bool
  deriving DecidableEq, Repr

/-- The function `dtcp_create`: the new instance and its policy table, `none` for `NULL`.
`rmt` tells whether an RMT was passed. -/
def dtcp_create (k : build_config) (m : create_env) (dt : Option dt)
    (conn : Option connection) (rmt : Bool) : Option (dtcp × (hook → Option policy_fn)) :=
  match dt with
  | none => none
  | some t =>
    match conn with
    | none => none
    | some c =>
      if rmt = false then none
      else if m.alloc_dtcp = false then none
      else if m.alloc_sv = false then none
      else if m.alloc_policies = false then none
      else if (dtcp_sv_init
          { parent := t, sv := zero_sv, conn := c, cpdus_in_transit := 0, trace := [] }
          default_sv).2 ≠ 0 then none
      else
        some ((dtcp_sv_init
          { parent := t, sv := zero_sv, conn := c, cpdus_in_transit := 0, trace := [] }
          default_sv).1, default_policies_table k)

/-- The function `dtcp_snd_lf_win_set`. -/
def dtcp_snd_lf_win_set (inst : dtcp) (seq_num : Nat) : dtcp × Int :=
  ({ inst with sv := { inst.sv with snd_lft_win := seq_num } }, 0)

/-- Modelled from the spec: the order `a ≤ b` of two 32-bit sequence numbers under the
signed-difference rule. -/
def seq_le (a b : Nat) : Prop :=
  int32_diff a b ≤ 0

/-- Modelled from the spec: the RTXQ operation `ack(seq, base_timeout_ms)`, which removes
the entries with a sequence number up to `seq`. -/
def spec_rtxq_ack (t : dt) (seq : Nat) (_tr : Nat) : dt :=
  { t with rtxq := t.rtxq.map fun q =>
      { entries := q.entries.filter fun s => decide (seq < s) } }

/-! ## Sending of an ACK or ACK+FC control PDU -/

/-- The function `pdu_send`. `rmt_send` is outside src/: it is given the destination
address, the QoS id and the PDU and returns 0 when the RMT took the PDU. -/
def pdu_send (rmt_send : Nat → Nat → pdu → Int) (d : dtcp) (p : pdu) : dtcp × Int :=
  if rmt_send d.conn.destination_address d.conn.qos_id p ≠ 0 then
    (record d (event.rmt_send d.conn.destination_address d.conn.qos_id), -1)
  else (record d (event.rmt_send d.conn.destination_address d.conn.qos_id), 0)

/-- The function `dtcp_ack_flow_control_pdu_send`. -/
def dtcp_ack_flow_control_pdu_send (lib : pdu_lib) (rmt_send : Nat → Nat → pdu → Int)
    (d : dtcp) (seq : Nat) : dtcp × Int :=
  let d := atomic_inc d
  match pdu_ctrl_type_get d seq with
  | (d, ZERO) => (atomic_dec d, 0)
  | (d, type) =>
    match pdu_ctrl_generate lib d type with
    | (d, none) => (atomic_dec d, -1)
    | (d, some p) =>
      if (pdu_send rmt_send d p).2 ≠ 0 then (atomic_dec (pdu_send rmt_send d p).1, -1)
      else (atomic_dec (pdu_send rmt_send d p).1, 0)

/-! ## Concrete instances used to evaluate the engine -/

/-- A concrete set of collaborators: the closed-window queue hands over every parked PDU
whose sequence number is below the sender right window edge and the DTP counts it as sent;
an RTXQ ack removes the entries up to the acked sequence number; a NACK leaves the queue
as it is. -/
def ext0 : collaborators :=
  { cwq_deliver := fun t sv _ _ =>
      { t with
        cwq := t.cwq.map fun q =>
          { entries := q.entries.filter fun s => decide (sv.snd_rt_wind_edge ≤ s) }
        dtp := t.dtp.map fun x =>
          { max_seq_nr_sent :=
              ((t.cwq.map fun q =>
                  q.entries.filter fun s => decide (s < sv.snd_rt_wind_edge)).getD []).foldl
                max x.max_seq_nr_sent } }
    rtxq_ack := fun t seq _ =>
      { t with rtxq := t.rtxq.map fun q =>
          { entries := q.entries.filter fun s => decide (seq < s) } }
    rtxq_nack := fun t _ _ => t }

/-- A configuration with flow control (window based) and retransmission control on. -/
def cfg0 : dtcp_config :=
  { flow_ctrl := true, window_based_fctrl := true, rate_based_fctrl := false,
    rtx_ctrl := true, initial_credit := 4, data_retransmit_max := 5 }

/-- A connection carrying `cfg0`. -/
def conn0 : connection :=
  { source_cep_id := 1, destination_cep_id := 2, source_address := 10,
    destination_address := 20, qos_id := 1, policies_params := some { dtcp_cfg := some cfg0 } }

/-- A state vector: last control sequence received `L`, sender window `[1, 4]`. -/
def sv0 (L : Nat) : dtcp_sv :=
  { pdus_per_time_unit := 0, next_snd_ctl_seq := 0, last_rcv_ctl_seq := L,
    last_snd_data_ack := 0, snd_lft_win := 1, data_retransmit_max := 5,
    last_rcv_data_ack := 0, time_unit := 0, sndr_credit := 4, snd_rt_wind_edge := 4,
    sndr_rate := 0, pdus_sent_in_time_unit := 0, rcvr_credit := 4, rcvr_rt_wind_edge := 4,
    rcvr_rate := 0, pdus_rcvd_in_time_unit := 0, acks := 0, flow_ctl := 0 }

/-- A DT parent that has sent the data PDUs 1 to 4, holds them for retransmission, has an
empty closed-window queue and a closed window. -/
def dt0 : dt :=
  { dtp := some { max_seq_nr_sent := 4 }, cwq := some { entries := [] },
    rtxq := some { entries := [1, 2, 3, 4] }, rcv_lft_win := 0, a := 0, tr := 100,
    window_closed := true }

/-- An instance over `dt0` whose last received control sequence number is `L`. -/
def d0 (L : Nat) : dtcp :=
  { parent := dt0, sv := sv0 L, conn := conn0, cpdus_in_transit := 0, trace := [] }

/-- A well-formed control PDU of type `t` with control sequence number `s`, acknowledging
up to 5 and announcing the right window edge 9. -/
def cpdu (t : pdu_type_t) (s : Nat) : pdu :=
  { ok := true
    pci :=
      { ok := true, type := t, source_cep_id := 2, destination_cep_id := 1,
        source_address := 20, destination_address := 10, qos_id := 1, sequence_number := s,
        last_seq_num_rcvd := 0, ack_seq_num := 5, new_rt_wind_edge := 9,
        new_left_wind_edge := 5, my_rt_wind_edge := 4, my_left_wind_edge := 0 } }

/-- The instance `d0 L` without a closed-window queue (flow control not window based). -/
def d0_no_cwq (L : Nat) : dtcp :=
  { d0 L with parent := { dt0 with cwq := none } }

/-- Processing of a finite sequence of received PDUs, in order. -/
def rcv_all (ext : collaborators) (pol : dtcp_policies) (d : dtcp) (ps : List pdu) : dtcp :=
  ps.foldl (fun acc p => (dtcp_common_rcv_control ext pol acc p).1) d

/-- A PDU library in which every call succeeds. -/
def lib_ok : pdu_lib :=
  { buffer_create_ni := true, pdu_create_ni := true, pci_create_ni := true,
    pci_format := true, pci_control_last_seq_num_rcvd_set := true, pdu_pci_set := true,
    pdu_buffer_set := true, pci_control_ack_seq_num_set := true }

/-- A build with neither `rcvr_ack` option. -/
def k0 : build_config :=
  { CONFIG_RINA_DTCP_RCVR_ACK := false, CONFIG_RINA_DTCP_RCVR_ACK_ATIMER := false }

/-- Allocations that all succeed. -/
def m_ok : create_env :=
  { alloc_dtcp := true, alloc_sv := true, alloc_policies := true }

/-- The instance `d0 0` with the configuration `cfg`. -/
def d_cfg (cfg : dtcp_config) : dtcp :=
  { d0 0 with conn := { conn0 with policies_params := some { dtcp_cfg := some cfg } } }

/-- Sub-policies that leave the instance as it is and return the given values. -/
def stub_policies (rc1 rc2 rc3 rc4 : Int) : sv_update_policies :=
  { rcvr_flow_control := fun d _ => (d, rc1)
    rate_reduction := fun d => (d, rc2)
    receiving_flow_control := fun d _ => (d, rc3)
    rcvr_ack := fun d _ => (d, rc4) }

/-- An A-timer expiry step that moves the receiver left window edge to `n` and returns
it. -/
def pA0 (n : Nat) (t : dt) : dt × Nat :=
  ({ t with rcv_lft_win := n }, n)

/-- The instance `d0 0` with the receiver left window edge at 3: the data PDUs 1 and 2 are
delivered and not acknowledged yet. -/
def d_lwe3 : dtcp :=
  { d0 0 with parent := { dt0 with rcv_lft_win := 3 } }

/-- An RMT that takes every PDU. -/
def rmt_ok (_address _qos_id : Nat) (_p : pdu) : Int :=
  0

/-- An RMT that refuses every PDU. -/
def rmt_fail (_address _qos_id : Nat) (_p : pdu) : Int :=
  -1

end Dtcp

/-!
# Transmit credit of the Xen back end (linux/net/rina/vmpi/xen-mpi-back.c)

The function `tx_add_credit` over an `unsigned long` of a given width: the fields are
natural numbers and the one addition the C code performs is reduced modulo `2 ^ bits`.
-/

namespace XenMpi

/-- The fields of `struct vmpi_impl_info` that `tx_add_credit` reads and writes, with the
size of the request at the consumer index of the TX ring,
`RING_GET_REQUEST(&vif->tx, vif->tx.req_cons)->size`. -/
structure vmpi_impl_info where
  remaining_credit : Nat
  credit_bytes : Nat
  tx_req_size : Nat
  deriving DecidableEq, Repr

/-- The value `ULONG_MAX` for an `unsigned long` of `bits` bits. -/
def ULONG_MAX (bits : Nat) : Nat :=
  2 ^ bits - 1

/-- The function `tx_add_credit`, on an `unsigned long` of `bits` bits: the sum of the
remaining credit and the credit chunk wraps modulo `2 ^ bits`. -/
def tx_add_credit (bits : Nat) (vif : vmpi_impl_info) : vmpi_impl_info :=
  let max_burst := vif.tx_req_size
  let max_burst := min max_burst 131072
  let max_burst := max max_burst vif.credit_bytes
  let max_credit := (vif.remaining_credit + vif.credit_bytes) % 2 ^ bits
  let max_credit := if max_credit < vif.remaining_credit then ULONG_MAX bits else max_credit
  { vif with remaining_credit := min max_credit max_burst }

/-- An interface on a 64-bit machine whose remaining credit is 9 below `ULONG_MAX`, with a
credit chunk of 100 bytes and a request of 50 bytes at the consumer index. -/
def vif_near_max : vmpi_impl_info :=
  { remaining_credit := 2 ^ 64 - 10, credit_bytes := 100, tx_req_size := 50 }

end XenMpi

/-!
# Enrollment state machines (rinad/src/ipcp/enrollment-task.cc)

The enrollee and the enroller state machines, one pass of the neighbor enroller and one
pass of the watchdog.

* A method of a state machine becomes a function from the machine to the machine after the
  call; a method that can raise an exception returns a pair whose second component says
  whether it did, and a method that can dereference a null pointer returns an `Option`.
* The lock is not represented, and of the log lines only the one of
  `EnrollerStateMachine::start` that reads through `eiRequest`. The calls on the RIB daemon,
  the enrollment task, the kernel and the IPC manager are recorded, in order, in the `trace`
  of the machine.
* Code outside enrollment-task.cc is a parameter: the result of `isValidPortId` is an
  argument of each handler that calls it, the answers of the IPC process, the security
  manager and the namespace manager and the calls that raise an exception are given by the
  environment of a call. `abortEnrollment` is modelled from the spec.
* Names (process names, DIF names) are numbers; reason strings are the constructors of
  `reason_t`.
* Times of the watchdog are integers.
-/

namespace Enrollment

/-- The states of `BaseEnrollmentStateMachine` (the `STATE_*` string constants of
enrollment-task.cc, with `STATE_NULL` and `STATE_ENROLLED` of the base interface). -/
inductive state_t
  | STATE_NULL
  | STATE_WAIT_CONNECT_RESPONSE
  | STATE_WAIT_START_ENROLLMENT_RESPONSE
  | STATE_WAIT_READ_RESPONSE
  | STATE_WAIT_START
  | STATE_WAIT_START_ENROLLMENT
  | STATE_WAIT_STOP_ENROLLMENT_RESPONSE
  | STATE_ENROLLED
  deriving DecidableEq, Repr

open state_t

/-- The reason strings of `BaseEnrollmentStateMachine`, the two string literals used in
place, the text of a caught exception (`e.what()`) and the reason carried by a message
(`result_reason`). -/
inductive reason_t
  | CONNECT_RESPONSE_TIMEOUT
  | START_RESPONSE_TIMEOUT
  | START_IN_BAD_STATE
  | STOP_ENROLLMENT_TIMEOUT
  | STOP_IN_BAD_STATE
  | STOP_WITH_NO_OBJECT_VALUE
  | READ_RESPONSE_TIMEOUT
  | PROBLEMS_COMMITTING_ENROLLMENT_INFO
  | START_TIMEOUT
  | READ_RESPONSE_IN_BAD_STATE
  | CONNECT_IN_NOT_NULL
  | ENROLLMENT_NOT_ALLOWED
  | START_ENROLLMENT_TIMEOUT
  | STOP_ENROLLMENT_RESPONSE_TIMEOUT
  | STOP_RESPONSE_IN_BAD_STATE
  | MESSAGE_RECEIVED_IN_WRONG_ORDER
  | COULD_NOT_ASSIGN_A_VALID_ADDRESS
  | exception_what
  | result_reason
  deriving DecidableEq, Repr

open reason_t

/-- The class `EnrollmentInformationRequest`; names of supporting DIFs are numbers. -/
structure EnrollmentInformationRequest where
  address_ : Nat
  supporting_difs_ : List Nat
  allowed_to_start_early_ : Bool
  deriving DecidableEq, Repr

/-- The class `EnrollmentFailedTimerTask`: running it calls
`abortEnrollment (reason_, enrollee_, true)` on its state machine. -/
structure EnrollmentFailedTimerTask where
  reason_ : reason_t
  enrollee_ : Bool
  deriving DecidableEq, Repr

/-- The objects an enrollee reads from the enroller (`sendNextObjectRequired`), and any
other object name a read response may carry. -/
inductive rib_object
  | DATA_TRANSFER_CONSTANTS
  | QOS_CUBE_SET
  | NEIGHBOR_SET
  | other
  deriving DecidableEq, Repr

/-- The calls a state machine makes on its collaborators (RIB daemon, enrollment task,
kernel, IPC manager), in the order made. `requestMoreInformationOrStart` is not a call on a
collaborator: it marks each entry into that function, with the value
`allowed_to_start_early_` has there. -/
inductive action
  | abortEnrollment (portId : Int) (reason : reason_t) (enrollee sendReleaseMessage : Bool)
  | enrollmentFailed (portId : Int) (reason : reason_t) (enrollee sendReleaseMessage : Bool)
  | enrollmentCompleted (enrollee : Bool)
  | openApplicationConnection (portId : Int)
  | openApplicationConnectionResponse (portId : Int) (invoke_id : Int)
  | remoteStartObject (portId : Int) (object_value : Option EnrollmentInformationRequest)
  | remoteStartObjectResponse (portId : Int) (object_value : Option EnrollmentInformationRequest)
      (result : Int) (invoke_id : Int)
  | remoteStopObject (portId : Int) (object_value : EnrollmentInformationRequest)
  | remoteStopObjectResponse (portId : Int) (result : Int) (invoke_id : Int)
  | remoteReadObject (portId : Int) (object : rib_object)
  | writeObject (address : Nat)
  | createObject (object : rib_object)
  | startObject
  | sendDFTEntries
  | sendNeighbors
  | sendCreateInformation (object : Nat)
  | createOrUpdateNeighborInformation
  | assignToDIF
  | enrollToDIFResponse
  | requestMoreInformationOrStart (allowed_to_start_early_ : Bool)
  deriving DecidableEq, Repr

/-- The fields of `BaseEnrollmentStateMachine` the handlers use. `last_scheduled_task_` is
the task scheduled on `timer_` and still pending: `none` when no task was scheduled, when the
task was cancelled or has run, or when the timer was deleted. `trace` lists the calls made
so far. -/
structure BaseEnrollmentStateMachine where
  state_ : state_t
  port_id_ : Int
  remote_peer_address_ : Nat
  remote_peer_supporting_difs_ : List Nat
  last_scheduled_task_ : Option EnrollmentFailedTimerTask
  trace : List action
  deriving DecidableEq, Repr

/-- The class `EnrolleeStateMachine`. -/
structure EnrolleeStateMachine extends BaseEnrollmentStateMachine where
  was_dif_member_before_enrollment_ : Bool
  enrollment_request_ : Bool
  allowed_to_start_early_ : Bool
  stop_request_invoke_id_ : Int
  deriving DecidableEq, Repr

/-- The class `EnrollerStateMachine`. -/
structure EnrollerStateMachine extends BaseEnrollmentStateMachine where
  enroller_ : Bool
  deriving DecidableEq, Repr

/-- What the handlers of the enrollee read from the IPC process, and which of the calls
that sit inside a `try` block raise an exception. Exceptions that the source swallows
without any effect on the machine (`writeObject`, `createObject`, `startObject`,
`remoteReadObject`, `assignToDIF`, `enrollToDIFResponse`) are left out. -/
structure enrollee_env where
  address : Nat
  supporting_difs : List Nat
  assigned_to_dif : Bool
  data_transfer_constants_isInitialized : Bool
  qos_cubes_size : Nat
  neighbors_size : Nat
  openApplicationConnection_throws : Bool
  remoteStartObject_throws : Bool
  remoteStopObjectResponse_throws : Int → Bool
  enrollmentCompleted_throws : Bool

/-- Modelled from the spec: `abortEnrollment` of the base state machine, which is declared
outside the source tree. The spec has a failure-abort clear the state of the machine; the
call and its arguments are recorded for the enrollment task. -/
def abortEnrollment (m : BaseEnrollmentStateMachine) (portId : Int) (reason : reason_t)
    (enrollee sendReleaseMessage : Bool) : BaseEnrollmentStateMachine :=
  { m with
    state_ := STATE_NULL
    trace := m.trace ++ [action.abortEnrollment portId reason enrollee sendReleaseMessage] }

/-- The call `timer_->scheduleTask (last_scheduled_task_, timeout_)` on a new
`EnrollmentFailedTimerTask (this, reason, true)`. -/
def scheduleTask (m : BaseEnrollmentStateMachine) (reason : reason_t) :
    BaseEnrollmentStateMachine :=
  { m with last_scheduled_task_ := some { reason_ := reason, enrollee_ := true } }

/-- The call `timer_->cancelTask (last_scheduled_task_)`. -/
def cancelTask (m : BaseEnrollmentStateMachine) : BaseEnrollmentStateMachine :=
  { m with last_scheduled_task_ := none }

/-- Append a call to the trace. -/
def log (m : BaseEnrollmentStateMachine) (a : action) : BaseEnrollmentStateMachine :=
  { m with trace := m.trace ++ [a] }

/-- The method `EnrollmentFailedTimerTask::run` for the pending task, if there is one. -/
def EnrollmentFailedTimerTask_run (m : BaseEnrollmentStateMachine) :
    BaseEnrollmentStateMachine :=
  match m.last_scheduled_task_ with
  | none => m
  | some t =>
    abortEnrollment { m with last_scheduled_task_ := none } m.port_id_ t.reason_ t.enrollee_ true

namespace EnrolleeStateMachine

/-- The constructor of `EnrolleeStateMachine`, for a machine of the given port. The
constructor of the base class is outside the source tree: the machine starts in `STATE_NULL`,
the first state of the chain in the spec, with no task scheduled. -/
def create (portId : Int) : EnrolleeStateMachine :=
  { state_ := STATE_NULL
    port_id_ := portId
    remote_peer_address_ := 0
    remote_peer_supporting_difs_ := []
    last_scheduled_task_ := none
    trace := []
    was_dif_member_before_enrollment_ := false
    enrollment_request_ := false
    allowed_to_start_early_ := false
    stop_request_invoke_id_ := 0 }

/-- Apply a change of the base fields to an enrollee. -/
def onBase (m : EnrolleeStateMachine)
    (f : BaseEnrollmentStateMachine → BaseEnrollmentStateMachine) : EnrolleeStateMachine :=
  { m with toBaseEnrollmentStateMachine := f m.toBaseEnrollmentStateMachine }

/-- The call `abortEnrollment (remote_peer_->name_, port_id_, reason, enrollee, release)`. -/
def abort (m : EnrolleeStateMachine) (reason : reason_t) (enrollee release : Bool) :
    EnrolleeStateMachine :=
  m.onBase (fun b => abortEnrollment b b.port_id_ reason enrollee release)

/-- The method `EnrolleeStateMachine::initiateEnrollment`; the second component says
whether it raised an exception. -/
def initiateEnrollment (env : enrollee_env) (m : EnrolleeStateMachine)
    (neighbor_address : Nat) (portId : Int) : EnrolleeStateMachine × Bool :=
  let m := { m with enrollment_request_ := true, remote_peer_address_ := neighbor_address }
  if m.state_ ≠ STATE_NULL then (m, true)
  else
    let m := m.onBase (fun b => log b (action.openApplicationConnection portId))
    if env.openApplicationConnection_throws then (m.abort exception_what true false, false)
    else
      let m := { m with port_id_ := portId }
      let m := m.onBase (fun b => scheduleTask b CONNECT_RESPONSE_TIMEOUT)
      ({ m with state_ := STATE_WAIT_CONNECT_RESPONSE }, false)

/-- The method `EnrolleeStateMachine::connectResponse`. -/
def connectResponse (env : enrollee_env) (m : EnrolleeStateMachine) (result : Int) :
    EnrolleeStateMachine :=
  if m.state_ ≠ STATE_WAIT_CONNECT_RESPONSE then
    m.abort MESSAGE_RECEIVED_IN_WRONG_ORDER true true
  else
    let m := m.onBase cancelTask
    if result ≠ 0 then
      let m := { m with state_ := STATE_NULL }
      m.onBase (fun b => log b (action.enrollmentFailed b.port_id_ result_reason true true))
    else
      let m := if env.address ≠ 0 then { m with was_dif_member_before_enrollment_ := true } else m
      let eiRequest : EnrollmentInformationRequest :=
        { address_ := env.address
          supporting_difs_ := env.supporting_difs
          allowed_to_start_early_ := false }
      let m := m.onBase (fun b => log b (action.remoteStartObject b.port_id_ (some eiRequest)))
      if env.remoteStartObject_throws then m
      else
        let m := m.onBase (fun b => scheduleTask b START_RESPONSE_TIMEOUT)
        { m with state_ := STATE_WAIT_START_ENROLLMENT_RESPONSE }

/-- The method `EnrolleeStateMachine::startResponse`; `valid_port` is the result of
`isValidPortId (session_descriptor)`. -/
def startResponse (m : EnrolleeStateMachine) (valid_port : Bool) (result : Int)
    (object_value : Option EnrollmentInformationRequest) : EnrolleeStateMachine :=
  if !valid_port then m
  else if m.state_ ≠ STATE_WAIT_START_ENROLLMENT_RESPONSE then
    m.abort START_IN_BAD_STATE true true
  else
    let m := m.onBase cancelTask
    if result ≠ 0 then
      let m := { m with state_ := STATE_NULL }
      m.onBase (fun b => log b (action.enrollmentFailed b.port_id_ result_reason true true))
    else
      let m :=
        match object_value with
        | some response => m.onBase (fun b => log b (action.writeObject response.address_))
        | none => m
      let m := m.onBase (fun b => scheduleTask b STOP_ENROLLMENT_TIMEOUT)
      { m with state_ := STATE_WAIT_STOP_ENROLLMENT_RESPONSE }

/-- The method `EnrolleeStateMachine::sendNextObjectRequired`. -/
def sendNextObjectRequired (env : enrollee_env) (m : EnrolleeStateMachine) :
    EnrolleeStateMachine × Bool :=
  if !env.data_transfer_constants_isInitialized then
    (m.onBase (fun b => log b (action.remoteReadObject b.port_id_
      rib_object.DATA_TRANSFER_CONSTANTS)), true)
  else if env.qos_cubes_size = 0 then
    (m.onBase (fun b => log b (action.remoteReadObject b.port_id_ rib_object.QOS_CUBE_SET)), true)
  else if env.neighbors_size = 0 then
    (m.onBase (fun b => log b (action.remoteReadObject b.port_id_ rib_object.NEIGHBOR_SET)), true)
  else (m, false)

/-- The method `EnrolleeStateMachine::commitEnrollment`. -/
def commitEnrollment (m : EnrolleeStateMachine) : EnrolleeStateMachine :=
  m.onBase (fun b => log b action.startObject)

/-- The method `EnrolleeStateMachine::enrollmentCompleted`; the second component says
whether one of its calls outside a `try` block raised an exception, taken to be the first
of them. -/
def enrollmentCompleted (env : enrollee_env) (m : EnrolleeStateMachine) :
    EnrolleeStateMachine × Bool :=
  let m := m.onBase cancelTask
  let m := { m with state_ := STATE_ENROLLED }
  let m := m.onBase (fun b => log b action.createOrUpdateNeighborInformation)
  if env.enrollmentCompleted_throws then (m, true)
  else
    let m := m.onBase (fun b => log b (action.sendCreateInformation 0))
    let m := m.onBase (fun b => log b (action.enrollmentCompleted true))
    let m := if !m.was_dif_member_before_enrollment_ then
        m.onBase (fun b => log b action.assignToDIF) else m
    let m := if m.enrollment_request_ then
        m.onBase (fun b => log b action.enrollToDIFResponse) else m
    (m, false)

/-- The `catch` block of the early-start branch of `requestMoreInformationOrStart`: the
negative `M_STOP_R`, whose exception is not caught here, then the abort. -/
def requestMoreInformationOrStart_catch (env : enrollee_env) (m : EnrolleeStateMachine) :
    EnrolleeStateMachine × Bool :=
  let m := m.onBase (fun b => log b
    (action.remoteStopObjectResponse b.port_id_ (-1) m.stop_request_invoke_id_))
  if env.remoteStopObjectResponse_throws (-1) then (m, true)
  else (m.abort PROBLEMS_COMMITTING_ENROLLMENT_INFO true true, false)

/-- The method `EnrolleeStateMachine::requestMoreInformationOrStart`; the second component
says whether it raised an exception. -/
def requestMoreInformationOrStart (env : enrollee_env) (m : EnrolleeStateMachine) :
    EnrolleeStateMachine × Bool :=
  let m := m.onBase (fun b => log b
    (action.requestMoreInformationOrStart m.allowed_to_start_early_))
  if (sendNextObjectRequired env m).2 then
    let m := (sendNextObjectRequired env m).1
    let m := m.onBase (fun b => scheduleTask b READ_RESPONSE_TIMEOUT)
    ({ m with state_ := STATE_WAIT_READ_RESPONSE }, false)
  else
    let m := (sendNextObjectRequired env m).1
    if m.allowed_to_start_early_ then
      let m := commitEnrollment m
      let m := m.onBase (fun b => log b
        (action.remoteStopObjectResponse b.port_id_ 0 m.stop_request_invoke_id_))
      if env.remoteStopObjectResponse_throws 0 then requestMoreInformationOrStart_catch env m
      else if (enrollmentCompleted env m).2 then
        requestMoreInformationOrStart_catch env (enrollmentCompleted env m).1
      else ((enrollmentCompleted env m).1, false)
    else
      let m := m.onBase (fun b => log b
        (action.remoteStopObjectResponse b.port_id_ 0 m.stop_request_invoke_id_))
      let m := m.onBase (fun b => scheduleTask b START_TIMEOUT)
      ({ m with state_ := STATE_WAIT_START }, false)

/-- The method `EnrolleeStateMachine::stop`; `eiRequest` is `none` for a null pointer, and
the result is `none` when the method dereferences it. -/
def stop (env : enrollee_env) (m : EnrolleeStateMachine) (valid_port : Bool)
    (eiRequest : Option EnrollmentInformationRequest) (invoke_id : Int) :
    Option EnrolleeStateMachine :=
  if !valid_port then some m
  else if m.state_ ≠ STATE_WAIT_STOP_ENROLLMENT_RESPONSE then
    some (m.abort STOP_IN_BAD_STATE true true)
  else
    let m := m.onBase cancelTask
    match eiRequest with
    | none => none
    | some eiRequest =>
      if !eiRequest.allowed_to_start_early_ then
        some (m.abort STOP_WITH_NO_OBJECT_VALUE true true)
      else
        let m := { m with
          allowed_to_start_early_ := eiRequest.allowed_to_start_early_
          stop_request_invoke_id_ := invoke_id }
        let m := if env.assigned_to_dif then m.onBase (fun b => log b action.sendDFTEntries) else m
        if (requestMoreInformationOrStart env m).2 then
          some ((requestMoreInformationOrStart env m).1.abort exception_what true true)
        else some (requestMoreInformationOrStart env m).1

/-- The method `EnrolleeStateMachine::readResponse`; `object_value` is `none` for a null
pointer and names the object otherwise; the second component says whether the method
raised an exception. -/
def readResponse (env : enrollee_env) (m : EnrolleeStateMachine) (valid_port : Bool)
    (result : Int) (object_value : Option rib_object) : EnrolleeStateMachine × Bool :=
  if !valid_port then (m, false)
  else if m.state_ ≠ STATE_WAIT_READ_RESPONSE then
    (m.abort READ_RESPONSE_IN_BAD_STATE true true, false)
  else
    let m := m.onBase cancelTask
    match object_value with
    | none => (m.abort result_reason true true, false)
    | some object =>
      if result ≠ 0 then (m.abort result_reason true true, false)
      else
        let m := if object = rib_object.other then m
          else m.onBase (fun b => log b (action.createObject object))
        requestMoreInformationOrStart env m

/-- The method `EnrolleeStateMachine::start`. -/
def start (env : enrollee_env) (m : EnrolleeStateMachine) (valid_port : Bool) (result : Int) :
    EnrolleeStateMachine :=
  if !valid_port then m
  else if m.state_ = STATE_ENROLLED then m
  else if m.state_ ≠ STATE_WAIT_START then m.abort START_IN_BAD_STATE true true
  else
    let m := m.onBase cancelTask
    if result ≠ 0 then m.abort result_reason true true
    else
      let m := commitEnrollment m
      if (enrollmentCompleted env m).2 then
        (enrollmentCompleted env m).1.abort PROBLEMS_COMMITTING_ENROLLMENT_INFO true true
      else (enrollmentCompleted env m).1

end EnrolleeStateMachine

/-- The calls that reach an enrollee state machine: its six handlers with their arguments,
and the expiry of the pending timer task. -/
inductive enrollee_input
  | initiateEnrollment (neighbor_address : Nat) (portId : Int)
  | connectResponse (result : Int)
  | startResponse (valid_port : Bool) (result : Int)
      (object_value : Option EnrollmentInformationRequest)
  | stop (valid_port : Bool) (eiRequest : Option EnrollmentInformationRequest) (invoke_id : Int)
  | readResponse (valid_port : Bool) (result : Int) (object_value : Option rib_object)
  | start (valid_port : Bool) (result : Int)
  | timeout

/-- One call on an enrollee, in the environment of that call; an exception leaves the
method and the machine stays as the method left it. The result is `none` when the call
dereferences a null pointer. -/
def enrollee_step (m : EnrolleeStateMachine) (c : enrollee_env × enrollee_input) :
    Option EnrolleeStateMachine :=
  match c.2 with
  | enrollee_input.initiateEnrollment a p => some (m.initiateEnrollment c.1 a p).1
  | enrollee_input.connectResponse r => some (m.connectResponse c.1 r)
  | enrollee_input.startResponse v r o => some (m.startResponse v r o)
  | enrollee_input.stop v e i => m.stop c.1 v e i
  | enrollee_input.readResponse v r o => some (m.readResponse c.1 v r o).1
  | enrollee_input.start v r => some (m.start c.1 v r)
  | enrollee_input.timeout => some (m.onBase EnrollmentFailedTimerTask_run)

/-- A sequence of calls on an enrollee, from the first to the last. -/
def enrollee_run (m : EnrolleeStateMachine) :
    List (enrollee_env × enrollee_input) → Option EnrolleeStateMachine
  | [] => some m
  | c :: cs =>
    match enrollee_step m c with
    | none => none
    | some m1 => enrollee_run m1 cs

/-- The order of the enrollee states along the enrollment: the states a handler can move to
from a state. -/
def enrollee_next : state_t → state_t → Bool
  | STATE_NULL, STATE_WAIT_CONNECT_RESPONSE => true
  | STATE_WAIT_CONNECT_RESPONSE, STATE_WAIT_START_ENROLLMENT_RESPONSE => true
  | STATE_WAIT_START_ENROLLMENT_RESPONSE, STATE_WAIT_STOP_ENROLLMENT_RESPONSE => true
  | STATE_WAIT_STOP_ENROLLMENT_RESPONSE, STATE_WAIT_READ_RESPONSE => true
  | STATE_WAIT_STOP_ENROLLMENT_RESPONSE, STATE_WAIT_START => true
  | STATE_WAIT_STOP_ENROLLMENT_RESPONSE, STATE_ENROLLED => true
  | STATE_WAIT_READ_RESPONSE, STATE_WAIT_READ_RESPONSE => true
  | STATE_WAIT_READ_RESPONSE, STATE_WAIT_START => true
  | STATE_WAIT_READ_RESPONSE, STATE_ENROLLED => true
  | STATE_WAIT_START, STATE_ENROLLED => true
  | _, _ => false

/-- The states in which the enrollee waits for its peer. -/
def enrollee_waiting : state_t → Bool
  | STATE_WAIT_CONNECT_RESPONSE => true
  | STATE_WAIT_START_ENROLLMENT_RESPONSE => true
  | STATE_WAIT_STOP_ENROLLMENT_RESPONSE => true
  | STATE_WAIT_READ_RESPONSE => true
  | STATE_WAIT_START => true
  | _ => false

/-- What the handlers of the enroller read from the security manager and the namespace
manager, whether the macro `LOG_IPCP_DBG` evaluates its arguments, and which of the calls
inside a `try` block raise an exception. `isValidAddress` is `none` for an address on which
the namespace manager raises an exception. -/
structure enroller_env where
  isAllowedToJoinDIF : Bool
  LOG_IPCP_DBG_evaluates : Bool
  isValidAddress : Nat → Option Bool
  getValidAddress : Nat
  openApplicationConnectionResponse_throws : Bool
  remoteStartObjectResponse_throws : Int → Bool
  remoteStopObject_throws : Bool

namespace EnrollerStateMachine

/-- The constructor of `EnrollerStateMachine`, for a machine of the given port. The
constructor of the base class is outside the source tree: the machine starts in `STATE_NULL`,
the first state of the chain in the spec, with no task scheduled. -/
def create (portId : Int) : EnrollerStateMachine :=
  { state_ := STATE_NULL
    port_id_ := portId
    remote_peer_address_ := 0
    remote_peer_supporting_difs_ := []
    last_scheduled_task_ := none
    trace := []
    enroller_ := true }

/-- Apply a change of the base fields to an enroller. -/
def onBase (m : EnrollerStateMachine)
    (f : BaseEnrollmentStateMachine → BaseEnrollmentStateMachine) : EnrollerStateMachine :=
  { m with toBaseEnrollmentStateMachine := f m.toBaseEnrollmentStateMachine }

/-- The call `abortEnrollment (remote_peer_->name_, port_id_, reason, enrollee, release)`. -/
def abort (m : EnrollerStateMachine) (reason : reason_t) (enrollee release : Bool) :
    EnrollerStateMachine :=
  m.onBase (fun b => abortEnrollment b b.port_id_ reason enrollee release)

/-- The method `EnrollerStateMachine::connect`; `session_port_id` is
`session_descriptor->port_id_`. -/
def connect (env : enroller_env) (m : EnrollerStateMachine) (invoke_id : Int)
    (session_port_id : Int) : EnrollerStateMachine :=
  if m.state_ ≠ STATE_NULL then
    m.onBase (fun b => abortEnrollment b session_port_id CONNECT_IN_NOT_NULL false true)
  else if !env.isAllowedToJoinDIF then m.abort ENROLLMENT_NOT_ALLOWED false true
  else
    let m := { m with port_id_ := session_port_id }
    let m := m.onBase (fun b => log b
      (action.openApplicationConnectionResponse b.port_id_ invoke_id))
    if env.openApplicationConnectionResponse_throws then m.abort exception_what false true
    else
      let m := m.onBase (fun b => scheduleTask b START_ENROLLMENT_TIMEOUT)
      { m with state_ := STATE_WAIT_START_ENROLLMENT }

/-- The method `EnrollerStateMachine::sendNegativeStartResponseAndAbortEnrollment`. -/
def sendNegativeStartResponseAndAbortEnrollment (env : enroller_env)
    (m : EnrollerStateMachine) (result : Int) (resultReason : reason_t) (invoke_id : Int) :
    EnrollerStateMachine :=
  let m := m.onBase (fun b => log b
    (action.remoteStartObjectResponse b.port_id_ none result invoke_id))
  if env.remoteStartObjectResponse_throws result then m
  else m.abort resultReason false true

/-- The method `EnrollerStateMachine::sendDIFStaticInformation`. -/
def sendDIFStaticInformation (m : EnrollerStateMachine) : EnrollerStateMachine :=
  let m := m.onBase (fun b => log b (action.sendCreateInformation 0))
  let m := m.onBase (fun b => log b (action.sendCreateInformation 1))
  m.onBase (fun b => log b (action.sendCreateInformation 2))

/-- The method `BaseEnrollmentStateMachine::sendDIFDynamicInformation`. -/
def sendDIFDynamicInformation (m : EnrollerStateMachine) : EnrollerStateMachine :=
  let m := m.onBase (fun b => log b action.sendDFTEntries)
  m.onBase (fun b => log b action.sendNeighbors)

/-- The part of `EnrollerStateMachine::start` from the positive `M_START_R` on, where
`eiRequest` is a request that exists. -/
def start_respond (env : enroller_env) (m : EnrollerStateMachine)
    (requiresInitialization : Bool) (eiRequest : EnrollmentInformationRequest)
    (invoke_id : Int) : EnrollerStateMachine :=
  let object_value := if requiresInitialization then some eiRequest else none
  let m := m.onBase (fun b => log b
    (action.remoteStartObjectResponse b.port_id_ object_value 0 invoke_id))
  if env.remoteStartObjectResponse_throws 0 then
    sendNegativeStartResponseAndAbortEnrollment env m (-1) exception_what invoke_id
  else
    let m := { m with remote_peer_address_ := eiRequest.address_ }
    let m := if requiresInitialization then sendDIFStaticInformation m else m
    let m := sendDIFDynamicInformation m
    let eiRequest := { eiRequest with allowed_to_start_early_ := true }
    let m := m.onBase (fun b => log b (action.remoteStopObject b.port_id_ eiRequest))
    if env.remoteStopObject_throws then
      sendNegativeStartResponseAndAbortEnrollment env m (-1) exception_what invoke_id
    else
      let m := m.onBase (fun b => scheduleTask b STOP_ENROLLMENT_RESPONSE_TIMEOUT)
      { m with state_ := STATE_WAIT_STOP_ENROLLMENT_RESPONSE }

/-- The method `EnrollerStateMachine::start`; `eiRequest` is `none` for a null pointer
(`EnrollmentRIBObject::remoteStartObject` passes one for a START without object value), and
the result is `none` when the method dereferences it. -/
def start (env : enroller_env) (m : EnrollerStateMachine) (valid_port : Bool)
    (eiRequest : Option EnrollmentInformationRequest) (invoke_id : Int) :
    Option EnrollerStateMachine :=
  if !valid_port then some m
  else if m.state_ ≠ STATE_WAIT_START_ENROLLMENT then
    some (m.abort START_IN_BAD_STATE false true)
  else
    let m := m.onBase cancelTask
    match eiRequest with
    | none =>
      if env.LOG_IPCP_DBG_evaluates then none
      else if env.getValidAddress = 0 then
        some (sendNegativeStartResponseAndAbortEnrollment env m (-1)
          COULD_NOT_ASSIGN_A_VALID_ADDRESS invoke_id)
      else none
    | some eiRequest =>
      match env.isValidAddress eiRequest.address_ with
      | none =>
        some (sendNegativeStartResponseAndAbortEnrollment env m (-1) exception_what invoke_id)
      | some valid =>
        let m := { m with
          remote_peer_supporting_difs_ :=
            m.remote_peer_supporting_difs_ ++ eiRequest.supporting_difs_ }
        if !valid then
          if env.getValidAddress = 0 then
            some (sendNegativeStartResponseAndAbortEnrollment env m (-1)
              COULD_NOT_ASSIGN_A_VALID_ADDRESS invoke_id)
          else
            some (start_respond env m true
              { eiRequest with address_ := env.getValidAddress } invoke_id)
        else some (start_respond env m false eiRequest invoke_id)

/-- The method `EnrollerStateMachine::enrollmentCompleted`. -/
def enrollmentCompleted (m : EnrollerStateMachine) : EnrollerStateMachine :=
  let m := m.onBase cancelTask
  let m := { m with state_ := STATE_ENROLLED }
  let m := m.onBase (fun b => log b action.createOrUpdateNeighborInformation)
  m.onBase (fun b => log b (action.enrollmentCompleted false))

/-- The method `EnrollerStateMachine::stopResponse`. -/
def stopResponse (m : EnrollerStateMachine) (valid_port : Bool) (result : Int) :
    EnrollerStateMachine :=
  if !valid_port then m
  else if m.state_ ≠ STATE_WAIT_STOP_ENROLLMENT_RESPONSE then
    m.abort STOP_RESPONSE_IN_BAD_STATE false true
  else
    let m := m.onBase cancelTask
    if result ≠ 0 then
      let m := { m with state_ := STATE_NULL }
      m.onBase (fun b => log b (action.enrollmentFailed b.port_id_ result_reason false true))
    else
      let m := m.onBase (fun b => log b (action.remoteStartObject b.port_id_ none))
      enrollmentCompleted m

end EnrollerStateMachine

/-- The calls that reach an enroller state machine: its three handlers with their
arguments, and the expiry of the pending timer task. -/
inductive enroller_input
  | connect (invoke_id : Int) (session_port_id : Int)
  | start (valid_port : Bool) (eiRequest : Option EnrollmentInformationRequest) (invoke_id : Int)
  | stopResponse (valid_port : Bool) (result : Int)
  | timeout

/-- One call on an enroller, in the environment of that call. The result is `none` when
the call dereferences a null pointer. -/
def enroller_step (m : EnrollerStateMachine) (c : enroller_env × enroller_input) :
    Option EnrollerStateMachine :=
  match c.2 with
  | enroller_input.connect i p => some (m.connect c.1 i p)
  | enroller_input.start v e i => m.start c.1 v e i
  | enroller_input.stopResponse v r => some (m.stopResponse v r)
  | enroller_input.timeout => some (m.onBase EnrollmentFailedTimerTask_run)

/-- The order of the enroller states along the enrollment. -/
def enroller_next : state_t → state_t → Bool
  | STATE_NULL, STATE_WAIT_START_ENROLLMENT => true
  | STATE_WAIT_START_ENROLLMENT, STATE_WAIT_STOP_ENROLLMENT_RESPONSE => true
  | STATE_WAIT_STOP_ENROLLMENT_RESPONSE, STATE_ENROLLED => true
  | _, _ => false

/-- The fields of `rina::Neighbor` that the watchdog and the neighbor enroller use; process
names are numbers. -/
structure Neighbor where
  processName : Nat
  underlying_port_id_ : Int
  enrolled_ : Bool
  last_heard_from_time_in_ms_ : Int
  number_of_enrollment_attempts_ : Nat
  deriving DecidableEq, Repr

/-- The calls made by one pass of the neighbor enroller and of the watchdog. -/
inductive task_action
  | initiateEnrollment (processName : Nat)
  | deleteObject (processName : Nat)
  | deliverEvent_NeighborDeclaredDead (processName : Nat)
  | remoteReadObject (portId : Int)
  deriving DecidableEq, Repr

/-- The method `EnrollmentTask::isEnrolledTo` over the entries of `state_machines_`, each
given by the process name of its remote peer and its state. -/
def isEnrolledTo (state_machines_ : List (Nat × state_t)) (processName : Nat) : Bool :=
  match state_machines_ with
  | [] => false
  | it :: rest =>
    if it.1 = processName ∧ it.2 ≠ STATE_NULL then true else isEnrolledTo rest processName

/-- The body of the `for` loop of `doNeighborsEnrollerWork` for one neighbor: the neighbor
afterwards and the calls made. -/
def doNeighborsEnrollerWork_body (state_machines_ : List (Nat × state_t))
    (max_number_of_enrollment_attempts_ : Nat) (it : Neighbor) : Neighbor × List task_action :=
  if isEnrolledTo state_machines_ it.processName then (it, [])
  else if it.number_of_enrollment_attempts_ < max_number_of_enrollment_attempts_ then
    ({ it with number_of_enrollment_attempts_ := it.number_of_enrollment_attempts_ + 1 },
      [task_action.initiateEnrollment it.processName])
  else (it, [task_action.deleteObject it.processName])

/-- One pass of the `for` loop of `doNeighborsEnrollerWork` over the neighbors. -/
def doNeighborsEnrollerWork_pass (state_machines_ : List (Nat × state_t))
    (max_number_of_enrollment_attempts_ : Nat) :
    List Neighbor → List Neighbor × List task_action
  | [] => ([], [])
  | it :: rest =>
    ((doNeighborsEnrollerWork_body state_machines_ max_number_of_enrollment_attempts_ it).1 ::
        (doNeighborsEnrollerWork_pass state_machines_ max_number_of_enrollment_attempts_ rest).1,
      (doNeighborsEnrollerWork_body state_machines_ max_number_of_enrollment_attempts_ it).2 ++
        (doNeighborsEnrollerWork_pass state_machines_ max_number_of_enrollment_attempts_ rest).2)

/-- What a pass of the neighbor enroller finds when it starts: the state machines of the
enrollment task, and which of the neighbors `get_neighbors` still returns. -/
structure pass_env where
  state_machines_ : List (Nat × state_t)
  get_neighbors : Neighbor → Bool

/-- The function `doNeighborsEnrollerWork` for as many passes of its `while` loop as there
are entries in the list: the neighbors after the last pass and the calls made. -/
def doNeighborsEnrollerWork (max_number_of_enrollment_attempts_ : Nat) :
    List pass_env → List Neighbor → List Neighbor × List task_action
  | [], neighbors => (neighbors, [])
  | e :: es, neighbors =>
    ((doNeighborsEnrollerWork max_number_of_enrollment_attempts_ es
        (doNeighborsEnrollerWork_pass e.state_machines_ max_number_of_enrollment_attempts_
          (neighbors.filter e.get_neighbors)).1).1,
      (doNeighborsEnrollerWork_pass e.state_machines_ max_number_of_enrollment_attempts_
          (neighbors.filter e.get_neighbors)).2 ++
        (doNeighborsEnrollerWork max_number_of_enrollment_attempts_ es
          (doNeighborsEnrollerWork_pass e.state_machines_ max_number_of_enrollment_attempts_
            (neighbors.filter e.get_neighbors)).1).2)

/-- The body of the `for` loop of `WatchdogRIBObject::sendMessages` for one neighbor: the
calls made. Times are integers; the sums are taken not to overflow. -/
def sendMessages_body (wathchdog_period_ declared_dead_interval_ currentTimeInMs : Int)
    (it : Neighbor) : List task_action :=
  if !it.enrolled_ then []
  else if it.last_heard_from_time_in_ms_ + wathchdog_period_ > currentTimeInMs then []
  else if it.last_heard_from_time_in_ms_ ≠ 0 ∧
      it.last_heard_from_time_in_ms_ + declared_dead_interval_ < currentTimeInMs then
    [task_action.deliverEvent_NeighborDeclaredDead it.processName]
  else [task_action.remoteReadObject it.underlying_port_id_]

/-- The method `WatchdogRIBObject::sendMessages`: the calls made over the neighbors. -/
def sendMessages (wathchdog_period_ declared_dead_interval_ currentTimeInMs : Int) :
    List Neighbor → List task_action
  | [] => []
  | it :: rest =>
    sendMessages_body wathchdog_period_ declared_dead_interval_ currentTimeInMs it ++
      sendMessages wathchdog_period_ declared_dead_interval_ currentTimeInMs rest

/-- The entries of a trace other than an entry into `requestMoreInformationOrStart` with
`allowed_to_start_early_` false. -/
def early_entry : action → Bool
  | action.requestMoreInformationOrStart false => false
  | _ => true

/-- The calls `abortEnrollment` of a trace. -/
def is_abort : action → Bool
  | action.abortEnrollment _ _ _ _ => true
  | _ => false

/-- An environment in which the DIF information is complete and no call raises an
exception. -/
def env_ok : enrollee_env :=
  { address := 0
    supporting_difs := []
    assigned_to_dif := false
    data_transfer_constants_isInitialized := true
    qos_cubes_size := 1
    neighbors_size := 1
    openApplicationConnection_throws := false
    remoteStartObject_throws := false
    remoteStopObjectResponse_throws := fun _ => false
    enrollmentCompleted_throws := false }

/-- The environment `env_ok`, except that sending `M_START` raises an exception. -/
def env_start_throws : enrollee_env :=
  { env_ok with remoteStartObject_throws := true }

/-- An enrollee on port 7 that has sent `M_CONNECT` and waits for the response. -/
def enrollee_wcr : EnrolleeStateMachine :=
  ((EnrolleeStateMachine.create 7).initiateEnrollment env_ok 0 7).1

/-- A STOP object that allows the enrollee to start early. -/
def ei_early : EnrollmentInformationRequest :=
  { address_ := 42, supporting_difs_ := [], allowed_to_start_early_ := true }

/-- The calls of a complete enrollment on port 7. -/
def happy_path : List (enrollee_env × enrollee_input) :=
  [(env_ok, enrollee_input.initiateEnrollment 0 7),
   (env_ok, enrollee_input.connectResponse 0),
   (env_ok, enrollee_input.startResponse true 0 (some ei_early)),
   (env_ok, enrollee_input.stop true (some ei_early) 3)]

/-- The calls up to a connect response on which sending `M_START` fails. -/
def failed_start_path : List (enrollee_env × enrollee_input) :=
  [(env_ok, enrollee_input.initiateEnrollment 0 7),
   (env_start_throws, enrollee_input.connectResponse 0)]

/-- An enroller environment in which the security manager admits the peer, the namespace
manager finds every address valid and hands out address 42, and no call raises an
exception. -/
def enroller_env_ok : enroller_env :=
  { isAllowedToJoinDIF := true
    LOG_IPCP_DBG_evaluates := false
    isValidAddress := fun _ => some true
    getValidAddress := 42
    openApplicationConnectionResponse_throws := false
    remoteStartObjectResponse_throws := fun _ => false
    remoteStopObject_throws := false }

/-- The environment `enroller_env_ok` with `LOG_IPCP_DBG` evaluating its arguments. -/
def enroller_env_dbg : enroller_env :=
  { enroller_env_ok with LOG_IPCP_DBG_evaluates := true }

/-- An enroller on port 7 that has answered `M_CONNECT` and waits for the START. -/
def enroller_wse : EnrollerStateMachine :=
  (EnrollerStateMachine.create 7).connect enroller_env_ok 1 7

/-- The calls of a complete enrollment on the enroller. -/
def enroller_happy_path : List (enroller_env × enroller_input) :=
  [(enroller_env_ok, enroller_input.connect 1 7),
   (enroller_env_ok, enroller_input.start true (some ei_early) 2),
   (enroller_env_ok, enroller_input.stopResponse true 0)]

/-- A sequence of calls on an enroller, from the first to the last. -/
def enroller_run (m : EnrollerStateMachine) :
    List (enroller_env × enroller_input) → Option EnrollerStateMachine
  | [] => some m
  | c :: cs =>
    match enroller_step m c with
    | none => none
    | some m1 => enroller_run m1 cs

/-- An enrolled neighbor from which nothing was ever heard. -/
def neighbor_silent : Neighbor :=
  { processName := 1
    underlying_port_id_ := 5
    enrolled_ := true
    last_heard_from_time_in_ms_ := 0
    number_of_enrollment_attempts_ := 2 }

/-- An enrolled neighbor last heard at time 1000. -/
def neighbor_old : Neighbor :=
  { neighbor_silent with processName := 2, last_heard_from_time_in_ms_ := 1000 }

/-- Five passes of the neighbor enroller with no state machine and every neighbor kept. -/
def five_passes : List pass_env :=
  List.replicate 5 { state_machines_ := [], get_neighbors := fun _ => true }

end Enrollment

namespace Dtcp

open pdu_type_t

/-! ## Frame lemmas for the handlers -/

theorem push_pdus_rmt_sv (ext : collaborators) (d : dtcp) :
    (push_pdus_rmt ext d).1.sv = d.sv := by
  unfold push_pdus_rmt
  cases d.parent.cwq <;> simp [record]

theorem push_pdus_rmt_cpdus (ext : collaborators) (d : dtcp) :
    (push_pdus_rmt ext d).1.cpdus_in_transit = d.cpdus_in_transit := by
  unfold push_pdus_rmt
  cases d.parent.cwq <;> simp [record]

theorem default_sender_ack_sv (ext : collaborators) (d : dtcp) (s : Nat) :
    (default_sender_ack ext d s).1.sv = d.sv := by
  unfold default_sender_ack
  simp only [record, dtcp_config_get]
  split
  · split <;> rfl
  · rfl

theorem default_sender_ack_cpdus (ext : collaborators) (d : dtcp) (s : Nat) :
    (default_sender_ack ext d s).1.cpdus_in_transit = d.cpdus_in_transit := by
  unfold default_sender_ack
  simp only [record, dtcp_config_get]
  split
  · split <;> rfl
  · rfl

theorem rcv_nack_ctl_sv (ext : collaborators) (d : dtcp) (s : Nat) :
    (rcv_nack_ctl ext d s).1.sv = d.sv := by
  unfold rcv_nack_ctl
  split
  · split <;> rfl
  · rfl

theorem rcv_nack_ctl_cpdus (ext : collaborators) (d : dtcp) (s : Nat) :
    (rcv_nack_ctl ext d s).1.cpdus_in_transit = d.cpdus_in_transit := by
  unfold rcv_nack_ctl
  split
  · split <;> rfl
  · rfl

theorem rcv_flow_ctl_sv (ext : collaborators) (d : dtcp) (c : pci) :
    (rcv_flow_ctl ext d c).1.sv = { d.sv with snd_rt_wind_edge := c.new_rt_wind_edge } := by
  unfold rcv_flow_ctl
  simp only []
  split
  · simp [push_pdus_rmt_sv, pdu_destroy, record, snd_rt_wind_edge_set]
  · split
    · simp [push_pdus_rmt_sv, pdu_destroy, record, snd_rt_wind_edge_set]
    · split <;>
        simp [push_pdus_rmt_sv, pdu_destroy, record, snd_rt_wind_edge_set,
          dt_sv_window_closed_set]

theorem rcv_flow_ctl_cpdus (ext : collaborators) (d : dtcp) (c : pci) :
    (rcv_flow_ctl ext d c).1.cpdus_in_transit = d.cpdus_in_transit := by
  unfold rcv_flow_ctl
  simp only []
  split
  · simp [push_pdus_rmt_cpdus, pdu_destroy, record, snd_rt_wind_edge_set]
  · split
    · simp [push_pdus_rmt_cpdus, pdu_destroy, record, snd_rt_wind_edge_set]
    · split <;>
        simp [push_pdus_rmt_cpdus, pdu_destroy, record, snd_rt_wind_edge_set,
          dt_sv_window_closed_set]

theorem rcv_ack_and_flow_ctl_sv (ext : collaborators) (d : dtcp) (c : pci) :
    (rcv_ack_and_flow_ctl ext (default_policies ext) d c).1.sv =
      { d.sv with snd_rt_wind_edge := c.new_rt_wind_edge } := by
  unfold rcv_ack_and_flow_ctl
  simp [push_pdus_rmt_sv, pdu_destroy, record, snd_rt_wind_edge_set, default_policies,
    default_sender_ack_sv]

theorem rcv_ack_and_flow_ctl_cpdus (ext : collaborators) (d : dtcp) (c : pci) :
    (rcv_ack_and_flow_ctl ext (default_policies ext) d c).1.cpdus_in_transit =
      d.cpdus_in_transit := by
  unfold rcv_ack_and_flow_ctl
  simp [push_pdus_rmt_cpdus, pdu_destroy, record, snd_rt_wind_edge_set, default_policies,
    default_sender_ack_cpdus]

/-! ## The paths of the control receive function -/

theorem default_policies_lost (ext : collaborators) :
    (default_policies ext).lost_control_pdu = default_lost_control_pdu := rfl

theorem default_policies_sender_ack (ext : collaborators) :
    (default_policies ext).sender_ack = default_sender_ack ext := rfl

/-- The gap test leaves the count of PDUs in transit as it is. -/
theorem gap_step_cpdus (d : dtcp) (c : Prop) [Decidable c] :
    (if c then (default_lost_control_pdu d).1 else d).cpdus_in_transit =
      d.cpdus_in_transit := by
  split <;> rfl

/-- The duplicate path: the counters are bumped, the PDU is destroyed, 0 is returned. -/
theorem rcv_control_duplicate (ext : collaborators) (pol : dtcp_policies) (d : dtcp) (p : pdu)
    (hok : p.ok = true) (hpci : p.pci.ok = true)
    (hctl : pdu_type_is_control p.pci.type = true)
    (hdup : p.pci.sequence_number ≤ d.sv.last_rcv_ctl_seq) :
    dtcp_common_rcv_control ext pol d p =
      (pdu_destroy
        (match p.pci.type with
          | PDU_TYPE_FC =>
            flow_ctrl_inc
              (if p.pci.sequence_number > (d.sv.last_rcv_ctl_seq + 1) % SEQ_MOD then
                (pol.lost_control_pdu (atomic_inc d)).1 else atomic_inc d)
          | PDU_TYPE_ACK =>
            acks_inc
              (if p.pci.sequence_number > (d.sv.last_rcv_ctl_seq + 1) % SEQ_MOD then
                (pol.lost_control_pdu (atomic_inc d)).1 else atomic_inc d)
          | PDU_TYPE_ACK_AND_FC =>
            flow_ctrl_inc (acks_inc
              (if p.pci.sequence_number > (d.sv.last_rcv_ctl_seq + 1) % SEQ_MOD then
                (pol.lost_control_pdu (atomic_inc d)).1 else atomic_inc d))
          | _ =>
            if p.pci.sequence_number > (d.sv.last_rcv_ctl_seq + 1) % SEQ_MOD then
              (pol.lost_control_pdu (atomic_inc d)).1 else atomic_inc d), 0) := by
  unfold dtcp_common_rcv_control
  simp only [hok, hpci, hctl, last_rcv_ctrl_seq, atomic_inc, Bool.true_eq_false, if_false,
    hdup, if_true]

/-- The accepting path: the sequence number is stored and the handler of the type runs. -/
theorem rcv_control_fresh (ext : collaborators) (pol : dtcp_policies) (d : dtcp) (p : pdu)
    (hok : p.ok = true) (hpci : p.pci.ok = true)
    (hctl : pdu_type_is_control p.pci.type = true)
    (hnew : d.sv.last_rcv_ctl_seq < p.pci.sequence_number) :
    dtcp_common_rcv_control ext pol d p =
      (atomic_dec
        (match p.pci.type with
          | PDU_TYPE_ACK => pol.sender_ack (at_dispatch pol d p) p.pci.ack_seq_num
          | PDU_TYPE_NACK => rcv_nack_ctl ext (at_dispatch pol d p) p.pci.ack_seq_num
          | PDU_TYPE_FC => rcv_flow_ctl ext (at_dispatch pol d p) p.pci
          | PDU_TYPE_ACK_AND_FC => rcv_ack_and_flow_ctl ext pol (at_dispatch pol d p) p.pci
          | _ => (at_dispatch pol d p, -1)).1,
       (match p.pci.type with
          | PDU_TYPE_ACK => pol.sender_ack (at_dispatch pol d p) p.pci.ack_seq_num
          | PDU_TYPE_NACK => rcv_nack_ctl ext (at_dispatch pol d p) p.pci.ack_seq_num
          | PDU_TYPE_FC => rcv_flow_ctl ext (at_dispatch pol d p) p.pci
          | PDU_TYPE_ACK_AND_FC => rcv_ack_and_flow_ctl ext pol (at_dispatch pol d p) p.pci
          | _ => (at_dispatch pol d p, -1)).2) := by
  unfold dtcp_common_rcv_control at_dispatch
  have h : ¬ p.pci.sequence_number ≤ d.sv.last_rcv_ctl_seq := Nat.not_le.mpr hnew
  simp only [hok, hpci, hctl, last_rcv_ctrl_seq, atomic_inc, Bool.true_eq_false, if_false, h]

/-- The instance at dispatch under the default policies, field by field. -/
theorem at_dispatch_default (ext : collaborators) (d : dtcp) (p : pdu) :
    at_dispatch (default_policies ext) d p =
      { parent := d.parent
        sv := { d.sv with last_rcv_ctl_seq := p.pci.sequence_number }
        conn := d.conn
        cpdus_in_transit := d.cpdus_in_transit + 1
        trace :=
          d.trace ++
            (if (d.sv.last_rcv_ctl_seq + 1) % SEQ_MOD < p.pci.sequence_number then
              [event.lost_control_pdu] else []) } := by
  unfold at_dispatch
  simp only [default_policies_lost]
  by_cases hgap : (d.sv.last_rcv_ctl_seq + 1) % SEQ_MOD < p.pci.sequence_number
  · simp [hgap, last_rcv_ctrl_seq_set, default_lost_control_pdu, record, atomic_inc]
  · simp [hgap, last_rcv_ctrl_seq_set, atomic_inc]

/-- C1 (code defect): the count of control PDUs in transit after `dtcp_common_rcv_control`
is the count on entry on every path except the duplicate path (a usable control PDU whose
sequence number is not above `last_rcv_ctl_seq`), which returns without the decrement and
leaves the count one higher; so a duplicate FC PDU received by an instance with count 0
leaves the count at 1. -/
theorem C1_cpdus_in_transit_leaks_on_duplicate :
    (∀ (ext : collaborators) (d : dtcp) (p : pdu),
      (dtcp_common_rcv_control ext (default_policies ext) d p).1.cpdus_in_transit =
        if p.ok = true ∧ p.pci.ok = true ∧ pdu_type_is_control p.pci.type = true ∧
            p.pci.sequence_number ≤ d.sv.last_rcv_ctl_seq
        then d.cpdus_in_transit + 1 else d.cpdus_in_transit) ∧
    (d0 5).cpdus_in_transit = 0 ∧
    (dtcp_common_rcv_control ext0 (default_policies ext0) (d0 5)
      (cpdu PDU_TYPE_FC 5)).1.cpdus_in_transit = 1 := by
  refine ⟨?_, rfl, by decide⟩
  intro ext d p
  by_cases hok : p.ok = true
  swap
  · simp [dtcp_common_rcv_control, hok, pdu_destroy, record]
  by_cases hpci : p.pci.ok = true
  swap
  · simp [dtcp_common_rcv_control, hok, hpci, pdu_destroy, record, atomic_inc, atomic_dec]
  by_cases hctl : pdu_type_is_control p.pci.type = true
  swap
  · simp [dtcp_common_rcv_control, hok, hpci, hctl, pdu_destroy, record, atomic_inc,
      atomic_dec]
  by_cases hdup : p.pci.sequence_number ≤ d.sv.last_rcv_ctl_seq
  · rw [rcv_control_duplicate ext _ d p hok hpci hctl hdup]
    simp only [hok, hpci, hctl, hdup, and_self, if_true, default_policies_lost]
    cases p.pci.type <;>
      simp [pdu_destroy, record, flow_ctrl_inc, acks_inc, gap_step_cpdus, atomic_inc]
  · have hnew : d.sv.last_rcv_ctl_seq < p.pci.sequence_number := Nat.lt_of_not_le hdup
    rw [rcv_control_fresh ext _ d p hok hpci hctl hnew]
    simp only [hok, hpci, hctl, hdup, and_false, if_false, default_policies_lost,
      default_policies_sender_ack]
    cases p.pci.type <;>
      simp [atomic_dec, default_sender_ack_cpdus, rcv_nack_ctl_cpdus, rcv_flow_ctl_cpdus,
        rcv_ack_and_flow_ctl_cpdus, at_dispatch_default]

/-- The whole outcome of the duplicate path under the default policies. -/
theorem rcv_control_duplicate_result (ext : collaborators) (d : dtcp) (p : pdu)
    (hok : p.ok = true) (hpci : p.pci.ok = true)
    (hctl : pdu_type_is_control p.pci.type = true)
    (hdup : p.pci.sequence_number ≤ d.sv.last_rcv_ctl_seq) :
    dtcp_common_rcv_control ext (default_policies ext) d p =
      ({ parent := d.parent
         sv :=
          { d.sv with
            acks :=
              if p.pci.type = PDU_TYPE_ACK ∨ p.pci.type = PDU_TYPE_ACK_AND_FC then
                (d.sv.acks + 1) % SEQ_MOD else d.sv.acks
            flow_ctl :=
              if p.pci.type = PDU_TYPE_FC ∨ p.pci.type = PDU_TYPE_ACK_AND_FC then
                (d.sv.flow_ctl + 1) % SEQ_MOD else d.sv.flow_ctl }
         conn := d.conn
         cpdus_in_transit := d.cpdus_in_transit + 1
         trace :=
          d.trace ++
            (if (d.sv.last_rcv_ctl_seq + 1) % SEQ_MOD < p.pci.sequence_number then
              [event.lost_control_pdu] else []) ++ [event.pdu_destroy] }, 0) := by
  rw [rcv_control_duplicate ext _ d p hok hpci hctl hdup]
  simp only [default_policies_lost]
  by_cases hgap : p.pci.sequence_number > (d.sv.last_rcv_ctl_seq + 1) % SEQ_MOD
  · have hgap' : (d.sv.last_rcv_ctl_seq + 1) % SEQ_MOD < p.pci.sequence_number := hgap
    cases p.pci.type <;>
      simp [hgap', pdu_destroy, record, flow_ctrl_inc, acks_inc, atomic_inc,
        default_lost_control_pdu]
  · have hgap' : ¬ (d.sv.last_rcv_ctl_seq + 1) % SEQ_MOD < p.pci.sequence_number := hgap
    cases p.pci.type <;>
      simp [hgap', pdu_destroy, record, flow_ctrl_inc, acks_inc, atomic_inc]

/-- The state vector after the accepting path under the default policies. -/
theorem rcv_control_fresh_sv (ext : collaborators) (d : dtcp) (p : pdu)
    (hok : p.ok = true) (hpci : p.pci.ok = true)
    (hctl : pdu_type_is_control p.pci.type = true)
    (hnew : d.sv.last_rcv_ctl_seq < p.pci.sequence_number) :
    (dtcp_common_rcv_control ext (default_policies ext) d p).1.sv =
      { d.sv with
        last_rcv_ctl_seq := p.pci.sequence_number
        snd_rt_wind_edge :=
          if p.pci.type = PDU_TYPE_FC ∨ p.pci.type = PDU_TYPE_ACK_AND_FC then
            p.pci.new_rt_wind_edge else d.sv.snd_rt_wind_edge } := by
  rw [rcv_control_fresh ext _ d p hok hpci hctl hnew]
  simp only [default_policies_lost, default_policies_sender_ack]
  cases p.pci.type <;>
    simp [atomic_dec, default_sender_ack_sv, rcv_nack_ctl_sv, rcv_flow_ctl_sv,
      rcv_ack_and_flow_ctl_sv, at_dispatch_default]

/-- An increment of a 32-bit counter changes it. -/
theorem succ_mod_ne (n : Nat) : (n + 1) % SEQ_MOD ≠ n := by
  unfold SEQ_MOD
  omega

/-- C2 (as stated, refuted): a duplicate NACK PDU (sequence number 5 at `last_rcv_ctl_seq`
5) is a control PDU whose type has no duplicate counter: 0 is returned and the whole state
vector, `acks` and `flow_ctl` included, is as it was, so no counter has increased by one.
A duplicate NACK+FC PDU and a duplicate of another control kind leave it as it was too. -/
theorem C2_duplicate_nack_bumps_no_counter :
    pdu_type_is_control PDU_TYPE_NACK = true ∧
    (cpdu PDU_TYPE_NACK 5).pci.sequence_number ≤ (d0 5).sv.last_rcv_ctl_seq ∧
    (dtcp_common_rcv_control ext0 (default_policies ext0) (d0 5) (cpdu PDU_TYPE_NACK 5)).2 = 0 ∧
    (dtcp_common_rcv_control ext0 (default_policies ext0) (d0 5)
      (cpdu PDU_TYPE_NACK 5)).1.sv = (d0 5).sv ∧
    (dtcp_common_rcv_control ext0 (default_policies ext0) (d0 5)
      (cpdu PDU_TYPE_NACK_AND_FC 5)).1.sv = (d0 5).sv ∧
    (dtcp_common_rcv_control ext0 (default_policies ext0) (d0 5)
      (cpdu PDU_TYPE_OTHER_CONTROL 5)).1.sv = (d0 5).sv := by
  decide

/-- C2 (amended): a control PDU whose sequence number is not above `last_rcv_ctl_seq` makes
`dtcp_common_rcv_control` return 0 and bump (modulo 2^32) the duplicate counters kept for
its type, `acks` for ACK and ACK+FC and `flow_ctl` for FC and ACK+FC, and no counter for
any other control type; every other field of the state vector, the DT parent and the
connection are unchanged and the only calls made are the destruction of the PDU and,
possibly, the lost-control-PDU policy. The count of control PDUs in transit, which is not
part of the state vector, is one above its value before the call. Delivering a fresh FC PDU
twice sets the window edge on the first delivery and only bumps `flow_ctl` on the
second. -/
theorem C2_duplicate_control_frame (ext : collaborators) (d : dtcp) (p : pdu)
    (hok : p.ok = true) (hpci : p.pci.ok = true)
    (hctl : pdu_type_is_control p.pci.type = true) :
    (p.pci.sequence_number ≤ d.sv.last_rcv_ctl_seq →
      (dtcp_common_rcv_control ext (default_policies ext) d p).2 = 0 ∧
      (dtcp_common_rcv_control ext (default_policies ext) d p).1.sv =
        { d.sv with
          acks :=
            if p.pci.type = PDU_TYPE_ACK ∨ p.pci.type = PDU_TYPE_ACK_AND_FC then
              (d.sv.acks + 1) % SEQ_MOD else d.sv.acks
          flow_ctl :=
            if p.pci.type = PDU_TYPE_FC ∨ p.pci.type = PDU_TYPE_ACK_AND_FC then
              (d.sv.flow_ctl + 1) % SEQ_MOD else d.sv.flow_ctl } ∧
      (dtcp_common_rcv_control ext (default_policies ext) d p).1.parent = d.parent ∧
      (dtcp_common_rcv_control ext (default_policies ext) d p).1.conn = d.conn ∧
      (dtcp_common_rcv_control ext (default_policies ext) d p).1.trace =
        d.trace ++
          (if (d.sv.last_rcv_ctl_seq + 1) % SEQ_MOD < p.pci.sequence_number then
            [event.lost_control_pdu] else []) ++ [event.pdu_destroy] ∧
      (dtcp_common_rcv_control ext (default_policies ext) d p).1.cpdus_in_transit =
        d.cpdus_in_transit + 1) ∧
    (p.pci.type = PDU_TYPE_FC → d.sv.last_rcv_ctl_seq < p.pci.sequence_number →
      (dtcp_common_rcv_control ext (default_policies ext) d p).1.sv =
        { d.sv with
          last_rcv_ctl_seq := p.pci.sequence_number
          snd_rt_wind_edge := p.pci.new_rt_wind_edge } ∧
      (dtcp_common_rcv_control ext (default_policies ext)
        (dtcp_common_rcv_control ext (default_policies ext) d p).1 p).2 = 0 ∧
      (dtcp_common_rcv_control ext (default_policies ext)
        (dtcp_common_rcv_control ext (default_policies ext) d p).1 p).1.sv =
        { d.sv with
          last_rcv_ctl_seq := p.pci.sequence_number
          snd_rt_wind_edge := p.pci.new_rt_wind_edge
          flow_ctl := (d.sv.flow_ctl + 1) % SEQ_MOD } ∧
      (dtcp_common_rcv_control ext (default_policies ext)
        (dtcp_common_rcv_control ext (default_policies ext) d p).1 p).1.parent =
        (dtcp_common_rcv_control ext (default_policies ext) d p).1.parent ∧
      (dtcp_common_rcv_control ext (default_policies ext)
        (dtcp_common_rcv_control ext (default_policies ext) d p).1 p).1.trace =
        (dtcp_common_rcv_control ext (default_policies ext) d p).1.trace ++
          (if (p.pci.sequence_number + 1) % SEQ_MOD < p.pci.sequence_number then
            [event.lost_control_pdu] else []) ++ [event.pdu_destroy]) := by
  constructor
  · intro hdup
    rw [rcv_control_duplicate_result ext d p hok hpci hctl hdup]
    exact ⟨rfl, rfl, rfl, rfl, rfl, rfl⟩
  · intro hfc hnew
    have hsv := rcv_control_fresh_sv ext d p hok hpci hctl hnew
    simp only [hfc, true_or, if_true] at hsv
    have hdup : p.pci.sequence_number ≤
        (dtcp_common_rcv_control ext (default_policies ext) d p).1.sv.last_rcv_ctl_seq := by
      rw [hsv]
    have h2 := rcv_control_duplicate_result ext
      (dtcp_common_rcv_control ext (default_policies ext) d p).1 p hok hpci hctl hdup
    refine ⟨hsv, ?_, ?_, ?_, ?_⟩
    · rw [h2]
    · rw [h2]
      simp [hfc, hsv]
    · rw [h2]
    · rw [h2]
      simp [hsv]

/-! ## Runs of the lost-control-PDU policy recorded in the trace -/

theorem push_pdus_rmt_lost (ext : collaborators) (d : dtcp) :
    (push_pdus_rmt ext d).1.trace.count event.lost_control_pdu =
      d.trace.count event.lost_control_pdu := by
  unfold push_pdus_rmt
  cases d.parent.cwq <;> simp [record, List.count_append, List.count_cons]

theorem default_sender_ack_lost (ext : collaborators) (d : dtcp) (s : Nat) :
    (default_sender_ack ext d s).1.trace.count event.lost_control_pdu =
      d.trace.count event.lost_control_pdu := by
  unfold default_sender_ack
  simp only [record, dtcp_config_get]
  split
  · split <;> simp [List.count_append, List.count_cons]
  · simp [List.count_append, List.count_cons]

theorem rcv_nack_ctl_lost (ext : collaborators) (d : dtcp) (s : Nat) :
    (rcv_nack_ctl ext d s).1.trace.count event.lost_control_pdu =
      d.trace.count event.lost_control_pdu := by
  unfold rcv_nack_ctl
  split
  · split <;> simp [record, List.count_append, List.count_cons]
  · rfl

theorem rcv_flow_ctl_lost (ext : collaborators) (d : dtcp) (c : pci) :
    (rcv_flow_ctl ext d c).1.trace.count event.lost_control_pdu =
      d.trace.count event.lost_control_pdu := by
  unfold rcv_flow_ctl
  simp only []
  split
  · simp [push_pdus_rmt_lost, pdu_destroy, record, snd_rt_wind_edge_set, List.count_append,
      List.count_cons]
  · split
    · simp [push_pdus_rmt_lost, pdu_destroy, record, snd_rt_wind_edge_set,
        List.count_append, List.count_cons]
    · split <;>
        simp [push_pdus_rmt_lost, pdu_destroy, record, snd_rt_wind_edge_set,
          dt_sv_window_closed_set, List.count_append, List.count_cons]

theorem rcv_ack_and_flow_ctl_lost (ext : collaborators) (d : dtcp) (c : pci) :
    (rcv_ack_and_flow_ctl ext (default_policies ext) d c).1.trace.count
        event.lost_control_pdu =
      d.trace.count event.lost_control_pdu := by
  unfold rcv_ack_and_flow_ctl
  simp [push_pdus_rmt_lost, pdu_destroy, record, snd_rt_wind_edge_set,
    default_policies_sender_ack, default_sender_ack_lost, List.count_append, List.count_cons]

/-- The number of runs of the lost-control-PDU policy after the accepting path. -/
theorem rcv_control_fresh_lost (ext : collaborators) (d : dtcp) (p : pdu)
    (hok : p.ok = true) (hpci : p.pci.ok = true)
    (hctl : pdu_type_is_control p.pci.type = true)
    (hnew : d.sv.last_rcv_ctl_seq < p.pci.sequence_number) :
    (dtcp_common_rcv_control ext (default_policies ext) d p).1.trace.count
        event.lost_control_pdu =
      d.trace.count event.lost_control_pdu +
        (if (d.sv.last_rcv_ctl_seq + 1) % SEQ_MOD < p.pci.sequence_number then 1 else 0) := by
  rw [rcv_control_fresh ext _ d p hok hpci hctl hnew]
  simp only [default_policies_sender_ack]
  by_cases hgap : (d.sv.last_rcv_ctl_seq + 1) % SEQ_MOD < p.pci.sequence_number
  · cases p.pci.type <;>
      simp [hgap, atomic_dec, default_sender_ack_lost, rcv_nack_ctl_lost, rcv_flow_ctl_lost,
        rcv_ack_and_flow_ctl_lost, at_dispatch_default, List.count_append, List.count_cons]
  · cases p.pci.type <;>
      simp [hgap, atomic_dec, default_sender_ack_lost, rcv_nack_ctl_lost, rcv_flow_ctl_lost,
        rcv_ack_and_flow_ctl_lost, at_dispatch_default, List.count_append, List.count_cons]

/-- C2 (amended) at concrete inputs: a duplicate FC PDU (sequence number 5 at `last_rcv_ctl_seq` 5)
returns 0 and bumps `flow_ctl` to 1; a fresh FC PDU (sequence number 6) delivered twice
leaves the window edge at 9 and `flow_ctl` at 1. -/
theorem C2_duplicate_control_frame_witness :
    (dtcp_common_rcv_control ext0 (default_policies ext0) (d0 5) (cpdu PDU_TYPE_FC 5)).2 = 0 ∧
    (dtcp_common_rcv_control ext0 (default_policies ext0) (d0 5)
      (cpdu PDU_TYPE_FC 5)).1.sv = { sv0 5 with flow_ctl := 1 } ∧
    (dtcp_common_rcv_control ext0 (default_policies ext0)
      (dtcp_common_rcv_control ext0 (default_policies ext0) (d0 5) (cpdu PDU_TYPE_FC 6)).1
      (cpdu PDU_TYPE_FC 6)).1.sv =
        { sv0 5 with last_rcv_ctl_seq := 6, snd_rt_wind_edge := 9, flow_ctl := 1 } :=
  ⟨((C2_duplicate_control_frame ext0 (d0 5) (cpdu PDU_TYPE_FC 5) rfl rfl rfl).1
      (by decide)).1,
   ((C2_duplicate_control_frame ext0 (d0 5) (cpdu PDU_TYPE_FC 5) rfl rfl rfl).1
      (by decide)).2.1,
   ((C2_duplicate_control_frame ext0 (d0 5) (cpdu PDU_TYPE_FC 6) rfl rfl rfl).2 rfl
      (by decide)).2.2.1⟩

/-- C3 (as stated, refuted): a duplicate NACK+FC PDU leaves `flow_ctl` as it was, so
"`flow_ctl` is incremented if and only if the type is FC, ACK+FC or NACK+FC" fails. -/
theorem C3_nack_and_fc_duplicate_not_counted :
    ¬ ((dtcp_common_rcv_control ext0 (default_policies ext0) (d0 5)
          (cpdu PDU_TYPE_NACK_AND_FC 3)).1.sv.flow_ctl = ((d0 5).sv.flow_ctl + 1) % SEQ_MOD ↔
        ((cpdu PDU_TYPE_NACK_AND_FC 3).pci.type = PDU_TYPE_FC ∨
          (cpdu PDU_TYPE_NACK_AND_FC 3).pci.type = PDU_TYPE_ACK_AND_FC ∨
          (cpdu PDU_TYPE_NACK_AND_FC 3).pci.type = PDU_TYPE_NACK_AND_FC)) := by
  decide

/-- C3 (amended): for every duplicate control PDU handled by `dtcp_common_rcv_control`,
`acks` is incremented by one (modulo 2^32) if and only if the type is ACK or ACK+FC, and
`flow_ctl` is incremented by one (modulo 2^32) if and only if the type is FC or ACK+FC;
a counter that is not incremented keeps its value. -/
theorem C3_duplicate_counters (ext : collaborators) (d : dtcp) (p : pdu)
    (hok : p.ok = true) (hpci : p.pci.ok = true)
    (hctl : pdu_type_is_control p.pci.type = true)
    (hdup : p.pci.sequence_number ≤ d.sv.last_rcv_ctl_seq) :
    ((dtcp_common_rcv_control ext (default_policies ext) d p).1.sv.acks =
        (d.sv.acks + 1) % SEQ_MOD ↔
      (p.pci.type = PDU_TYPE_ACK ∨ p.pci.type = PDU_TYPE_ACK_AND_FC)) ∧
    ((dtcp_common_rcv_control ext (default_policies ext) d p).1.sv.flow_ctl =
        (d.sv.flow_ctl + 1) % SEQ_MOD ↔
      (p.pci.type = PDU_TYPE_FC ∨ p.pci.type = PDU_TYPE_ACK_AND_FC)) ∧
    ((dtcp_common_rcv_control ext (default_policies ext) d p).1.sv.acks = d.sv.acks ↔
      ¬ (p.pci.type = PDU_TYPE_ACK ∨ p.pci.type = PDU_TYPE_ACK_AND_FC)) ∧
    ((dtcp_common_rcv_control ext (default_policies ext) d p).1.sv.flow_ctl = d.sv.flow_ctl ↔
      ¬ (p.pci.type = PDU_TYPE_FC ∨ p.pci.type = PDU_TYPE_ACK_AND_FC)) := by
  rw [rcv_control_duplicate_result ext d p hok hpci hctl hdup]
  have ha := succ_mod_ne d.sv.acks
  have hf := succ_mod_ne d.sv.flow_ctl
  refine ⟨?_, ?_, ?_, ?_⟩
  · by_cases h : p.pci.type = PDU_TYPE_ACK ∨ p.pci.type = PDU_TYPE_ACK_AND_FC
    · simp [h]
    · simp only [h, if_false, iff_false]
      exact fun e => ha e.symm
  · by_cases h : p.pci.type = PDU_TYPE_FC ∨ p.pci.type = PDU_TYPE_ACK_AND_FC
    · simp [h]
    · simp only [h, if_false, iff_false]
      exact fun e => hf e.symm
  · by_cases h : p.pci.type = PDU_TYPE_ACK ∨ p.pci.type = PDU_TYPE_ACK_AND_FC
    · simp only [h, if_true, not_true, iff_false]
      exact ha
    · simp [h]
  · by_cases h : p.pci.type = PDU_TYPE_FC ∨ p.pci.type = PDU_TYPE_ACK_AND_FC
    · simp only [h, if_true, not_true, iff_false]
      exact hf
    · simp [h]

/-- C3 (amended) at concrete inputs: a duplicate ACK+FC PDU bumps both counters. -/
theorem C3_duplicate_counters_witness :
    (dtcp_common_rcv_control ext0 (default_policies ext0) (d0 5)
      (cpdu PDU_TYPE_ACK_AND_FC 4)).1.sv.acks = 1 ∧
    (dtcp_common_rcv_control ext0 (default_policies ext0) (d0 5)
      (cpdu PDU_TYPE_ACK_AND_FC 4)).1.sv.flow_ctl = 1 :=
  ⟨(C3_duplicate_counters ext0 (d0 5) (cpdu PDU_TYPE_ACK_AND_FC 4) rfl rfl rfl
      (by decide)).1.mpr (Or.inr rfl),
   (C3_duplicate_counters ext0 (d0 5) (cpdu PDU_TYPE_ACK_AND_FC 4) rfl rfl rfl
      (by decide)).2.1.mpr (Or.inr rfl)⟩

/-- One call of the control receive function never lowers `last_rcv_ctl_seq`. -/
theorem rcv_control_last_rcv_ctl_seq_le (ext : collaborators) (d : dtcp) (p : pdu) :
    d.sv.last_rcv_ctl_seq ≤
      (dtcp_common_rcv_control ext (default_policies ext) d p).1.sv.last_rcv_ctl_seq := by
  by_cases hok : p.ok = true
  swap
  · simp [dtcp_common_rcv_control, hok, pdu_destroy, record]
  by_cases hpci : p.pci.ok = true
  swap
  · simp [dtcp_common_rcv_control, hok, hpci, pdu_destroy, record, atomic_inc, atomic_dec]
  by_cases hctl : pdu_type_is_control p.pci.type = true
  swap
  · simp [dtcp_common_rcv_control, hok, hpci, hctl, pdu_destroy, record, atomic_inc,
      atomic_dec]
  by_cases hdup : p.pci.sequence_number ≤ d.sv.last_rcv_ctl_seq
  · rw [rcv_control_duplicate_result ext d p hok hpci hctl hdup]
  · have hnew : d.sv.last_rcv_ctl_seq < p.pci.sequence_number := Nat.lt_of_not_le hdup
    rw [rcv_control_fresh_sv ext d p hok hpci hctl hnew]
    exact Nat.le_of_lt hnew

/-- A finite sequence of calls never lowers `last_rcv_ctl_seq`. -/
theorem rcv_all_last_rcv_ctl_seq_le (ext : collaborators) (ps : List pdu) :
    ∀ d : dtcp,
      d.sv.last_rcv_ctl_seq ≤ (rcv_all ext (default_policies ext) d ps).sv.last_rcv_ctl_seq := by
  induction ps with
  | nil => intro d; exact Nat.le_refl _
  | cons p ps ih =>
    intro d
    unfold rcv_all
    rw [List.foldl_cons]
    exact Nat.le_trans (rcv_control_last_rcv_ctl_seq_le ext d p)
      (ih (dtcp_common_rcv_control ext (default_policies ext) d p).1)

/-- C4: when a usable control PDU with a 32-bit sequence number `s` is received at
`last_rcv_ctl_seq = L`, the lost-control-PDU policy runs exactly once if `s > L + 1` and not
at all if `s = L + 1`; in both cases the PDU is accepted: `last_rcv_ctl_seq` becomes `s` and
the duplicate counters `acks` and `flow_ctl` keep their values. -/
theorem C4_gap_runs_lost_control_pdu_once (ext : collaborators) (d : dtcp) (p : pdu)
    (hok : p.ok = true) (hpci : p.pci.ok = true)
    (hctl : pdu_type_is_control p.pci.type = true)
    (hs : p.pci.sequence_number < SEQ_MOD) :
    (d.sv.last_rcv_ctl_seq + 1 < p.pci.sequence_number →
      (dtcp_common_rcv_control ext (default_policies ext) d p).1.trace.count
          event.lost_control_pdu = d.trace.count event.lost_control_pdu + 1 ∧
      (dtcp_common_rcv_control ext (default_policies ext) d p).1.sv.last_rcv_ctl_seq =
        p.pci.sequence_number ∧
      (dtcp_common_rcv_control ext (default_policies ext) d p).1.sv.acks = d.sv.acks ∧
      (dtcp_common_rcv_control ext (default_policies ext) d p).1.sv.flow_ctl =
        d.sv.flow_ctl) ∧
    (p.pci.sequence_number = d.sv.last_rcv_ctl_seq + 1 →
      (dtcp_common_rcv_control ext (default_policies ext) d p).1.trace.count
          event.lost_control_pdu = d.trace.count event.lost_control_pdu ∧
      (dtcp_common_rcv_control ext (default_policies ext) d p).1.sv.last_rcv_ctl_seq =
        p.pci.sequence_number ∧
      (dtcp_common_rcv_control ext (default_policies ext) d p).1.sv.acks = d.sv.acks ∧
      (dtcp_common_rcv_control ext (default_policies ext) d p).1.sv.flow_ctl =
        d.sv.flow_ctl) := by
  constructor
  · intro hgap
    have hnew : d.sv.last_rcv_ctl_seq < p.pci.sequence_number := by omega
    have hmod : (d.sv.last_rcv_ctl_seq + 1) % SEQ_MOD < p.pci.sequence_number :=
      Nat.lt_of_le_of_lt (Nat.mod_le _ _) hgap
    rw [rcv_control_fresh_lost ext d p hok hpci hctl hnew,
      rcv_control_fresh_sv ext d p hok hpci hctl hnew]
    simp [hmod]
  · intro hnext
    have hnew : d.sv.last_rcv_ctl_seq < p.pci.sequence_number := by omega
    have hmod : ¬ (d.sv.last_rcv_ctl_seq + 1) % SEQ_MOD < p.pci.sequence_number := by
      rw [← hnext, Nat.mod_eq_of_lt hs]
      exact Nat.lt_irrefl _
    rw [rcv_control_fresh_lost ext d p hok hpci hctl hnew,
      rcv_control_fresh_sv ext d p hok hpci hctl hnew]
    simp [hmod]

/-- C4 at the input of the spec: with `last_rcv_ctl_seq = 5`, the reception of the control
sequence number 8 runs the lost-control-PDU policy once and stores 8. -/
theorem C4_gap_runs_lost_control_pdu_once_witness :
    (dtcp_common_rcv_control ext0 (default_policies ext0) (d0 5)
      (cpdu PDU_TYPE_ACK 8)).1.trace.count event.lost_control_pdu =
        (d0 5).trace.count event.lost_control_pdu + 1 ∧
    (dtcp_common_rcv_control ext0 (default_policies ext0) (d0 5)
      (cpdu PDU_TYPE_ACK 8)).1.sv.last_rcv_ctl_seq = 8 :=
  ⟨((C4_gap_runs_lost_control_pdu_once ext0 (d0 5) (cpdu PDU_TYPE_ACK 8) rfl rfl rfl
      (by decide)).1 (by decide)).1,
   ((C4_gap_runs_lost_control_pdu_once ext0 (d0 5) (cpdu PDU_TYPE_ACK 8) rfl rfl rfl
      (by decide)).1 (by decide)).2.1⟩

/-- C5: `last_rcv_ctl_seq` never decreases: after `dtcp_common_rcv_control` on any PDU
(usable or not, of any type) it is at least its value before, and so it is after any
finite sequence of received PDUs. -/
theorem C5_last_rcv_ctl_seq_monotone (ext : collaborators) (d : dtcp) :
    (∀ p : pdu,
      d.sv.last_rcv_ctl_seq ≤
        (dtcp_common_rcv_control ext (default_policies ext) d p).1.sv.last_rcv_ctl_seq) ∧
    (∀ ps : List pdu,
      d.sv.last_rcv_ctl_seq ≤
        (rcv_all ext (default_policies ext) d ps).sv.last_rcv_ctl_seq) :=
  ⟨fun p => rcv_control_last_rcv_ctl_seq_le ext d p,
   fun ps => rcv_all_last_rcv_ctl_seq_le ext ps d⟩

/-- C6 (as stated, refuted): with `last_rcv_ctl_seq = 0xFFFFFFFF` a usable FC PDU with
sequence number 1 is ahead by the signed-difference rule, yet the code drops it as a
duplicate: 0 is returned, `flow_ctl` is bumped and `last_rcv_ctl_seq` does not become 1. -/
theorem C6_wrapped_sequence_dropped_as_duplicate :
    0 < int32_diff 1 4294967295 ∧
    (dtcp_common_rcv_control ext0 (default_policies ext0) (d0 4294967295)
      (cpdu PDU_TYPE_FC 1)).2 = 0 ∧
    (dtcp_common_rcv_control ext0 (default_policies ext0) (d0 4294967295)
      (cpdu PDU_TYPE_FC 1)).1.sv.last_rcv_ctl_seq = 4294967295 ∧
    (dtcp_common_rcv_control ext0 (default_policies ext0) (d0 4294967295)
      (cpdu PDU_TYPE_FC 1)).1.sv.flow_ctl = (d0 4294967295).sv.flow_ctl + 1 ∧
    (dtcp_common_rcv_control ext0 (default_policies ext0) (d0 4294967295)
      (cpdu PDU_TYPE_FC 1)).1.sv.snd_rt_wind_edge = (d0 4294967295).sv.snd_rt_wind_edge := by
  decide

/-- C6 (amended): the duplicate test and the gap test of `dtcp_common_rcv_control` are
plain unsigned 32-bit comparisons: a usable control PDU with sequence number `s` received
at `last_rcv_ctl_seq = L` is dropped as a duplicate (0 returned, `L` kept) if and only if
`s ≤ L`, is accepted (`last_rcv_ctl_seq` becomes `s`) otherwise, and the lost-control-PDU
policy runs if and only if `s > (L + 1) mod 2^32`. The duplicate test agrees with the
signed-difference rule when `s` and `L` are less than `2^31` apart in value, and the gap
test agrees with it when `s` and `(L + 1) mod 2^32` are less than `2^31` apart in value. -/
theorem C6_unsigned_comparisons (ext : collaborators) (d : dtcp) (p : pdu)
    (hok : p.ok = true) (hpci : p.pci.ok = true)
    (hctl : pdu_type_is_control p.pci.type = true)
    (hs : p.pci.sequence_number < SEQ_MOD) (hL : d.sv.last_rcv_ctl_seq < SEQ_MOD) :
    ((dtcp_common_rcv_control ext (default_policies ext) d p).1.sv.last_rcv_ctl_seq =
        d.sv.last_rcv_ctl_seq ↔ p.pci.sequence_number ≤ d.sv.last_rcv_ctl_seq) ∧
    (p.pci.sequence_number ≤ d.sv.last_rcv_ctl_seq →
      (dtcp_common_rcv_control ext (default_policies ext) d p).2 = 0) ∧
    ((dtcp_common_rcv_control ext (default_policies ext) d p).1.sv.last_rcv_ctl_seq =
        p.pci.sequence_number ↔ d.sv.last_rcv_ctl_seq ≤ p.pci.sequence_number) ∧
    ((dtcp_common_rcv_control ext (default_policies ext) d p).1.trace.count
        event.lost_control_pdu = d.trace.count event.lost_control_pdu + 1 ↔
      (d.sv.last_rcv_ctl_seq + 1) % SEQ_MOD < p.pci.sequence_number) ∧
    ((dtcp_common_rcv_control ext (default_policies ext) d p).1.trace.count
        event.lost_control_pdu = d.trace.count event.lost_control_pdu ↔
      ¬ (d.sv.last_rcv_ctl_seq + 1) % SEQ_MOD < p.pci.sequence_number) ∧
    (p.pci.sequence_number < d.sv.last_rcv_ctl_seq + 2 ^ 31 →
      d.sv.last_rcv_ctl_seq < p.pci.sequence_number + 2 ^ 31 →
      (p.pci.sequence_number ≤ d.sv.last_rcv_ctl_seq ↔
        int32_diff p.pci.sequence_number d.sv.last_rcv_ctl_seq ≤ 0)) ∧
    (p.pci.sequence_number < (d.sv.last_rcv_ctl_seq + 1) % SEQ_MOD + 2 ^ 31 →
      (d.sv.last_rcv_ctl_seq + 1) % SEQ_MOD < p.pci.sequence_number + 2 ^ 31 →
      ((d.sv.last_rcv_ctl_seq + 1) % SEQ_MOD < p.pci.sequence_number ↔
        0 < int32_diff p.pci.sequence_number (d.sv.last_rcv_ctl_seq + 1))) := by
  have hcount : (dtcp_common_rcv_control ext (default_policies ext) d p).1.trace.count
        event.lost_control_pdu = d.trace.count event.lost_control_pdu +
          (if (d.sv.last_rcv_ctl_seq + 1) % SEQ_MOD < p.pci.sequence_number then 1 else 0) := by
    by_cases hdup : p.pci.sequence_number ≤ d.sv.last_rcv_ctl_seq
    · rw [rcv_control_duplicate_result ext d p hok hpci hctl hdup]
      by_cases hgap : (d.sv.last_rcv_ctl_seq + 1) % SEQ_MOD < p.pci.sequence_number <;>
        simp [hgap, List.count_append, List.count_cons]
    · exact rcv_control_fresh_lost ext d p hok hpci hctl (Nat.lt_of_not_le hdup)
  refine ⟨?_, ?_, ?_, ?_, ?_, ?_, ?_⟩
  · by_cases hdup : p.pci.sequence_number ≤ d.sv.last_rcv_ctl_seq
    · rw [rcv_control_duplicate_result ext d p hok hpci hctl hdup]
      simp [hdup]
    · have hnew : d.sv.last_rcv_ctl_seq < p.pci.sequence_number := Nat.lt_of_not_le hdup
      rw [rcv_control_fresh_sv ext d p hok hpci hctl hnew]
      simp only [hdup, iff_false]
      omega
  · intro hdup
    rw [rcv_control_duplicate_result ext d p hok hpci hctl hdup]
  · by_cases hdup : p.pci.sequence_number ≤ d.sv.last_rcv_ctl_seq
    · rw [rcv_control_duplicate_result ext d p hok hpci hctl hdup]
      simp only []
      omega
    · have hnew : d.sv.last_rcv_ctl_seq < p.pci.sequence_number := Nat.lt_of_not_le hdup
      rw [rcv_control_fresh_sv ext d p hok hpci hctl hnew]
      simp only [true_iff]
      omega
  · rw [hcount]
    by_cases hgap : (d.sv.last_rcv_ctl_seq + 1) % SEQ_MOD < p.pci.sequence_number <;>
      simp [hgap]
  · rw [hcount]
    by_cases hgap : (d.sv.last_rcv_ctl_seq + 1) % SEQ_MOD < p.pci.sequence_number <;>
      simp [hgap]
  · intro h1 h2
    unfold int32_diff
    unfold SEQ_MOD at hs hL ⊢
    split <;> omega
  · intro h1 h2
    unfold int32_diff
    unfold SEQ_MOD at hs hL h1 h2 ⊢
    split <;> omega

/-- C6 (amended) at concrete inputs: at `last_rcv_ctl_seq = 0xFFFFFFFF` the sequence number 1
is not above it, so the PDU is dropped, and it is above `(L + 1) mod 2^32 = 0`, so the
lost-control-PDU policy runs. -/
theorem C6_unsigned_comparisons_witness :
    (dtcp_common_rcv_control ext0 (default_policies ext0) (d0 4294967295)
      (cpdu PDU_TYPE_ACK 1)).1.sv.last_rcv_ctl_seq = 4294967295 ∧
    (dtcp_common_rcv_control ext0 (default_policies ext0) (d0 4294967295)
      (cpdu PDU_TYPE_ACK 1)).1.trace.count event.lost_control_pdu =
        (d0 4294967295).trace.count event.lost_control_pdu + 1 :=
  ⟨(C6_unsigned_comparisons ext0 (d0 4294967295) (cpdu PDU_TYPE_ACK 1) rfl rfl rfl
      (by decide) (by decide)).1.mpr (by decide),
   (C6_unsigned_comparisons ext0 (d0 4294967295) (cpdu PDU_TYPE_ACK 1) rfl rfl rfl
      (by decide) (by decide)).2.2.2.1.mpr (by decide)⟩

/-- The whole outcome of `rcv_flow_ctl` on an instance whose DT parent has a closed-window
queue, and still has one and a DTP after the delivery. -/
theorem rcv_flow_ctl_result (ext : collaborators) (d : dtcp) (c : pci) (q0 q : cwq) (t : dtp)
    (h0 : d.parent.cwq = some q0)
    (ht : (ext.cwq_deliver d.parent { d.sv with snd_rt_wind_edge := c.new_rt_wind_edge }
      d.conn.destination_address d.conn.qos_id).dtp = some t)
    (hq : (ext.cwq_deliver d.parent { d.sv with snd_rt_wind_edge := c.new_rt_wind_edge }
      d.conn.destination_address d.conn.qos_id).cwq = some q) :
    rcv_flow_ctl ext d c =
      ({ parent :=
          if q.entries.isEmpty = true ∧ t.max_seq_nr_sent < c.new_rt_wind_edge then
            { ext.cwq_deliver d.parent { d.sv with snd_rt_wind_edge := c.new_rt_wind_edge }
                d.conn.destination_address d.conn.qos_id with window_closed := false }
          else
            ext.cwq_deliver d.parent { d.sv with snd_rt_wind_edge := c.new_rt_wind_edge }
              d.conn.destination_address d.conn.qos_id
         sv := { d.sv with snd_rt_wind_edge := c.new_rt_wind_edge }
         conn := d.conn
         cpdus_in_transit := d.cpdus_in_transit
         trace :=
          d.trace ++
            [event.pdu_destroy, event.cwq_deliver d.conn.destination_address d.conn.qos_id] ++
            (if q.entries.isEmpty = true ∧ t.max_seq_nr_sent < c.new_rt_wind_edge then
              [event.window_closed_set false] else []) }, 0) := by
  unfold rcv_flow_ctl push_pdus_rmt
  simp only [snd_rt_wind_edge_set, pdu_destroy, record, h0, ht, hq, cwq_is_empty,
    snd_rt_wind_edge, dt_sv_window_closed_set]
  by_cases hc : q.entries.isEmpty = true ∧ t.max_seq_nr_sent < c.new_rt_wind_edge
  · simp [hc]
  · rw [if_neg hc, if_neg hc, if_neg]
    · simp
    · simpa using hc

/-- C7 (as stated, refuted): an instance whose DT parent has no closed-window queue
receives a fresh FC PDU: the window edge is set to 9 but no delivery from a closed-window
queue takes place (the only call made is the destruction of the PDU) and -1 is returned. -/
theorem C7_flow_ctl_without_cwq_drains_nothing :
    (d0_no_cwq 5).sv.last_rcv_ctl_seq < (cpdu PDU_TYPE_FC 6).pci.sequence_number ∧
    (dtcp_common_rcv_control ext0 (default_policies ext0) (d0_no_cwq 5)
      (cpdu PDU_TYPE_FC 6)).1.sv.snd_rt_wind_edge = 9 ∧
    (dtcp_common_rcv_control ext0 (default_policies ext0) (d0_no_cwq 5)
      (cpdu PDU_TYPE_FC 6)).1.trace = [event.pdu_destroy] ∧
    (dtcp_common_rcv_control ext0 (default_policies ext0) (d0_no_cwq 5)
      (cpdu PDU_TYPE_FC 6)).1.parent = (d0_no_cwq 5).parent ∧
    (dtcp_common_rcv_control ext0 (default_policies ext0) (d0_no_cwq 5)
      (cpdu PDU_TYPE_FC 6)).2 = -1 := by
  decide

/-- C7 (amended): for every non-duplicate FC control PDU received by an instance whose DT
parent has a closed-window queue, and has one and a DTP after the delivery,
`dtcp_common_rcv_control` sets `snd_rt_wind_edge` to the new right window edge of the PDU,
has the closed-window queue deliver once, and then clears the window-closed flag if and
only if the queue is empty and the highest data sequence number sent is below the new
`snd_rt_wind_edge`; otherwise the flag is as the delivery left it. No field of the state
vector other than `last_rcv_ctl_seq` and `snd_rt_wind_edge` changes, the count of PDUs in
transit is restored and 0 is returned. -/
theorem C7_flow_ctl_with_cwq (ext : collaborators) (d : dtcp) (p : pdu) (q0 q : cwq) (t : dtp)
    (hok : p.ok = true) (hpci : p.pci.ok = true) (hfc : p.pci.type = PDU_TYPE_FC)
    (hnew : d.sv.last_rcv_ctl_seq < p.pci.sequence_number)
    (h0 : d.parent.cwq = some q0)
    (ht : (ext.cwq_deliver d.parent
      { d.sv with
        last_rcv_ctl_seq := p.pci.sequence_number
        snd_rt_wind_edge := p.pci.new_rt_wind_edge }
      d.conn.destination_address d.conn.qos_id).dtp = some t)
    (hq : (ext.cwq_deliver d.parent
      { d.sv with
        last_rcv_ctl_seq := p.pci.sequence_number
        snd_rt_wind_edge := p.pci.new_rt_wind_edge }
      d.conn.destination_address d.conn.qos_id).cwq = some q) :
    dtcp_common_rcv_control ext (default_policies ext) d p =
      ({ parent :=
          if q.entries.isEmpty = true ∧ t.max_seq_nr_sent < p.pci.new_rt_wind_edge then
            { ext.cwq_deliver d.parent
                { d.sv with
                  last_rcv_ctl_seq := p.pci.sequence_number
                  snd_rt_wind_edge := p.pci.new_rt_wind_edge }
                d.conn.destination_address d.conn.qos_id with window_closed := false }
          else
            ext.cwq_deliver d.parent
              { d.sv with
                last_rcv_ctl_seq := p.pci.sequence_number
                snd_rt_wind_edge := p.pci.new_rt_wind_edge }
              d.conn.destination_address d.conn.qos_id
         sv :=
          { d.sv with
            last_rcv_ctl_seq := p.pci.sequence_number
            snd_rt_wind_edge := p.pci.new_rt_wind_edge }
         conn := d.conn
         cpdus_in_transit := d.cpdus_in_transit
         trace :=
          d.trace ++
            (if (d.sv.last_rcv_ctl_seq + 1) % SEQ_MOD < p.pci.sequence_number then
              [event.lost_control_pdu] else []) ++
            [event.pdu_destroy, event.cwq_deliver d.conn.destination_address d.conn.qos_id] ++
            (if q.entries.isEmpty = true ∧ t.max_seq_nr_sent < p.pci.new_rt_wind_edge then
              [event.window_closed_set false] else []) }, 0) := by
  have hctl : pdu_type_is_control p.pci.type = true := by rw [hfc]; rfl
  rw [rcv_control_fresh ext _ d p hok hpci hctl hnew]
  simp only [hfc]
  have hd := at_dispatch_default ext d p
  have h0' : (at_dispatch (default_policies ext) d p).parent.cwq = some q0 := by
    rw [hd]; exact h0
  have ht' : (ext.cwq_deliver (at_dispatch (default_policies ext) d p).parent
      { (at_dispatch (default_policies ext) d p).sv with
        snd_rt_wind_edge := p.pci.new_rt_wind_edge }
      (at_dispatch (default_policies ext) d p).conn.destination_address
      (at_dispatch (default_policies ext) d p).conn.qos_id).dtp = some t := by
    rw [hd]; exact ht
  have hq' : (ext.cwq_deliver (at_dispatch (default_policies ext) d p).parent
      { (at_dispatch (default_policies ext) d p).sv with
        snd_rt_wind_edge := p.pci.new_rt_wind_edge }
      (at_dispatch (default_policies ext) d p).conn.destination_address
      (at_dispatch (default_policies ext) d p).conn.qos_id).cwq = some q := by
    rw [hd]; exact hq
  rw [rcv_flow_ctl_result ext _ p.pci q0 q t h0' ht' hq', hd]
  simp [atomic_dec, List.append_assoc]

/-- C7 (amended) at a concrete input: the instance `d0 5`, whose closed-window queue is
empty and whose DTP has sent up to 4, receives a fresh FC PDU announcing the edge 9: the
edge becomes 9, the queue delivers once and the window-closed flag is cleared. -/
theorem C7_flow_ctl_with_cwq_witness :
    dtcp_common_rcv_control ext0 (default_policies ext0) (d0 5) (cpdu PDU_TYPE_FC 6) =
      ({ parent := { dt0 with window_closed := false }
         sv := { sv0 5 with last_rcv_ctl_seq := 6, snd_rt_wind_edge := 9 }
         conn := conn0
         cpdus_in_transit := 0
         trace := [event.pdu_destroy, event.cwq_deliver 20 1, event.window_closed_set false] },
       0) :=
  (C7_flow_ctl_with_cwq ext0 (d0 5) (cpdu PDU_TYPE_FC 6) { entries := [] } { entries := [] }
    { max_seq_nr_sent := 4 } rfl rfl rfl (by decide) rfl rfl rfl).trans (by decide)

/-- C8 (code defect): on the instance `d0 5` (window closed, closed-window queue empty, data
sent up to 4) a fresh ACK+FC PDU announcing the edge 9 leaves the window-closed flag set,
where the ACK handling followed by the FC handling, and likewise an ACK PDU followed by an
FC PDU with the same fields, clears it; the state vectors agree. -/
theorem C8_ack_and_fc_leaves_window_closed :
    (d0 5).parent.window_closed = true ∧
    (dtcp_common_rcv_control ext0 (default_policies ext0) (d0 5)
      (cpdu PDU_TYPE_ACK_AND_FC 6)).1.parent.window_closed = true ∧
    (rcv_ack_and_flow_ctl ext0 (default_policies ext0) (d0 5)
      (cpdu PDU_TYPE_ACK_AND_FC 6).pci).1.parent.window_closed = true ∧
    (spec_ack_then_flow_ctl ext0 (default_policies ext0) (d0 5)
      (cpdu PDU_TYPE_ACK_AND_FC 6).pci).1.parent.window_closed = false ∧
    (spec_ack_then_flow_ctl ext0 (default_policies ext0) (d0 5)
      (cpdu PDU_TYPE_ACK_AND_FC 6).pci).1.sv =
      (rcv_ack_and_flow_ctl ext0 (default_policies ext0) (d0 5)
        (cpdu PDU_TYPE_ACK_AND_FC 6).pci).1.sv ∧
    (dtcp_common_rcv_control ext0 (default_policies ext0)
      (dtcp_common_rcv_control ext0 (default_policies ext0) (d0 5) (cpdu PDU_TYPE_ACK 6)).1
      (cpdu PDU_TYPE_FC 7)).1.parent.window_closed = false := by
  decide

/-- C9: for every non-duplicate usable control PDU, `dtcp_common_rcv_control` returns -1
when the type is none of ACK, NACK, FC and ACK+FC, and otherwise the value returned by the
handler of the type: the `sender_ack` policy for ACK, `rcv_nack_ctl` for NACK,
`rcv_flow_ctl` for FC and `rcv_ack_and_flow_ctl` for ACK+FC, each run on the instance in
which the sequence number of the PDU has been stored. -/
theorem C9_dispatch_return_value (ext : collaborators) (pol : dtcp_policies) (d : dtcp)
    (p : pdu) (hok : p.ok = true) (hpci : p.pci.ok = true)
    (hctl : pdu_type_is_control p.pci.type = true)
    (hnew : d.sv.last_rcv_ctl_seq < p.pci.sequence_number) :
    (p.pci.type ≠ PDU_TYPE_ACK → p.pci.type ≠ PDU_TYPE_NACK → p.pci.type ≠ PDU_TYPE_FC →
      p.pci.type ≠ PDU_TYPE_ACK_AND_FC →
      (dtcp_common_rcv_control ext pol d p).2 = -1) ∧
    (p.pci.type = PDU_TYPE_ACK →
      (dtcp_common_rcv_control ext pol d p).2 =
        (pol.sender_ack (at_dispatch pol d p) p.pci.ack_seq_num).2) ∧
    (p.pci.type = PDU_TYPE_NACK →
      (dtcp_common_rcv_control ext pol d p).2 =
        (rcv_nack_ctl ext (at_dispatch pol d p) p.pci.ack_seq_num).2) ∧
    (p.pci.type = PDU_TYPE_FC →
      (dtcp_common_rcv_control ext pol d p).2 =
        (rcv_flow_ctl ext (at_dispatch pol d p) p.pci).2) ∧
    (p.pci.type = PDU_TYPE_ACK_AND_FC →
      (dtcp_common_rcv_control ext pol d p).2 =
        (rcv_ack_and_flow_ctl ext pol (at_dispatch pol d p) p.pci).2) := by
  rw [rcv_control_fresh ext pol d p hok hpci hctl hnew]
  refine ⟨?_, ?_, ?_, ?_, ?_⟩
  · intro h1 h2 h3 h4
    cases h : p.pci.type <;> simp_all
  · intro h; simp only [h]
  · intro h; simp only [h]
  · intro h; simp only [h]
  · intro h; simp only [h]

/-- C9 at concrete inputs: a fresh NACK+FC PDU and a fresh PDU of another control kind are
answered with -1, a fresh FC PDU with the 0 of `rcv_flow_ctl`. -/
theorem C9_dispatch_return_value_witness :
    (dtcp_common_rcv_control ext0 (default_policies ext0) (d0 5)
      (cpdu PDU_TYPE_NACK_AND_FC 6)).2 = -1 ∧
    (dtcp_common_rcv_control ext0 (default_policies ext0) (d0 5)
      (cpdu PDU_TYPE_OTHER_CONTROL 6)).2 = -1 ∧
    (dtcp_common_rcv_control ext0 (default_policies ext0) (d0 5)
      (cpdu PDU_TYPE_FC 6)).2 = 0 :=
  ⟨(C9_dispatch_return_value ext0 (default_policies ext0) (d0 5)
      (cpdu PDU_TYPE_NACK_AND_FC 6) rfl rfl rfl (by decide)).1
      (by decide) (by decide) (by decide) (by decide),
   (C9_dispatch_return_value ext0 (default_policies ext0) (d0 5)
      (cpdu PDU_TYPE_OTHER_CONTROL 6) rfl rfl rfl (by decide)).1
      (by decide) (by decide) (by decide) (by decide),
   ((C9_dispatch_return_value ext0 (default_policies ext0) (d0 5)
      (cpdu PDU_TYPE_FC 6) rfl rfl rfl (by decide)).2.2.2.1 rfl).trans (by decide)⟩

/-- C10: `pdu_ctrl_type_get` compares `last_snd_data_ack` with the receiver left window edge
LWE of the DT parent: if it is below LWE, it becomes LWE (nothing else changes) and the
type returned is ACK+FC when flow control is on and ACK otherwise; if not, the instance is
unchanged and 0 is returned. The outcome is the same for every argument `seq` and every
value of the A-timer. -/
theorem C10_pdu_ctrl_type_get (d : dtcp) (seq : Nat) :
    pdu_ctrl_type_get d seq =
      (if d.sv.last_snd_data_ack < d.parent.rcv_lft_win then
        ({ d with sv := { d.sv with last_snd_data_ack := d.parent.rcv_lft_win } },
          if dtcp_flow_ctrl (dtcp_config_get d) = true then PDU_TYPE_ACK_AND_FC
          else PDU_TYPE_ACK)
      else (d, ZERO)) ∧
    (∀ (seq' a' : Nat),
      (pdu_ctrl_type_get { d with parent := { d.parent with a := a' } } seq').2 =
        (pdu_ctrl_type_get d seq).2 ∧
      (pdu_ctrl_type_get { d with parent := { d.parent with a := a' } } seq').1.sv =
        (pdu_ctrl_type_get d seq).1.sv) := by
  have key : ∀ (e : dtcp) (s : Nat), pdu_ctrl_type_get e s =
      (if e.sv.last_snd_data_ack < e.parent.rcv_lft_win then
        ({ e with sv := { e.sv with last_snd_data_ack := e.parent.rcv_lft_win } },
          if dtcp_flow_ctrl (dtcp_config_get e) = true then PDU_TYPE_ACK_AND_FC
          else PDU_TYPE_ACK)
      else (e, ZERO)) := by
    intro e s
    unfold pdu_ctrl_type_get
    simp only [last_snd_data_ack, last_snd_data_ack_set]
    by_cases h : e.sv.last_snd_data_ack < e.parent.rcv_lft_win
    · by_cases ha : e.parent.a = 0 <;>
        by_cases hf : dtcp_flow_ctrl (dtcp_config_get e) = true <;> simp [h, ha, hf]
    · simp [h]
  refine ⟨key d seq, ?_⟩
  intro seq' a'
  rw [key, key]
  simp only [dtcp_config_get]
  by_cases h : d.sv.last_snd_data_ack < d.parent.rcv_lft_win <;> simp [h]

/-! ## Control-PDU generation -/

/-- A control PDU that `pdu_ctrl_create_ni` returns, and the instance it leaves. -/
theorem pdu_ctrl_create_ni_some (lib : pdu_lib) (d d1 : dtcp) (type : pdu_type_t) (p : pdu)
    (h : pdu_ctrl_create_ni lib d type = (d1, some p)) :
    d1 = (next_snd_ctl_seq d).1 ∧
    p.pci.sequence_number = (d.sv.next_snd_ctl_seq + 1) % SEQ_MOD ∧
    p.pci.last_seq_num_rcvd = d.sv.last_rcv_ctl_seq ∧
    p.pci.type = type := by
  unfold pdu_ctrl_create_ni at h
  split at h
  · simp at h
  split at h
  · simp at h
  split at h
  · simp at h
  split at h
  · simp at h
  simp only [] at h
  split at h
  · simp at h
  split at h
  · simp at h
  split at h
  · simp at h
  split at h
  · simp at h
  simp only [Prod.mk.injEq, Option.some.injEq] at h
  obtain ⟨h1, h2⟩ := h
  subst h1 h2
  simp [next_snd_ctl_seq, pci_format, last_rcv_ctrl_seq]

/-- What `populate_ctrl_pci` leaves untouched in the PCI. -/
theorem populate_ctrl_pci_frame (lib : pdu_lib) (c : pci) (d : dtcp) :
    (populate_ctrl_pci lib c d).1.sequence_number = c.sequence_number ∧
    (populate_ctrl_pci lib c d).1.last_seq_num_rcvd = c.last_seq_num_rcvd ∧
    (populate_ctrl_pci lib c d).1.type = c.type := by
  unfold populate_ctrl_pci
  cases dtcp_config_get d with
  | none => simp
  | some cfg =>
    simp only []
    by_cases hf : dtcp_flow_ctrl (some cfg) = true <;>
      by_cases hw : dtcp_window_based_fctrl (some cfg) = true <;>
      by_cases hl : lib.pci_control_ack_seq_num_set = false <;>
      cases ht : c.type <;> simp [hf, hw, hl, ht]

/-- A control PDU that `pdu_ctrl_generate` returns, and the instance it leaves. -/
theorem pdu_ctrl_generate_some (lib : pdu_lib) (d d1 : dtcp) (type : pdu_type_t) (p : pdu)
    (h : pdu_ctrl_generate lib d type = (d1, some p)) :
    d1 = (next_snd_ctl_seq d).1 ∧
    p.pci.sequence_number = (d.sv.next_snd_ctl_seq + 1) % SEQ_MOD ∧
    p.pci.last_seq_num_rcvd = d.sv.last_rcv_ctl_seq ∧
    p.pci.type = type := by
  unfold pdu_ctrl_generate at h
  split at h
  · simp at h
  split at h
  · simp at h
  · rename_i d2 p2 hc
    have hs := pdu_ctrl_create_ni_some lib d d2 type p2 hc
    split at h
    · simp at h
    · simp only [Prod.mk.injEq, Option.some.injEq] at h
      obtain ⟨h1, h2⟩ := h
      subst h1 h2
      have hf := populate_ctrl_pci_frame lib p2.pci d2
      refine ⟨hs.1, ?_, ?_, ?_⟩
      · simp only []
        rw [hf.1]; exact hs.2.1
      · simp only []
        rw [hf.2.1]; exact hs.2.2.1
      · simp only []
        rw [hf.2.2]; exact hs.2.2.2

/-- The control sequence counter of a newly created instance is 0. -/
theorem dtcp_create_next_snd_ctl_seq (k : build_config) (m : create_env) (t : Option dt)
    (c : Option connection) (rmt : Bool) (d : dtcp) (tbl : hook → Option policy_fn)
    (h : dtcp_create k m t c rmt = some (d, tbl)) :
    d.sv.next_snd_ctl_seq = 0 := by
  unfold dtcp_create at h
  split at h
  · simp at h
  split at h
  · simp at h
  split at h
  · simp at h
  split at h
  · simp at h
  split at h
  · simp at h
  split at h
  · simp at h
  split at h
  · simp at h
  simp only [Option.some.injEq, Prod.mk.injEq] at h
  rw [← h.1]
  unfold dtcp_sv_init
  split
  · rfl
  · split <;> rfl

/-- C11: a control PDU that `pdu_ctrl_generate` returns carries the pre-incremented counter
as its sequence number, `next_snd_ctl_seq` before the call plus one modulo 2^32;
`next_snd_ctl_seq` after the call is that number and no other field of the state vector
changes; its last-control-received field is `last_rcv_ctl_seq`. The next control PDU
generated carries the following number, and the first one of a newly created instance
carries 1. -/
theorem C11_ctrl_pdu_sequence_number (lib : pdu_lib) (d d1 : dtcp) (type : pdu_type_t)
    (p : pdu) (h : pdu_ctrl_generate lib d type = (d1, some p)) :
    p.pci.sequence_number = (d.sv.next_snd_ctl_seq + 1) % SEQ_MOD ∧
    d1.sv.next_snd_ctl_seq = p.pci.sequence_number ∧
    d1.sv = { d.sv with next_snd_ctl_seq := (d.sv.next_snd_ctl_seq + 1) % SEQ_MOD } ∧
    p.pci.last_seq_num_rcvd = d.sv.last_rcv_ctl_seq ∧
    (∀ (lib2 : pdu_lib) (type2 : pdu_type_t) (d2 : dtcp) (p2 : pdu),
      pdu_ctrl_generate lib2 d1 type2 = (d2, some p2) →
      p2.pci.sequence_number = (p.pci.sequence_number + 1) % SEQ_MOD) ∧
    (∀ (k : build_config) (m : create_env) (t : Option dt) (c : Option connection)
      (rmt : Bool) (tbl : hook → Option policy_fn),
      dtcp_create k m t c rmt = some (d, tbl) → p.pci.sequence_number = 1) := by
  have hs := pdu_ctrl_generate_some lib d d1 type p h
  obtain ⟨h1, h2, h3, _⟩ := hs
  have hsv : d1.sv = { d.sv with next_snd_ctl_seq := (d.sv.next_snd_ctl_seq + 1) % SEQ_MOD } := by
    rw [h1]; rfl
  refine ⟨h2, ?_, hsv, h3, ?_, ?_⟩
  · rw [hsv, h2]
  · intro lib2 type2 d2 p2 hg
    have hs2 := pdu_ctrl_generate_some lib2 d1 d2 type2 p2 hg
    rw [hs2.2.1, hsv, h2]
  · intro k m t c rmt tbl hc
    rw [h2, dtcp_create_next_snd_ctl_seq k m t c rmt d tbl hc]
    rfl

/-- C11 at concrete inputs: on the newly created instance over `dt0` and `conn0` the first
ACK PDU generated carries the sequence number 1 and the next one 2. -/
theorem C11_ctrl_pdu_sequence_number_witness :
    ∃ d : dtcp, ∃ tbl : hook → Option policy_fn,
      dtcp_create k0 m_ok (some dt0) (some conn0) true = some (d, tbl) ∧
      ∃ d1 : dtcp, ∃ p : pdu, pdu_ctrl_generate lib_ok d PDU_TYPE_ACK = (d1, some p) ∧
        p.pci.sequence_number = 1 ∧ d1.sv.next_snd_ctl_seq = 1 ∧
        ∃ d2 : dtcp, ∃ p2 : pdu, pdu_ctrl_generate lib_ok d1 PDU_TYPE_FC = (d2, some p2) ∧
          p2.pci.sequence_number = 2 :=
  ⟨_, _, rfl, _, _, rfl,
    (C11_ctrl_pdu_sequence_number lib_ok _ _ PDU_TYPE_ACK _ rfl).2.2.2.2.2
      k0 m_ok (some dt0) (some conn0) true _ rfl,
    by decide, _, _, rfl, by decide⟩

/-- C12: on an instance that has a configuration, and with an ACK-field setter that
succeeds, `populate_ctrl_pci` returns 0 and sets the ACK field of the PCI to the receiver
left window edge LWE when the type is ACK or ACK+FC and to LWE + 1 modulo 2^32 when the
type is NACK or NACK+FC; for every other type it returns 0 and leaves the ACK field as it
was, whatever the setter would do. -/
theorem C12_populate_ctrl_pci_ack_field (lib : pdu_lib) (c : pci) (d : dtcp)
    (cfg : dtcp_config) (hcfg : dtcp_config_get d = some cfg) :
    ((c.type = PDU_TYPE_ACK ∨ c.type = PDU_TYPE_ACK_AND_FC) →
      lib.pci_control_ack_seq_num_set = true →
      (populate_ctrl_pci lib c d).1.ack_seq_num = d.parent.rcv_lft_win ∧
      (populate_ctrl_pci lib c d).2 = 0) ∧
    ((c.type = PDU_TYPE_NACK ∨ c.type = PDU_TYPE_NACK_AND_FC) →
      lib.pci_control_ack_seq_num_set = true →
      (populate_ctrl_pci lib c d).1.ack_seq_num = (d.parent.rcv_lft_win + 1) % SEQ_MOD ∧
      (populate_ctrl_pci lib c d).2 = 0) ∧
    (c.type ≠ PDU_TYPE_ACK → c.type ≠ PDU_TYPE_ACK_AND_FC → c.type ≠ PDU_TYPE_NACK →
      c.type ≠ PDU_TYPE_NACK_AND_FC →
      (populate_ctrl_pci lib c d).1.ack_seq_num = c.ack_seq_num ∧
      (populate_ctrl_pci lib c d).2 = 0) := by
  unfold populate_ctrl_pci
  rw [hcfg]
  simp only []
  refine ⟨?_, ?_, ?_⟩
  · intro ht hl
    by_cases hf : dtcp_flow_ctrl (some cfg) = true <;>
      by_cases hw : dtcp_window_based_fctrl (some cfg) = true <;>
      rcases ht with ht | ht <;> simp [hf, hw, hl, ht]
  · intro ht hl
    by_cases hf : dtcp_flow_ctrl (some cfg) = true <;>
      by_cases hw : dtcp_window_based_fctrl (some cfg) = true <;>
      rcases ht with ht | ht <;> simp [hf, hw, hl, ht]
  · intro h1 h2 h3 h4
    by_cases hf : dtcp_flow_ctrl (some cfg) = true <;>
      by_cases hw : dtcp_window_based_fctrl (some cfg) = true <;>
      cases ht : c.type <;> simp_all

/-- C12 at concrete inputs: with the receiver left window edge at 7, a populated ACK PCI
acknowledges 7, a NACK PCI 8, and an FC PCI keeps its ACK field 5. -/
theorem C12_populate_ctrl_pci_ack_field_witness :
    (populate_ctrl_pci lib_ok (cpdu PDU_TYPE_ACK 1).pci
      { d0 0 with parent := { dt0 with rcv_lft_win := 7 } }).1.ack_seq_num = 7 ∧
    (populate_ctrl_pci lib_ok (cpdu PDU_TYPE_NACK 1).pci
      { d0 0 with parent := { dt0 with rcv_lft_win := 7 } }).1.ack_seq_num = 8 ∧
    (populate_ctrl_pci lib_ok (cpdu PDU_TYPE_FC 1).pci
      { d0 0 with parent := { dt0 with rcv_lft_win := 7 } }).1.ack_seq_num = 5 :=
  ⟨((C12_populate_ctrl_pci_ack_field lib_ok (cpdu PDU_TYPE_ACK 1).pci
      { d0 0 with parent := { dt0 with rcv_lft_win := 7 } } cfg0 rfl).1 (Or.inl rfl) rfl).1,
   (((C12_populate_ctrl_pci_ack_field lib_ok (cpdu PDU_TYPE_NACK 1).pci
      { d0 0 with parent := { dt0 with rcv_lft_win := 7 } } cfg0 rfl).2.1 (Or.inl rfl)
      rfl).1).trans (by decide),
   ((C12_populate_ctrl_pci_ack_field lib_ok (cpdu PDU_TYPE_FC 1).pci
      { d0 0 with parent := { dt0 with rcv_lft_win := 7 } } cfg0 rfl).2.2 (by decide)
      (by decide) (by decide) (by decide)).1⟩

/-! ## The state-vector update policy -/

/-- Recording a call through the policy table adds it to the calls recorded. -/
theorem policy_runs_record_policy (d : dtcp) (h : hook) :
    policy_runs (record d (event.policy h)) = policy_runs d ++ [h] := by
  simp [policy_runs, record, List.filterMap_append]

/-- A call of a quiet policy through the table adds exactly that call. -/
theorem policy_runs_invoke (h : hook) (f : dtcp → dtcp × Int) (hq : quiet f) (d : dtcp) :
    policy_runs (invoke h f d).1 = policy_runs d ++ [h] := by
  unfold invoke
  rw [hq, policy_runs_record_policy]

/-- The calls that `default_sv_update` makes through the policy table, for quiet
sub-policies. -/
theorem default_sv_update_runs (pol : sv_update_policies) (d : dtcp) (seq : Nat)
    (cfg : dtcp_config) (hcfg : dtcp_config_get d = some cfg)
    (h1 : quiet fun x => pol.rcvr_flow_control x seq) (h2 : quiet pol.rate_reduction)
    (h3 : quiet fun x => pol.receiving_flow_control x seq)
    (h4 : quiet fun x => pol.rcvr_ack x seq) :
    policy_runs (default_sv_update pol d seq).1 = policy_runs d ++ sv_update_runs cfg := by
  unfold default_sv_update sv_update_runs
  rw [hcfg]
  obtain ⟨f, w, r, x, ic, dm⟩ := cfg
  simp only [dtcp_flow_ctrl, dtcp_window_based_fctrl, dtcp_rate_based_fctrl, dtcp_rtx_ctrl]
  cases f <;> cases w <;> cases r <;> cases x <;>
    simp [policy_runs_invoke, h1, h2, h3, h4]

/-- C13 (as stated, refuted): with flow control off and retransmission control off, on a
window-based and rate-based configuration, `default_sv_update` returns 0 without calling
any sub-policy: `rcvr_flow_control` is not run although the configuration is window-based,
and neither `receiving_flow_control` nor `rcvr_ack` is run. -/
theorem C13_no_sub_policy_without_flow_control :
    dtcp_config_get
        (d_cfg { cfg0 with flow_ctrl := false, rate_based_fctrl := true, rtx_ctrl := false }) =
      some { cfg0 with flow_ctrl := false, rate_based_fctrl := true, rtx_ctrl := false } ∧
    cfg0.window_based_fctrl = true ∧
    policy_runs (default_sv_update (stub_policies 0 0 0 0)
      (d_cfg { cfg0 with flow_ctrl := false, rate_based_fctrl := true, rtx_ctrl := false })
      3).1 = [] ∧
    (default_sv_update (stub_policies 0 0 0 0)
      (d_cfg { cfg0 with flow_ctrl := false, rate_based_fctrl := true, rtx_ctrl := false })
      3).2 = 0 := by
  decide

/-- C13 (amended): for every configuration and quiet sub-policies, `default_sv_update` calls,
in this order: when flow control is on, `rcvr_flow_control` if window-based, then
`rate_reduction` if rate-based, then `receiving_flow_control` if retransmission control is
off or `rcvr_ack` if it is on; when flow control is off, `rcvr_ack` alone if retransmission
control is on and nothing otherwise. Exactly one of `receiving_flow_control` and `rcvr_ack`
is called unless flow control and retransmission control are both off; then no sub-policy
is called, the instance is left as it was and 0 is returned. -/
theorem C13_sv_update_order (pol : sv_update_policies) (d : dtcp) (seq : Nat)
    (cfg : dtcp_config) (hcfg : dtcp_config_get d = some cfg)
    (h1 : quiet fun x => pol.rcvr_flow_control x seq) (h2 : quiet pol.rate_reduction)
    (h3 : quiet fun x => pol.receiving_flow_control x seq)
    (h4 : quiet fun x => pol.rcvr_ack x seq) :
    policy_runs (default_sv_update pol d seq).1 =
      policy_runs d ++
        (if cfg.flow_ctrl = true then
          (if cfg.window_based_fctrl = true then [hook.rcvr_flow_control] else []) ++
            (if cfg.rate_based_fctrl = true then [hook.rate_reduction] else []) ++
            [if cfg.rtx_ctrl = true then hook.rcvr_ack else hook.receiving_flow_control]
        else if cfg.rtx_ctrl = true then [hook.rcvr_ack] else []) ∧
    ((cfg.flow_ctrl = true ∨ cfg.rtx_ctrl = true) →
      (sv_update_runs cfg).count hook.receiving_flow_control +
        (sv_update_runs cfg).count hook.rcvr_ack = 1) ∧
    (cfg.flow_ctrl = false → cfg.rtx_ctrl = false → sv_update_runs cfg = []) ∧
    (cfg.flow_ctrl = false → cfg.rtx_ctrl = false → default_sv_update pol d seq = (d, 0)) := by
  refine ⟨?_, ?_, ?_, ?_⟩
  · have h := default_sv_update_runs pol d seq cfg hcfg h1 h2 h3 h4
    unfold sv_update_runs at h
    exact h
  · intro h
    obtain ⟨f, w, r, x, ic, dm⟩ := cfg
    unfold sv_update_runs
    cases f <;> cases w <;> cases r <;> cases x <;> simp_all
  · intro hf hx
    unfold sv_update_runs
    simp [hf, hx]
  · intro hf hx
    unfold default_sv_update
    rw [hcfg]
    simp [dtcp_flow_ctrl, dtcp_rtx_ctrl, hf, hx]

/-- C13 (amended) at a concrete input: with flow control (window based) and
retransmission control on, `rcvr_flow_control` runs and then `rcvr_ack`. -/
theorem C13_sv_update_order_witness :
    policy_runs (default_sv_update (stub_policies 0 0 0 0) (d_cfg cfg0) 3).1 =
      [hook.rcvr_flow_control, hook.rcvr_ack] :=
  ((C13_sv_update_order (stub_policies 0 0 0 0) (d_cfg cfg0) 3 cfg0 rfl (fun _ => rfl)
    (fun _ => rfl) (fun _ => rfl) (fun _ => rfl)).1).trans (by decide)

/-- C14: on an instance that has a configuration, for sub-policies with any effects and any
returned values, `default_sv_update` returns -1 if one of the sub-policies it calls for the
configuration returns non-zero and 0 otherwise; the instance it leaves does not depend on
the returned values, so a failure keeps no later sub-policy from running: for quiet effects
the calls made are those of the configuration. -/
theorem C14_sv_update_accumulates_failures (g1 g3 g4 : dtcp → Nat → dtcp) (g2 : dtcp → dtcp)
    (rc1 rc2 rc3 rc4 : Int) (d : dtcp) (seq : Nat) (cfg : dtcp_config)
    (hcfg : dtcp_config_get d = some cfg) :
    (default_sv_update
      { rcvr_flow_control := fun x s => (g1 x s, rc1)
        rate_reduction := fun x => (g2 x, rc2)
        receiving_flow_control := fun x s => (g3 x s, rc3)
        rcvr_ack := fun x s => (g4 x s, rc4) } d seq).2 =
      (if (cfg.flow_ctrl = true ∧ cfg.window_based_fctrl = true ∧ rc1 ≠ 0) ∨
          (cfg.flow_ctrl = true ∧ cfg.rate_based_fctrl = true ∧ rc2 ≠ 0) ∨
          (cfg.flow_ctrl = true ∧ cfg.rtx_ctrl = false ∧ rc3 ≠ 0) ∨
          (cfg.rtx_ctrl = true ∧ rc4 ≠ 0) then -1 else 0) ∧
    (∀ rc1' rc2' rc3' rc4' : Int,
      (default_sv_update
        { rcvr_flow_control := fun x s => (g1 x s, rc1')
          rate_reduction := fun x => (g2 x, rc2')
          receiving_flow_control := fun x s => (g3 x s, rc3')
          rcvr_ack := fun x s => (g4 x s, rc4') } d seq).1 =
      (default_sv_update
        { rcvr_flow_control := fun x s => (g1 x s, rc1)
          rate_reduction := fun x => (g2 x, rc2)
          receiving_flow_control := fun x s => (g3 x s, rc3)
          rcvr_ack := fun x s => (g4 x s, rc4) } d seq).1) ∧
    ((∀ x s, policy_runs (g1 x s) = policy_runs x) → (∀ x, policy_runs (g2 x) = policy_runs x) →
      (∀ x s, policy_runs (g3 x s) = policy_runs x) →
      (∀ x s, policy_runs (g4 x s) = policy_runs x) →
      policy_runs (default_sv_update
        { rcvr_flow_control := fun x s => (g1 x s, rc1)
          rate_reduction := fun x => (g2 x, rc2)
          receiving_flow_control := fun x s => (g3 x s, rc3)
          rcvr_ack := fun x s => (g4 x s, rc4) } d seq).1 =
        policy_runs d ++ sv_update_runs cfg) := by
  refine ⟨?_, ?_, ?_⟩
  · unfold default_sv_update
    rw [hcfg]
    obtain ⟨f, w, r, x, ic, dm⟩ := cfg
    simp only [dtcp_flow_ctrl, dtcp_window_based_fctrl, dtcp_rate_based_fctrl, dtcp_rtx_ctrl,
      invoke]
    by_cases e1 : rc1 = 0 <;> by_cases e2 : rc2 = 0 <;> by_cases e3 : rc3 = 0 <;>
      by_cases e4 : rc4 = 0 <;>
      cases f <;> cases w <;> cases r <;> cases x <;> simp [e1, e2, e3, e4]
  · intro rc1' rc2' rc3' rc4'
    unfold default_sv_update
    rw [hcfg]
    obtain ⟨f, w, r, x, ic, dm⟩ := cfg
    simp only [dtcp_flow_ctrl, dtcp_window_based_fctrl, dtcp_rate_based_fctrl, dtcp_rtx_ctrl,
      invoke]
    cases f <;> cases w <;> cases r <;> cases x <;> simp
  · intro q1 q2 q3 q4
    exact default_sv_update_runs _ d seq cfg hcfg (fun x => q1 x seq) q2 (fun x => q3 x seq)
      (fun x => q4 x seq)

/-- C14 at a concrete input: with flow control (window based) and retransmission control
on, a failing `rcvr_flow_control` makes the result -1 and `rcvr_ack` still runs after it. -/
theorem C14_sv_update_accumulates_failures_witness :
    (default_sv_update (stub_policies (-1) 0 0 0) (d_cfg cfg0) 3).2 = -1 ∧
    policy_runs (default_sv_update (stub_policies (-1) 0 0 0) (d_cfg cfg0) 3).1 =
      [hook.rcvr_flow_control, hook.rcvr_ack] :=
  ⟨((C14_sv_update_accumulates_failures (fun x _ => x) (fun x _ => x) (fun x _ => x)
      (fun x => x) (-1) 0 0 0 (d_cfg cfg0) 3 cfg0 rfl).1).trans (by decide),
   ((C14_sv_update_accumulates_failures (fun x _ => x) (fun x _ => x) (fun x _ => x)
      (fun x => x) (-1) 0 0 0 (d_cfg cfg0) 3 cfg0 rfl).2.2 (fun _ _ => rfl) (fun _ => rfl)
      (fun _ _ => rfl) (fun _ _ => rfl)).trans (by decide)⟩

/-! ## Creation of an instance and the sender window fields -/

/-- What `dtcp_create` returns when it succeeds. -/
theorem dtcp_create_some (k : build_config) (m : create_env) (t : Option dt)
    (c : Option connection) (rmt : Bool) (d : dtcp) (tbl : hook → Option policy_fn)
    (h : dtcp_create k m t c rmt = some (d, tbl)) :
    tbl = default_policies_table k ∧
    ∃ cfg : dtcp_config, dtcp_config_get d = some cfg ∧
      d.sv =
        { (if dtcp_rtx_ctrl (some cfg) = true then
            { default_sv with data_retransmit_max := dtcp_data_retransmit_max cfg }
          else default_sv) with
          sndr_credit := dtcp_initial_credit cfg
          snd_rt_wind_edge := dtcp_initial_credit cfg
          rcvr_credit := dtcp_initial_credit cfg
          rcvr_rt_wind_edge := dtcp_initial_credit cfg } ∧
      d.cpdus_in_transit = 0 ∧ d.trace = [] := by
  unfold dtcp_create at h
  split at h
  · simp at h
  split at h
  · simp at h
  split at h
  · simp at h
  split at h
  · simp at h
  split at h
  · simp at h
  split at h
  · simp at h
  split at h
  · simp at h
  rename_i t0 _ c0 _ _ _ _ hinit
  simp only [Option.some.injEq, Prod.mk.injEq] at h
  refine ⟨h.2.symm, ?_⟩
  rw [← h.1]
  unfold dtcp_sv_init at hinit ⊢
  simp only [dtcp_config_get] at hinit ⊢
  cases hp : c0.policies_params with
  | none => simp [hp] at hinit
  | some pp =>
    cases hc : pp.dtcp_cfg with
    | none => simp [hp, hc] at hinit
    | some cfg =>
      refine ⟨cfg, ?_⟩
      simp only [hp, hc]
      by_cases hr : dtcp_rtx_ctrl (some cfg) = true <;> simp [hr]

/-- C15 (code defect): the instance newly created over `dt0` and `conn0` (initial credit 4)
satisfies `snd_rt_wind_edge - last_snd_data_ack = sndr_credit` modulo 2^32. After the
reception of a usable FC PDU announcing the edge 9 the edge is 9 while `last_snd_data_ack`
is 0 and `sndr_credit` is 4; and after `pdu_ctrl_type_get` with the receiver left window
edge at 3, `last_snd_data_ack` is 3 while the edge and the credit are 4: the relation
fails in both states. -/
theorem C15_credit_relation_not_maintained :
    ∃ d : dtcp, ∃ tbl : hook → Option policy_fn,
      dtcp_create k0 m_ok (some dt0) (some conn0) true = some (d, tbl) ∧
      (d.sv.snd_rt_wind_edge + SEQ_MOD - d.sv.last_snd_data_ack) % SEQ_MOD = d.sv.sndr_credit ∧
      (dtcp_common_rcv_control ext0 (default_policies ext0) d
        (cpdu PDU_TYPE_FC 1)).1.sv.snd_rt_wind_edge = 9 ∧
      (dtcp_common_rcv_control ext0 (default_policies ext0) d
        (cpdu PDU_TYPE_FC 1)).1.sv.last_snd_data_ack = 0 ∧
      (dtcp_common_rcv_control ext0 (default_policies ext0) d
        (cpdu PDU_TYPE_FC 1)).1.sv.sndr_credit = 4 ∧
      ((dtcp_common_rcv_control ext0 (default_policies ext0) d
          (cpdu PDU_TYPE_FC 1)).1.sv.snd_rt_wind_edge + SEQ_MOD -
        (dtcp_common_rcv_control ext0 (default_policies ext0) d
          (cpdu PDU_TYPE_FC 1)).1.sv.last_snd_data_ack) % SEQ_MOD ≠
        (dtcp_common_rcv_control ext0 (default_policies ext0) d
          (cpdu PDU_TYPE_FC 1)).1.sv.sndr_credit ∧
      ((pdu_ctrl_type_get { d with parent := { d.parent with rcv_lft_win := 3 } }
          0).1.sv.snd_rt_wind_edge + SEQ_MOD -
        (pdu_ctrl_type_get { d with parent := { d.parent with rcv_lft_win := 3 } }
          0).1.sv.last_snd_data_ack) % SEQ_MOD ≠
        (pdu_ctrl_type_get { d with parent := { d.parent with rcv_lft_win := 3 } }
          0).1.sv.sndr_credit :=
  ⟨_, _, rfl, by decide, by decide, by decide, by decide, by decide, by decide⟩

/-- C16 (as stated, refuted): on the instance newly created over `dt0` and `conn0` the
order `snd_lft_win ≤ last_snd_data_ack ≤ snd_rt_wind_edge` holds under the
signed-difference rule; after `dtcp_snd_lf_win_set` with the sequence number 5,
`snd_lft_win` is 5 and `last_snd_data_ack` is 0, and the order fails. -/
theorem C16_snd_lf_win_set_breaks_order :
    ∃ d : dtcp, ∃ tbl : hook → Option policy_fn,
      dtcp_create k0 m_ok (some dt0) (some conn0) true = some (d, tbl) ∧
      seq_le d.sv.snd_lft_win d.sv.last_snd_data_ack ∧
      seq_le d.sv.last_snd_data_ack d.sv.snd_rt_wind_edge ∧
      (dtcp_snd_lf_win_set d 5).1.sv.snd_lft_win = 5 ∧
      (dtcp_snd_lf_win_set d 5).1.sv.last_snd_data_ack = 0 ∧
      ¬ seq_le (dtcp_snd_lf_win_set d 5).1.sv.snd_lft_win
        (dtcp_snd_lf_win_set d 5).1.sv.last_snd_data_ack :=
  ⟨_, _, rfl, by unfold seq_le; decide, by unfold seq_le; decide, by decide, by decide,
    by unfold seq_le; decide⟩

/-- C16 (amended): in the state vector of a newly created instance whose initial credit is
below 2^31, `snd_lft_win ≤ last_snd_data_ack ≤ snd_rt_wind_edge` holds under the
signed-difference rule. `dtcp_snd_lf_win_set` stores its argument in `snd_lft_win`
whatever the other fields are, changes nothing else and returns 0. -/
theorem C16_initial_window_order (k : build_config) (m : create_env) (t : Option dt)
    (c : Option connection) (rmt : Bool) (d : dtcp) (tbl : hook → Option policy_fn)
    (h : dtcp_create k m t c rmt = some (d, tbl)) (hcredit : d.sv.sndr_credit < 2 ^ 31) :
    seq_le d.sv.snd_lft_win d.sv.last_snd_data_ack ∧
    seq_le d.sv.last_snd_data_ack d.sv.snd_rt_wind_edge ∧
    (∀ (e : dtcp) (seq_num : Nat),
      dtcp_snd_lf_win_set e seq_num =
        ({ e with sv := { e.sv with snd_lft_win := seq_num } }, 0)) := by
  obtain ⟨_, cfg, _, hsv, _, _⟩ := dtcp_create_some k m t c rmt d tbl h
  have h1 : d.sv.snd_lft_win = 0 := by
    rw [hsv]; split <;> rfl
  have h2 : d.sv.last_snd_data_ack = 0 := by
    rw [hsv]; split <;> rfl
  have h3 : d.sv.snd_rt_wind_edge = d.sv.sndr_credit := by
    rw [hsv]
  refine ⟨?_, ?_, fun e s => rfl⟩
  · rw [h1, h2]
    unfold seq_le
    decide
  · rw [h2, h3]
    unfold seq_le int32_diff SEQ_MOD
    split <;> omega

/-- C16 (amended) at a concrete input: the instance newly created over `dt0` and `conn0`,
initial credit 4, has `snd_lft_win = last_snd_data_ack = 0` and `snd_rt_wind_edge = 4`. -/
theorem C16_initial_window_order_witness :
    ∃ d : dtcp, ∃ tbl : hook → Option policy_fn,
      dtcp_create k0 m_ok (some dt0) (some conn0) true = some (d, tbl) ∧
      d.sv.snd_rt_wind_edge = 4 ∧
      seq_le d.sv.snd_lft_win d.sv.last_snd_data_ack ∧
      seq_le d.sv.last_snd_data_ack d.sv.snd_rt_wind_edge :=
  ⟨_, _, rfl, by decide,
    (C16_initial_window_order k0 m_ok (some dt0) (some conn0) true _ _ rfl (by decide)).1,
    (C16_initial_window_order k0 m_ok (some dt0) (some conn0) true _ _ rfl (by decide)).2.1⟩

/-! ## Sender ACK, receiver flow control and the sending-ACK policy -/

/-- C17: `default_sender_ack` on the ACK sequence number `a`: with retransmission control on
and a retransmission queue, it makes exactly one RTXQ call, the ack of `a` (with the
queue of the spec, the entries up to `a` are removed), and returns 0; with retransmission
control on and no retransmission queue it returns -1 and makes no RTXQ call; with
retransmission control off it makes no RTXQ call and returns 0. In every case the DTCP
state vector is unchanged. -/
theorem C17_default_sender_ack (ext : collaborators) (d : dtcp) (a : Nat) :
    (∀ q : rtxq, dtcp_rtx_ctrl (dtcp_config_get d) = true → d.parent.rtxq = some q →
      default_sender_ack ext d a =
        ({ d with
            parent := ext.rtxq_ack d.parent a d.parent.tr
            trace := d.trace ++ [event.sender_ack a, event.rtxq_ack a d.parent.tr] }, 0) ∧
      (ext.rtxq_ack = spec_rtxq_ack →
        (default_sender_ack ext d a).1.parent.rtxq =
          some { entries := q.entries.filter fun s => decide (a < s) })) ∧
    (dtcp_rtx_ctrl (dtcp_config_get d) = true → d.parent.rtxq = none →
      default_sender_ack ext d a =
        ({ d with trace := d.trace ++ [event.sender_ack a] }, -1)) ∧
    (dtcp_rtx_ctrl (dtcp_config_get d) = false →
      default_sender_ack ext d a =
        ({ d with trace := d.trace ++ [event.sender_ack a] }, 0)) ∧
    (default_sender_ack ext d a).1.sv = d.sv := by
  refine ⟨?_, ?_, ?_, default_sender_ack_sv ext d a⟩
  · intro q hr hq
    have hr' : dtcp_rtx_ctrl (dtcp_config_get (record d (event.sender_ack a))) = true := hr
    have hq' : (record d (event.sender_ack a)).parent.rtxq = some q := hq
    have he : default_sender_ack ext d a =
        ({ d with
            parent := ext.rtxq_ack d.parent a d.parent.tr
            trace := d.trace ++ [event.sender_ack a, event.rtxq_ack a d.parent.tr] }, 0) := by
      unfold default_sender_ack
      simp only [hr', hq', if_true]
      simp [record]
    refine ⟨he, ?_⟩
    intro hs
    rw [he, hs]
    simp [spec_rtxq_ack, hq]
  · intro hr hq
    have hr' : dtcp_rtx_ctrl (dtcp_config_get (record d (event.sender_ack a))) = true := hr
    have hq' : (record d (event.sender_ack a)).parent.rtxq = none := hq
    unfold default_sender_ack
    simp only [hr', hq', if_true]
    simp [record]
  · intro hr
    have hr' : dtcp_rtx_ctrl (dtcp_config_get (record d (event.sender_ack a))) = false := hr
    unfold default_sender_ack
    simp only [hr']
    simp [record]

/-- C17 at a concrete input: on `d0 0`, which holds the data PDUs 1 to 4 for
retransmission, the ACK of 2 leaves 3 and 4 in the queue, makes one RTXQ call and
returns 0. -/
theorem C17_default_sender_ack_witness :
    (default_sender_ack ext0 (d0 0) 2).2 = 0 ∧
    (default_sender_ack ext0 (d0 0) 2).1.trace = [event.sender_ack 2, event.rtxq_ack 2 100] ∧
    (default_sender_ack ext0 (d0 0) 2).1.parent.rtxq = some { entries := [3, 4] } :=
  ⟨congrArg Prod.snd
      ((C17_default_sender_ack ext0 (d0 0) 2).1 { entries := [1, 2, 3, 4] } rfl rfl).1,
   (congrArg (fun r => r.1.trace)
      ((C17_default_sender_ack ext0 (d0 0) 2).1 { entries := [1, 2, 3, 4] } rfl rfl).1).trans
      (by decide),
   (((C17_default_sender_ack ext0 (d0 0) 2).1 { entries := [1, 2, 3, 4] } rfl rfl).2
      rfl).trans (by decide)⟩

/-- C18: `default_rcvr_flow_control` returns 0 and leaves `rcvr_rt_wind_edge` equal to the
receiver left window edge plus `rcvr_credit` modulo 2^32, for every `seq` and every prior
state; `rcvr_credit`, every other field of the state vector and the rest of the instance
are unchanged. -/
theorem C18_default_rcvr_flow_control (d : dtcp) (seq : Nat) :
    (default_rcvr_flow_control d seq).2 = 0 ∧
    (default_rcvr_flow_control d seq).1.sv.rcvr_rt_wind_edge =
      (d.parent.rcv_lft_win + d.sv.rcvr_credit) % SEQ_MOD ∧
    (default_rcvr_flow_control d seq).1.sv.rcvr_credit = d.sv.rcvr_credit ∧
    (default_rcvr_flow_control d seq).1 =
      { d with sv := { d.sv with
          rcvr_rt_wind_edge := (d.parent.rcv_lft_win + d.sv.rcvr_credit) % SEQ_MOD } } ∧
    (∀ seq' : Nat, default_rcvr_flow_control d seq' = default_rcvr_flow_control d seq) :=
  ⟨rfl, rfl, rfl, rfl, fun _ => rfl⟩

/-- C19 (as stated, refuted): `dtcp_create` succeeds on `dt0` and `conn0`, and in the policy
table of the new instance the members `flow_init` and `rtt_estimator` are `NULL`. -/
theorem C19_created_policy_table_has_null_members :
    ∃ d : dtcp, ∃ tbl : hook → Option policy_fn,
      dtcp_create k0 m_ok (some dt0) (some conn0) true = some (d, tbl) ∧
      tbl hook.flow_init = none ∧ tbl hook.rtt_estimator = none :=
  ⟨_, _, rfl, rfl, rfl⟩

/-- C19 (amended): after `dtcp_create` succeeds the policy table of the instance is
`default_policies`: the members `sv_update`, `lost_control_pdu`, `sender_ack`,
`sending_ack`, `receiving_flow_control`, `flow_control_overrun`, `rcvr_flow_control` and
`rate_reduction` hold their default functions, `rcvr_ack` holds one when one of the two
build options is set, and the remaining members are `NULL`. -/
theorem C19_created_policy_table (k : build_config) (m : create_env) (t : Option dt)
    (c : Option connection) (rmt : Bool) (d : dtcp) (tbl : hook → Option policy_fn)
    (h : dtcp_create k m t c rmt = some (d, tbl)) :
    tbl = default_policies_table k ∧
    tbl hook.sv_update = some policy_fn.default_sv_update ∧
    tbl hook.lost_control_pdu = some policy_fn.default_lost_control_pdu ∧
    tbl hook.sender_ack = some policy_fn.default_sender_ack ∧
    tbl hook.sending_ack = some policy_fn.default_sending_ack ∧
    tbl hook.receiving_flow_control = some policy_fn.default_receiving_flow_control ∧
    tbl hook.flow_control_overrun = some policy_fn.default_flow_control_overrun ∧
    tbl hook.rcvr_flow_control = some policy_fn.default_rcvr_flow_control ∧
    tbl hook.rate_reduction = some policy_fn.default_rate_reduction ∧
    ((k.CONFIG_RINA_DTCP_RCVR_ACK = true ∨ k.CONFIG_RINA_DTCP_RCVR_ACK_ATIMER = true) →
      tbl hook.rcvr_ack ≠ none) ∧
    (∀ x : hook,
      x = hook.flow_init ∨ x = hook.rtt_estimator ∨ x = hook.retransmission_timer_expiry ∨
        x = hook.received_retransmission ∨ x = hook.receiving_ack_list ∨
        x = hook.initial_rate ∨ x = hook.update_credit ∨ x = hook.reconcile_flow_conflict ∨
        x = hook.rcvr_control_ack ∨ x = hook.no_rate_slow_down ∨
        x = hook.no_override_default_peak →
      tbl x = none) := by
  have ht := (dtcp_create_some k m t c rmt d tbl h).1
  subst ht
  refine ⟨rfl, rfl, rfl, rfl, rfl, rfl, rfl, rfl, rfl, ?_, ?_⟩
  · intro hk
    unfold default_policies_table
    rcases hk with hk | hk
    · by_cases ha : k.CONFIG_RINA_DTCP_RCVR_ACK_ATIMER = true <;> simp [hk, ha]
    · simp [hk]
  · intro x hx
    rcases hx with hx | hx | hx | hx | hx | hx | hx | hx | hx | hx | hx <;> subst hx <;> rfl

/-- C19 (amended) at a concrete input: the table of the instance created over `dt0` and
`conn0` holds `default_sv_update` in `sv_update`. -/
theorem C19_created_policy_table_witness :
    ∃ d : dtcp, ∃ tbl : hook → Option policy_fn,
      dtcp_create k0 m_ok (some dt0) (some conn0) true = some (d, tbl) ∧
      tbl hook.sv_update = some policy_fn.default_sv_update ∧
      tbl hook.no_rate_slow_down = none :=
  ⟨_, _, rfl,
    (C19_created_policy_table k0 m_ok (some dt0) (some conn0) true _ _ rfl).2.1,
    (C19_created_policy_table k0 m_ok (some dt0) (some conn0) true _ _ rfl).2.2.2.2.2.2.2.2.2.2
      hook.no_rate_slow_down (by decide)⟩

/-- C20 (as stated, refuted): when the A-timer expiry step returns the 32-bit sequence
number 2^31, `default_sending_ack` returns -1 and makes no call through the policy table,
although `sv_update` is present and would return 0. -/
theorem C20_high_sequence_number_skips_sv_update :
    (default_sending_ack (pA0 2147483648)
      (some (default_sv_update (stub_policies 0 0 0 0))) (d0 0)).2 = -1 ∧
    policy_runs (default_sending_ack (pA0 2147483648)
      (some (default_sv_update (stub_policies 0 0 0 0))) (d0 0)).1 = [] ∧
    (default_sv_update (stub_policies 0 0 0 0) (d0 0) 2147483648).2 = 0 := by
  decide

/-- C20 (amended): on an instance whose DT parent has a DTP and whose `sv_update` member is
present, for every 32-bit sequence number `n` below 2^31 returned by the A-timer expiry
step, `default_sending_ack` calls `sv_update` once, on `n` and on the instance the step
left, and returns its result; for `n` from 2^31 on it returns -1 without the call. -/
theorem C20_default_sending_ack (pA : dt → dt × Nat) (f : dtcp → Nat → dtcp × Int)
    (d : dtcp) (x : dtp) (hdtp : d.parent.dtp = some x) (hn : (pA d.parent).2 < SEQ_MOD) :
    ((pA d.parent).2 < 2 ^ 31 →
      default_sending_ack pA (some f) d =
        f { d with
            parent := (pA d.parent).1
            trace := d.trace ++ [event.policy hook.sv_update] } (pA d.parent).2) ∧
    (2 ^ 31 ≤ (pA d.parent).2 →
      default_sending_ack pA (some f) d = ({ d with parent := (pA d.parent).1 }, -1)) := by
  have hmod : (pA d.parent).2 % SEQ_MOD = (pA d.parent).2 := Nat.mod_eq_of_lt hn
  constructor
  · intro hlt
    have hpos : ¬ to_int (pA d.parent).2 < 0 := by
      unfold to_int
      rw [hmod, if_pos hlt]
      omega
    unfold default_sending_ack
    simp only [hdtp, hpos, if_false, invoke, record]
  · intro hge
    have hneg : to_int (pA d.parent).2 < 0 := by
      unfold to_int
      rw [hmod, if_neg (by omega)]
      unfold SEQ_MOD at hn
      omega
    unfold default_sending_ack
    simp only [hdtp, hneg, if_true]

/-- C20 (amended) at a concrete input: the A-timer expiry step returns 7 and `sv_update`
runs once, on 7, and its result 0 is returned. -/
theorem C20_default_sending_ack_witness :
    (default_sending_ack (pA0 7) (some (default_sv_update (stub_policies 0 0 0 0)))
      (d0 0)).2 = 0 ∧
    policy_runs (default_sending_ack (pA0 7)
      (some (default_sv_update (stub_policies 0 0 0 0))) (d0 0)).1 =
      [hook.sv_update, hook.rcvr_flow_control, hook.rcvr_ack] :=
  ⟨(congrArg Prod.snd
      ((C20_default_sending_ack (pA0 7) (default_sv_update (stub_policies 0 0 0 0)) (d0 0)
        { max_seq_nr_sent := 4 } rfl (by decide)).1 (by decide))).trans (by decide),
   (congrArg (fun r => policy_runs r.1)
      ((C20_default_sending_ack (pA0 7) (default_sv_update (stub_policies 0 0 0 0)) (d0 0)
        { max_seq_nr_sent := 4 } rfl (by decide)).1 (by decide))).trans (by decide)⟩

/-! ## Error returns of the receive and send paths -/

/-- C27 (as stated, refuted): on `d0 5` a fresh NACK+FC PDU with sequence number 6 is
answered with -1 and `last_rcv_ctl_seq` has become 6; on the same instance without a
retransmission queue a fresh ACK PDU makes the `sender_ack` policy fail, -1 is returned and
`last_rcv_ctl_seq` has become 6 as well. -/
theorem C27_error_return_after_sequence_update :
    (d0 5).sv.last_rcv_ctl_seq = 5 ∧
    (dtcp_common_rcv_control ext0 (default_policies ext0) (d0 5)
      (cpdu PDU_TYPE_NACK_AND_FC 6)).2 = -1 ∧
    (dtcp_common_rcv_control ext0 (default_policies ext0) (d0 5)
      (cpdu PDU_TYPE_NACK_AND_FC 6)).1.sv.last_rcv_ctl_seq = 6 ∧
    (dtcp_common_rcv_control ext0 (default_policies ext0)
      { d0 5 with parent := { dt0 with rtxq := none } } (cpdu PDU_TYPE_ACK 6)).2 = -1 ∧
    (dtcp_common_rcv_control ext0 (default_policies ext0)
      { d0 5 with parent := { dt0 with rtxq := none } }
      (cpdu PDU_TYPE_ACK 6)).1.sv.last_rcv_ctl_seq = 6 := by
  decide

/-- C27 (amended): when `dtcp_common_rcv_control` returns -1 on a PDU that is unusable, has
a bad PCI or is not a control PDU, the state vector is unchanged; when it returns -1 on a
usable control PDU, the PDU is not a duplicate and the error comes from the dispatch on its
type: `last_rcv_ctl_seq` is already the sequence number of the PDU, an FC PDU has also set
`snd_rt_wind_edge`, and no other field of the state vector has changed. -/
theorem C27_state_vector_on_error (ext : collaborators) (d : dtcp) (p : pdu)
    (herr : (dtcp_common_rcv_control ext (default_policies ext) d p).2 = -1) :
    ((p.ok = false ∨ p.pci.ok = false ∨ pdu_type_is_control p.pci.type = false) →
      (dtcp_common_rcv_control ext (default_policies ext) d p).1.sv = d.sv) ∧
    (p.ok = true → p.pci.ok = true → pdu_type_is_control p.pci.type = true →
      d.sv.last_rcv_ctl_seq < p.pci.sequence_number ∧
      p.pci.type ≠ PDU_TYPE_ACK_AND_FC ∧
      (dtcp_common_rcv_control ext (default_policies ext) d p).1.sv =
        { d.sv with
          last_rcv_ctl_seq := p.pci.sequence_number
          snd_rt_wind_edge :=
            if p.pci.type = PDU_TYPE_FC then p.pci.new_rt_wind_edge
            else d.sv.snd_rt_wind_edge }) := by
  constructor
  · intro h
    by_cases hok : p.ok = true
    swap
    · simp [dtcp_common_rcv_control, hok, pdu_destroy, record]
    by_cases hpci : p.pci.ok = true
    swap
    · simp [dtcp_common_rcv_control, hok, hpci, pdu_destroy, record, atomic_inc, atomic_dec]
    by_cases hctl : pdu_type_is_control p.pci.type = true
    swap
    · simp [dtcp_common_rcv_control, hok, hpci, hctl, pdu_destroy, record, atomic_inc,
        atomic_dec]
    simp [hok, hpci, hctl] at h
  · intro hok hpci hctl
    have hnew : d.sv.last_rcv_ctl_seq < p.pci.sequence_number := by
      by_contra hn
      have hdup : p.pci.sequence_number ≤ d.sv.last_rcv_ctl_seq := Nat.le_of_not_lt hn
      rw [rcv_control_duplicate_result ext d p hok hpci hctl hdup] at herr
      simp at herr
    have hne : p.pci.type ≠ PDU_TYPE_ACK_AND_FC := by
      intro hty
      rw [rcv_control_fresh ext _ d p hok hpci hctl hnew] at herr
      simp [hty, rcv_ack_and_flow_ctl] at herr
    refine ⟨hnew, hne, ?_⟩
    rw [rcv_control_fresh_sv ext d p hok hpci hctl hnew]
    simp [hne]

/-- C27 (amended) at a concrete input: the fresh NACK+FC PDU with sequence number 6 on
`d0 5` changes `last_rcv_ctl_seq` and nothing else in the state vector. -/
theorem C27_state_vector_on_error_witness :
    (dtcp_common_rcv_control ext0 (default_policies ext0) (d0 5)
      (cpdu PDU_TYPE_NACK_AND_FC 6)).1.sv = { sv0 5 with last_rcv_ctl_seq := 6 } :=
  ((C27_state_vector_on_error ext0 (d0 5) (cpdu PDU_TYPE_NACK_AND_FC 6) (by decide)).2
    rfl rfl rfl).2.2.trans (by decide)

/-- The instance that `pdu_ctrl_create_ni` leaves: only the control sequence counter and
the trace can differ. -/
theorem pdu_ctrl_create_ni_frame (lib : pdu_lib) (d : dtcp) (type : pdu_type_t) :
    (pdu_ctrl_create_ni lib d type).1.sv.last_snd_data_ack = d.sv.last_snd_data_ack ∧
    (pdu_ctrl_create_ni lib d type).1.parent = d.parent ∧
    (pdu_ctrl_create_ni lib d type).1.conn = d.conn ∧
    (pdu_ctrl_create_ni lib d type).1.cpdus_in_transit = d.cpdus_in_transit := by
  unfold pdu_ctrl_create_ni
  simp only [next_snd_ctl_seq, pdu_destroy, record]
  split
  · simp
  split
  · simp
  split
  · simp
  split
  · simp
  split
  · simp
  split
  · simp
  split
  · simp
  split <;> simp

/-- The instance that `pdu_ctrl_generate` leaves: only the control sequence counter and the
trace can differ. -/
theorem pdu_ctrl_generate_frame (lib : pdu_lib) (d : dtcp) (type : pdu_type_t) :
    (pdu_ctrl_generate lib d type).1.sv.last_snd_data_ack = d.sv.last_snd_data_ack ∧
    (pdu_ctrl_generate lib d type).1.parent = d.parent ∧
    (pdu_ctrl_generate lib d type).1.conn = d.conn ∧
    (pdu_ctrl_generate lib d type).1.cpdus_in_transit = d.cpdus_in_transit := by
  have hc := pdu_ctrl_create_ni_frame lib d type
  unfold pdu_ctrl_generate
  split
  · simp
  split
  · rename_i d2 heq
    rw [heq] at hc
    exact hc
  · rename_i d2 p2 heq
    rw [heq] at hc
    split
    · simpa [pdu_destroy, record] using hc
    · exact hc

/-- The instance that `pdu_send` leaves: the call of the RMT is recorded. -/
theorem pdu_send_fst (rmt_send : Nat → Nat → pdu → Int) (d : dtcp) (p : pdu) :
    (pdu_send rmt_send d p).1 =
      record d (event.rmt_send d.conn.destination_address d.conn.qos_id) := by
  unfold pdu_send
  split <;> rfl

/-- A call of `dtcp_ack_flow_control_pdu_send` when there is nothing new to acknowledge:
nothing is generated or sent, the instance is left as it was and 0 is returned. -/
theorem dtcp_ack_flow_control_pdu_send_suppressed (lib : pdu_lib)
    (rmt_send : Nat → Nat → pdu → Int) (d : dtcp) (seq : Nat)
    (h : ¬ d.sv.last_snd_data_ack < d.parent.rcv_lft_win) :
    dtcp_ack_flow_control_pdu_send lib rmt_send d seq = (d, 0) := by
  have ht : pdu_ctrl_type_get (atomic_inc d) seq = (atomic_inc d, ZERO) := by
    unfold pdu_ctrl_type_get
    simp [last_snd_data_ack, atomic_inc, h]
  unfold dtcp_ack_flow_control_pdu_send
  simp only [ht]
  simp [atomic_inc, atomic_dec]

/-- The outcome of `dtcp_ack_flow_control_pdu_send` when there is something new to
acknowledge: `last_snd_data_ack` is the receiver left window edge whatever is returned, and
the count of control PDUs in transit is back at its value before the call. -/
theorem dtcp_ack_flow_control_pdu_send_selected (lib : pdu_lib)
    (rmt_send : Nat → Nat → pdu → Int) (d : dtcp) (seq : Nat)
    (h : d.sv.last_snd_data_ack < d.parent.rcv_lft_win) :
    (dtcp_ack_flow_control_pdu_send lib rmt_send d seq).1.sv.last_snd_data_ack =
      d.parent.rcv_lft_win ∧
    (dtcp_ack_flow_control_pdu_send lib rmt_send d seq).1.parent = d.parent ∧
    (dtcp_ack_flow_control_pdu_send lib rmt_send d seq).1.cpdus_in_transit =
      d.cpdus_in_transit := by
  have ht : pdu_ctrl_type_get (atomic_inc d) seq =
      (last_snd_data_ack_set (atomic_inc d) d.parent.rcv_lft_win,
        if dtcp_flow_ctrl (dtcp_config_get d) = true then PDU_TYPE_ACK_AND_FC
        else PDU_TYPE_ACK) := by
    unfold pdu_ctrl_type_get
    simp only [last_snd_data_ack, atomic_inc, h, if_true, dtcp_config_get]
    by_cases hf : dtcp_flow_ctrl
        (match d.conn.policies_params with
          | none => none
          | some pp => pp.dtcp_cfg) = true <;> simp [hf, last_snd_data_ack_set]
  have hg := fun t => pdu_ctrl_generate_frame lib
    (last_snd_data_ack_set (atomic_inc d) d.parent.rcv_lft_win) t
  unfold dtcp_ack_flow_control_pdu_send
  by_cases hf : dtcp_flow_ctrl (dtcp_config_get d) = true
  · rw [if_pos hf] at ht
    simp only [ht]
    obtain ⟨h1, h2, _, h4⟩ := hg PDU_TYPE_ACK_AND_FC
    cases hgen : pdu_ctrl_generate lib
        (last_snd_data_ack_set (atomic_inc d) d.parent.rcv_lft_win) PDU_TYPE_ACK_AND_FC with
    | mk d2 o =>
      rw [hgen] at h1 h2 h4
      simp only [last_snd_data_ack_set, atomic_inc] at h1 h2 h4
      cases o with
      | none => simp [atomic_dec, h1, h2, h4]
      | some p =>
        simp only []
        split <;> simp [atomic_dec, pdu_send_fst, record, h1, h2, h4]
  · rw [if_neg hf] at ht
    simp only [ht]
    obtain ⟨h1, h2, _, h4⟩ := hg PDU_TYPE_ACK
    cases hgen : pdu_ctrl_generate lib
        (last_snd_data_ack_set (atomic_inc d) d.parent.rcv_lft_win) PDU_TYPE_ACK with
    | mk d2 o =>
      rw [hgen] at h1 h2 h4
      simp only [last_snd_data_ack_set, atomic_inc] at h1 h2 h4
      cases o with
      | none => simp [atomic_dec, h1, h2, h4]
      | some p =>
        simp only []
        split <;> simp [atomic_dec, pdu_send_fst, record, h1, h2, h4]

/-- C28 (as stated, refuted): on `d_lwe3` (receiver left window edge 3, `last_snd_data_ack`
0) a call of `dtcp_ack_flow_control_pdu_send` whose PDU the RMT refuses returns -1 and
leaves `last_snd_data_ack` at 3; so does a call whose PDU generation fails. The next call
with the same left window edge and an RMT that takes every PDU selects no type: it returns
0 and hands nothing to the RMT. -/
theorem C28_failed_send_advances_last_snd_data_ack :
    d_lwe3.sv.last_snd_data_ack = 0 ∧
    (dtcp_ack_flow_control_pdu_send lib_ok rmt_fail d_lwe3 3).2 = -1 ∧
    (dtcp_ack_flow_control_pdu_send lib_ok rmt_fail d_lwe3 3).1.sv.last_snd_data_ack = 3 ∧
    (dtcp_ack_flow_control_pdu_send { lib_ok with pdu_buffer_set := false } rmt_ok
      d_lwe3 3).2 = -1 ∧
    (dtcp_ack_flow_control_pdu_send { lib_ok with pdu_buffer_set := false } rmt_ok
      d_lwe3 3).1.sv.last_snd_data_ack = 3 ∧
    (pdu_ctrl_type_get (dtcp_ack_flow_control_pdu_send lib_ok rmt_fail d_lwe3 3).1 3).2 =
      ZERO ∧
    dtcp_ack_flow_control_pdu_send lib_ok rmt_ok
        (dtcp_ack_flow_control_pdu_send lib_ok rmt_fail d_lwe3 3).1 3 =
      ((dtcp_ack_flow_control_pdu_send lib_ok rmt_fail d_lwe3 3).1, 0) := by
  decide

/-- C28 (amended): when `dtcp_ack_flow_control_pdu_send` returns -1, a type had been
selected, so `last_snd_data_ack` was below the receiver left window edge before the call,
and it equals that edge after the call: the failure does not restore it. The count of
control PDUs in transit is back at its value before the call. A later call with the same
receiver left window edge generates and sends nothing, leaves the instance as it is and
returns 0. -/
theorem C28_last_snd_data_ack_after_failure (lib : pdu_lib)
    (rmt_send : Nat → Nat → pdu → Int) (d : dtcp) (seq : Nat)
    (herr : (dtcp_ack_flow_control_pdu_send lib rmt_send d seq).2 = -1) :
    d.sv.last_snd_data_ack < d.parent.rcv_lft_win ∧
    (dtcp_ack_flow_control_pdu_send lib rmt_send d seq).1.sv.last_snd_data_ack =
      d.parent.rcv_lft_win ∧
    (dtcp_ack_flow_control_pdu_send lib rmt_send d seq).1.parent = d.parent ∧
    (∀ (lib2 : pdu_lib) (rmt_send2 : Nat → Nat → pdu → Int) (seq2 : Nat),
      dtcp_ack_flow_control_pdu_send lib2 rmt_send2
          (dtcp_ack_flow_control_pdu_send lib rmt_send d seq).1 seq2 =
        ((dtcp_ack_flow_control_pdu_send lib rmt_send d seq).1, 0)) ∧
    (dtcp_ack_flow_control_pdu_send lib rmt_send d seq).1.cpdus_in_transit =
      d.cpdus_in_transit := by
  have hlt : d.sv.last_snd_data_ack < d.parent.rcv_lft_win := by
    by_contra hn
    rw [dtcp_ack_flow_control_pdu_send_suppressed lib rmt_send d seq hn] at herr
    simp at herr
  obtain ⟨h1, h2, h3⟩ := dtcp_ack_flow_control_pdu_send_selected lib rmt_send d seq hlt
  refine ⟨hlt, h1, h2, ?_, h3⟩
  intro lib2 rmt_send2 seq2
  apply dtcp_ack_flow_control_pdu_send_suppressed
  rw [h1, h2]
  exact Nat.lt_irrefl _

/-- C28 (amended) at a concrete input: the refused send on `d_lwe3` leaves
`last_snd_data_ack` at the receiver left window edge 3. -/
theorem C28_last_snd_data_ack_after_failure_witness :
    (dtcp_ack_flow_control_pdu_send lib_ok rmt_fail d_lwe3 3).1.sv.last_snd_data_ack = 3 :=
  (C28_last_snd_data_ack_after_failure lib_ok rmt_fail d_lwe3 3 (by decide)).2.1

end Dtcp

namespace XenMpi

/-! ## The credit added by `tx_add_credit` -/

/-- C26: for all `unsigned long` values of the remaining credit, the credit chunk and the
request size, `tx_add_credit` leaves `remaining_credit = min S B`, where `S` is the sum of
the remaining credit and the chunk if it does not overflow and `ULONG_MAX` otherwise, and
`B = max (min size 131072) credit_bytes`; the new value is at least
`min (old remaining_credit) B`, it is an `unsigned long`, and the other fields are
unchanged. -/
theorem C26_tx_add_credit_no_wrap (bits : Nat) (vif : vmpi_impl_info)
    (hr : vif.remaining_credit ≤ ULONG_MAX bits) (hc : vif.credit_bytes ≤ ULONG_MAX bits) :
    (tx_add_credit bits vif).remaining_credit =
      min (if vif.remaining_credit + vif.credit_bytes ≤ ULONG_MAX bits then
            vif.remaining_credit + vif.credit_bytes else ULONG_MAX bits)
        (max (min vif.tx_req_size 131072) vif.credit_bytes) ∧
    min vif.remaining_credit (max (min vif.tx_req_size 131072) vif.credit_bytes) ≤
      (tx_add_credit bits vif).remaining_credit ∧
    (tx_add_credit bits vif).remaining_credit ≤ ULONG_MAX bits ∧
    (tx_add_credit bits vif).credit_bytes = vif.credit_bytes ∧
    (tx_add_credit bits vif).tx_req_size = vif.tx_req_size := by
  have hpos : 0 < 2 ^ bits := Nat.pos_pow_of_pos bits (by decide)
  unfold ULONG_MAX at hr hc ⊢
  have key : (if (vif.remaining_credit + vif.credit_bytes) % 2 ^ bits < vif.remaining_credit
        then 2 ^ bits - 1 else (vif.remaining_credit + vif.credit_bytes) % 2 ^ bits) =
      (if vif.remaining_credit + vif.credit_bytes ≤ 2 ^ bits - 1 then
        vif.remaining_credit + vif.credit_bytes else 2 ^ bits - 1) := by
    by_cases h : vif.remaining_credit + vif.credit_bytes ≤ 2 ^ bits - 1
    · have hlt : vif.remaining_credit + vif.credit_bytes < 2 ^ bits := by omega
      rw [Nat.mod_eq_of_lt hlt, if_pos h, if_neg (by omega)]
    · have hge : 2 ^ bits ≤ vif.remaining_credit + vif.credit_bytes := by omega
      have hm : (vif.remaining_credit + vif.credit_bytes) % 2 ^ bits =
          vif.remaining_credit + vif.credit_bytes - 2 ^ bits := by
        rw [Nat.mod_eq_sub_mod hge, Nat.mod_eq_of_lt (by omega)]
      rw [hm, if_neg h, if_pos (by omega)]
  have heq : (tx_add_credit bits vif).remaining_credit =
      min (if vif.remaining_credit + vif.credit_bytes ≤ 2 ^ bits - 1 then
            vif.remaining_credit + vif.credit_bytes else 2 ^ bits - 1)
        (max (min vif.tx_req_size 131072) vif.credit_bytes) := by
    unfold tx_add_credit ULONG_MAX
    simp only []
    rw [key]
  refine ⟨heq, ?_, ?_, rfl, rfl⟩
  · rw [heq]
    apply le_min
    · split
      · exact le_trans (min_le_left _ _) (Nat.le_add_right _ _)
      · exact le_trans (min_le_left _ _) hr
    · exact min_le_right _ _
  · rw [heq]
    apply le_trans (min_le_left _ _)
    split
    · assumption
    · exact le_refl _

/-- C26 at a concrete input: on a 64-bit machine, adding a chunk of 100 bytes to a remaining
credit 9 below `ULONG_MAX` overflows; the sum is clamped and the new credit is the burst, 100.
-/
theorem C26_tx_add_credit_no_wrap_witness :
    vif_near_max.remaining_credit ≤ ULONG_MAX 64 ∧
    vif_near_max.credit_bytes ≤ ULONG_MAX 64 ∧
    (tx_add_credit 64 vif_near_max).remaining_credit = 100 ∧
    min vif_near_max.remaining_credit
        (max (min vif_near_max.tx_req_size 131072) vif_near_max.credit_bytes) ≤
      (tx_add_credit 64 vif_near_max).remaining_credit :=
  ⟨by decide, by decide, by decide,
    (C26_tx_add_credit_no_wrap 64 vif_near_max (by decide) (by decide)).2.1⟩

end XenMpi

namespace Enrollment

open state_t reason_t

/-! ## The enrollee state machine -/

theorem abort_state (m : EnrolleeStateMachine) (r : reason_t) (e s : Bool) :
    (m.abort r e s).state_ = STATE_NULL := rfl

theorem initiateEnrollment_state (env : enrollee_env) (m : EnrolleeStateMachine) (a : Nat)
    (p : Int) :
    (m.initiateEnrollment env a p).1.state_ =
      if m.state_ ≠ STATE_NULL then m.state_
      else if env.openApplicationConnection_throws then STATE_NULL
      else STATE_WAIT_CONNECT_RESPONSE := by
  unfold EnrolleeStateMachine.initiateEnrollment
  by_cases h : m.state_ = STATE_NULL
  · by_cases ht : env.openApplicationConnection_throws = true
    · simp [h, ht, EnrolleeStateMachine.abort, EnrolleeStateMachine.onBase, abortEnrollment]
    · simp [h, ht]
  · simp [h]

theorem connectResponse_state (env : enrollee_env) (m : EnrolleeStateMachine) (r : Int) :
    (m.connectResponse env r).state_ =
      if m.state_ ≠ STATE_WAIT_CONNECT_RESPONSE then STATE_NULL
      else if r ≠ 0 then STATE_NULL
      else if env.remoteStartObject_throws then STATE_WAIT_CONNECT_RESPONSE
      else STATE_WAIT_START_ENROLLMENT_RESPONSE := by
  unfold EnrolleeStateMachine.connectResponse
  by_cases h : m.state_ = STATE_WAIT_CONNECT_RESPONSE
  · by_cases hr : r = 0
    · by_cases ht : env.remoteStartObject_throws = true
      · by_cases ha : env.address = 0 <;>
          simp [h, hr, ht, ha, EnrolleeStateMachine.onBase, log, cancelTask]
      · simp [h, hr, ht]
    · simp [h, hr, EnrolleeStateMachine.onBase, log, cancelTask]
  · simp [h, abort_state]

theorem startResponse_state (m : EnrolleeStateMachine) (v : Bool) (r : Int)
    (o : Option EnrollmentInformationRequest) :
    (m.startResponse v r o).state_ =
      if v = false then m.state_
      else if m.state_ ≠ STATE_WAIT_START_ENROLLMENT_RESPONSE then STATE_NULL
      else if r ≠ 0 then STATE_NULL
      else STATE_WAIT_STOP_ENROLLMENT_RESPONSE := by
  unfold EnrolleeStateMachine.startResponse
  cases v
  · simp
  · by_cases h : m.state_ = STATE_WAIT_START_ENROLLMENT_RESPONSE
    · by_cases hr : r = 0
      · simp [h, hr]
      · simp [h, hr, EnrolleeStateMachine.onBase, log, cancelTask]
    · simp [h, abort_state]

theorem onBase_log_state (m : EnrolleeStateMachine) (f : BaseEnrollmentStateMachine → action) :
    (m.onBase (fun b => log b (f b))).state_ = m.state_ := rfl

theorem onBase_log_flag (m : EnrolleeStateMachine) (f : BaseEnrollmentStateMachine → action) :
    (m.onBase (fun b => log b (f b))).allowed_to_start_early_ = m.allowed_to_start_early_ := rfl

theorem onBase_log_task (m : EnrolleeStateMachine) (f : BaseEnrollmentStateMachine → action) :
    (m.onBase (fun b => log b (f b))).last_scheduled_task_ = m.last_scheduled_task_ := rfl

theorem onBase_log_trace (m : EnrolleeStateMachine) (f : BaseEnrollmentStateMachine → action) :
    (m.onBase (fun b => log b (f b))).trace = m.trace ++ [f m.toBaseEnrollmentStateMachine] := rfl

theorem onBase_cancel_state (m : EnrolleeStateMachine) :
    (m.onBase cancelTask).state_ = m.state_ := rfl

theorem sendNextObjectRequired_state (env : enrollee_env) (m : EnrolleeStateMachine) :
    (m.sendNextObjectRequired env).1.state_ = m.state_ := by
  unfold EnrolleeStateMachine.sendNextObjectRequired
  split_ifs <;> rfl

theorem sendNextObjectRequired_flag (env : enrollee_env) (m : EnrolleeStateMachine) :
    (m.sendNextObjectRequired env).1.allowed_to_start_early_ = m.allowed_to_start_early_ := by
  unfold EnrolleeStateMachine.sendNextObjectRequired
  split_ifs <;> rfl

theorem sendNextObjectRequired_invoke (env : enrollee_env) (m : EnrolleeStateMachine) :
    (m.sendNextObjectRequired env).1.stop_request_invoke_id_ = m.stop_request_invoke_id_ := by
  unfold EnrolleeStateMachine.sendNextObjectRequired
  split_ifs <;> rfl

theorem sendNextObjectRequired_snd (env : enrollee_env) (m m1 : EnrolleeStateMachine) :
    (m.sendNextObjectRequired env).2 = (m1.sendNextObjectRequired env).2 := by
  unfold EnrolleeStateMachine.sendNextObjectRequired
  split_ifs <;> rfl

theorem commitEnrollment_state (m : EnrolleeStateMachine) :
    m.commitEnrollment.state_ = m.state_ := rfl

theorem enrollmentCompleted_state (env : enrollee_env) (m : EnrolleeStateMachine) :
    (m.enrollmentCompleted env).1.state_ = STATE_ENROLLED := by
  unfold EnrolleeStateMachine.enrollmentCompleted
  simp only []
  split_ifs <;> rfl

theorem enrollmentCompleted_task (env : enrollee_env) (m : EnrolleeStateMachine) :
    (m.enrollmentCompleted env).1.last_scheduled_task_ = none := by
  unfold EnrolleeStateMachine.enrollmentCompleted
  simp only []
  split_ifs <;> rfl

theorem enrollmentCompleted_snd (env : enrollee_env) (m : EnrolleeStateMachine) :
    (m.enrollmentCompleted env).2 = env.enrollmentCompleted_throws := by
  unfold EnrolleeStateMachine.enrollmentCompleted
  simp only []
  split_ifs with h <;> simp [h]

theorem catch_state (env : enrollee_env) (m : EnrolleeStateMachine) :
    (m.requestMoreInformationOrStart_catch env).1.state_ =
      if env.remoteStopObjectResponse_throws (-1) then m.state_ else STATE_NULL := by
  unfold EnrolleeStateMachine.requestMoreInformationOrStart_catch
  simp only []
  split_ifs <;> rfl

theorem catch_snd (env : enrollee_env) (m : EnrolleeStateMachine) :
    (m.requestMoreInformationOrStart_catch env).2 = env.remoteStopObjectResponse_throws (-1) := by
  unfold EnrolleeStateMachine.requestMoreInformationOrStart_catch
  simp only []
  split_ifs with h <;> simp [h]

theorem requestMoreInformationOrStart_state (env : enrollee_env) (m : EnrolleeStateMachine) :
    (m.requestMoreInformationOrStart env).1.state_ =
      if (m.sendNextObjectRequired env).2 then STATE_WAIT_READ_RESPONSE
      else if m.allowed_to_start_early_ then
        if env.remoteStopObjectResponse_throws 0 then
          if env.remoteStopObjectResponse_throws (-1) then m.state_ else STATE_NULL
        else if env.enrollmentCompleted_throws then
          if env.remoteStopObjectResponse_throws (-1) then STATE_ENROLLED else STATE_NULL
        else STATE_ENROLLED
      else STATE_WAIT_START := by
  unfold EnrolleeStateMachine.requestMoreInformationOrStart
  simp only [enrollmentCompleted_snd, sendNextObjectRequired_flag, onBase_log_flag]
  rw [sendNextObjectRequired_snd env _ m]
  split_ifs <;>
    simp [catch_state, enrollmentCompleted_state, commitEnrollment_state, onBase_log_state,
      sendNextObjectRequired_state, *]

theorem requestMoreInformationOrStart_next (env : enrollee_env) (m : EnrolleeStateMachine) :
    (m.requestMoreInformationOrStart env).1.state_ = m.state_ ∨
    (m.requestMoreInformationOrStart env).1.state_ = STATE_NULL ∨
    (m.requestMoreInformationOrStart env).1.state_ = STATE_WAIT_READ_RESPONSE ∨
    (m.requestMoreInformationOrStart env).1.state_ = STATE_WAIT_START ∨
    (m.requestMoreInformationOrStart env).1.state_ = STATE_ENROLLED := by
  rw [requestMoreInformationOrStart_state]
  split_ifs <;> simp

/-- The machine on which `stop` calls `requestMoreInformationOrStart`. -/
theorem stop_some (env : enrollee_env) (m : EnrolleeStateMachine)
    (e : EnrollmentInformationRequest) (i : Int)
    (hs : m.state_ = STATE_WAIT_STOP_ENROLLMENT_RESPONSE)
    (he : e.allowed_to_start_early_ = true) :
    ∃ m2 : EnrolleeStateMachine,
      m2.state_ = STATE_WAIT_STOP_ENROLLMENT_RESPONSE ∧ m2.allowed_to_start_early_ = true ∧
      m2.trace.all early_entry = m.trace.all early_entry ∧
      m.stop env true (some e) i =
        some (if (m2.requestMoreInformationOrStart env).2 then
          (m2.requestMoreInformationOrStart env).1.abort exception_what true true
          else (m2.requestMoreInformationOrStart env).1) := by
  by_cases ha : env.assigned_to_dif = true
  · refine ⟨({ m.onBase cancelTask with
        allowed_to_start_early_ := e.allowed_to_start_early_
        stop_request_invoke_id_ := i }).onBase (fun b => log b action.sendDFTEntries),
      hs, he, ?_, ?_⟩
    · rw [onBase_log_trace, List.all_append]
      simp [early_entry]
      rfl
    · unfold EnrolleeStateMachine.stop
      simp only [hs, he, ha]
      split_ifs <;> simp_all
  · refine ⟨{ m.onBase cancelTask with
        allowed_to_start_early_ := e.allowed_to_start_early_
        stop_request_invoke_id_ := i }, hs, he, rfl, ?_⟩
    unfold EnrolleeStateMachine.stop
    simp only [hs, he, ha]
    split_ifs <;> simp_all

theorem stop_other (env : enrollee_env) (m : EnrolleeStateMachine) (v : Bool)
    (e : Option EnrollmentInformationRequest) (i : Int) :
    (v = false → m.stop env v e i = some m) ∧
    (v = true → m.state_ ≠ STATE_WAIT_STOP_ENROLLMENT_RESPONSE →
      m.stop env v e i = some (m.abort STOP_IN_BAD_STATE true true)) ∧
    (v = true → m.state_ = STATE_WAIT_STOP_ENROLLMENT_RESPONSE → e = none →
      m.stop env v e i = none) ∧
    (∀ r, v = true → m.state_ = STATE_WAIT_STOP_ENROLLMENT_RESPONSE → e = some r →
      r.allowed_to_start_early_ = false →
      m.stop env v e i = some ((m.onBase cancelTask).abort STOP_WITH_NO_OBJECT_VALUE true true)) := by
  refine ⟨?_, ?_, ?_, ?_⟩
  · intro hv
    simp [EnrolleeStateMachine.stop, hv]
  · intro hv hs
    simp [EnrolleeStateMachine.stop, hv, hs]
  · intro hv hs he
    simp [EnrolleeStateMachine.stop, hv, hs, he]
  · intro r hv hs he hr
    simp [EnrolleeStateMachine.stop, hv, hs, he, hr]

theorem readResponse_some (env : enrollee_env) (m : EnrolleeStateMachine) (o : rib_object)
    (hs : m.state_ = STATE_WAIT_READ_RESPONSE) :
    ∃ m2 : EnrolleeStateMachine,
      m2.state_ = STATE_WAIT_READ_RESPONSE ∧
      m2.allowed_to_start_early_ = m.allowed_to_start_early_ ∧
      m2.trace.all early_entry = m.trace.all early_entry ∧
      m.readResponse env true 0 (some o) = m2.requestMoreInformationOrStart env := by
  by_cases ho : o = rib_object.other
  · refine ⟨m.onBase cancelTask, hs, rfl, rfl, ?_⟩
    simp [EnrolleeStateMachine.readResponse, hs, ho]
  · refine ⟨(m.onBase cancelTask).onBase (fun b => log b (action.createObject o)), hs, rfl,
      ?_, ?_⟩
    · rw [onBase_log_trace, List.all_append]
      simp [early_entry]
      rfl
    · simp [EnrolleeStateMachine.readResponse, hs, ho]

theorem readResponse_other (env : enrollee_env) (m : EnrolleeStateMachine) (v : Bool) (r : Int)
    (o : Option rib_object) :
    (v = false → m.readResponse env v r o = (m, false)) ∧
    (v = true → m.state_ ≠ STATE_WAIT_READ_RESPONSE →
      m.readResponse env v r o = (m.abort READ_RESPONSE_IN_BAD_STATE true true, false)) ∧
    (v = true → m.state_ = STATE_WAIT_READ_RESPONSE → (r ≠ 0 ∨ o = none) →
      m.readResponse env v r o = ((m.onBase cancelTask).abort result_reason true true, false)) := by
  refine ⟨?_, ?_, ?_⟩
  · intro hv
    simp [EnrolleeStateMachine.readResponse, hv]
  · intro hv hs
    simp [EnrolleeStateMachine.readResponse, hv, hs]
  · intro hv hs hr
    cases o with
    | none => simp [EnrolleeStateMachine.readResponse, hv, hs]
    | some x =>
      have hr0 : r ≠ 0 := by
        rcases hr with h | h
        · exact h
        · cases h
      simp [EnrolleeStateMachine.readResponse, hv, hs, hr0]

theorem start_cases (env : enrollee_env) (m : EnrolleeStateMachine) (v : Bool) (r : Int) :
    (v = false → m.start env v r = m) ∧
    (v = true → m.state_ = STATE_ENROLLED → m.start env v r = m) ∧
    (v = true → m.state_ ≠ STATE_ENROLLED → m.state_ ≠ STATE_WAIT_START →
      m.start env v r = m.abort START_IN_BAD_STATE true true) ∧
    (v = true → m.state_ = STATE_WAIT_START → r ≠ 0 →
      m.start env v r = (m.onBase cancelTask).abort result_reason true true) ∧
    (v = true → m.state_ = STATE_WAIT_START → r = 0 →
      (m.start env v r).state_ =
        if env.enrollmentCompleted_throws then STATE_NULL else STATE_ENROLLED) := by
  refine ⟨?_, ?_, ?_, ?_, ?_⟩
  · intro hv
    simp [EnrolleeStateMachine.start, hv]
  · intro hv hs
    simp [EnrolleeStateMachine.start, hv, hs]
  · intro hv hs hs1
    simp [EnrolleeStateMachine.start, hv, hs, hs1]
  · intro hv hs hr
    simp [EnrolleeStateMachine.start, hv, hs, hr]
  · intro hv hs hr
    simp only [EnrolleeStateMachine.start, hv, hs, hr, enrollmentCompleted_snd]
    split_ifs <;> simp_all [abort_state, enrollmentCompleted_state]

theorem timer_run_cases (m : EnrolleeStateMachine) :
    ((m.onBase EnrollmentFailedTimerTask_run).state_ = m.state_ ∨
      (m.onBase EnrollmentFailedTimerTask_run).state_ = STATE_NULL) ∧
    (m.onBase EnrollmentFailedTimerTask_run).allowed_to_start_early_ =
      m.allowed_to_start_early_ ∧
    (m.onBase EnrollmentFailedTimerTask_run).trace.all early_entry =
      m.trace.all early_entry := by
  unfold EnrolleeStateMachine.onBase EnrollmentFailedTimerTask_run
  cases h : m.last_scheduled_task_ with
  | none => simp [h]
  | some t => simp [h, abortEnrollment, List.all_append, early_entry]

theorem enrollee_next_of_stop (s : state_t)
    (h : s = STATE_WAIT_STOP_ENROLLMENT_RESPONSE ∨ s = STATE_NULL ∨
      s = STATE_WAIT_READ_RESPONSE ∨ s = STATE_WAIT_START ∨ s = STATE_ENROLLED) :
    s = STATE_WAIT_STOP_ENROLLMENT_RESPONSE ∨ s = STATE_NULL ∨
      enrollee_next STATE_WAIT_STOP_ENROLLMENT_RESPONSE s = true := by
  rcases h with h | h | h | h | h <;> subst h <;> simp [enrollee_next]

theorem enrollee_next_of_read (s : state_t)
    (h : s = STATE_WAIT_READ_RESPONSE ∨ s = STATE_NULL ∨
      s = STATE_WAIT_READ_RESPONSE ∨ s = STATE_WAIT_START ∨ s = STATE_ENROLLED) :
    s = STATE_WAIT_READ_RESPONSE ∨ s = STATE_NULL ∨
      enrollee_next STATE_WAIT_READ_RESPONSE s = true := by
  rcases h with h | h | h | h | h <;> subst h <;> simp [enrollee_next]

theorem enrollee_step_state (m m1 : EnrolleeStateMachine) (c : enrollee_env × enrollee_input)
    (h : enrollee_step m c = some m1) :
    m1.state_ = m.state_ ∨ m1.state_ = STATE_NULL ∨ enrollee_next m.state_ m1.state_ = true := by
  obtain ⟨env, i⟩ := c
  cases i with
  | initiateEnrollment a p =>
    simp only [enrollee_step, Option.some.injEq] at h
    subst h
    rw [initiateEnrollment_state]
    split_ifs with h1 h2 <;> simp_all [enrollee_next]
  | connectResponse r =>
    simp only [enrollee_step, Option.some.injEq] at h
    subst h
    rw [connectResponse_state]
    split_ifs with h1 h2 h3 <;> simp_all [enrollee_next]
  | startResponse v r o =>
    simp only [enrollee_step, Option.some.injEq] at h
    subst h
    rw [startResponse_state]
    split_ifs with h1 h2 h3 <;> simp_all [enrollee_next]
  | stop v e i =>
    simp only [enrollee_step] at h
    obtain ⟨h1, h2, h3, h4⟩ := stop_other env m v e i
    cases v with
    | false =>
      rw [h1 rfl] at h
      cases h
      exact Or.inl rfl
    | true =>
      by_cases hs : m.state_ = STATE_WAIT_STOP_ENROLLMENT_RESPONSE
      · cases e with
        | none =>
          rw [h3 rfl hs rfl] at h
          cases h
        | some r =>
          by_cases hr : r.allowed_to_start_early_ = true
          · obtain ⟨m2, hm1, _, _, hm4⟩ := stop_some env m r i hs hr
            rw [hm4] at h
            cases h
            rw [hs]
            apply enrollee_next_of_stop
            split_ifs
            · exact Or.inr (Or.inl rfl)
            · have := requestMoreInformationOrStart_next env m2
              rw [hm1] at this
              exact this
          · rw [h4 r rfl hs rfl (by simpa using hr)] at h
            cases h
            exact Or.inr (Or.inl rfl)
      · rw [h2 rfl hs] at h
        cases h
        exact Or.inr (Or.inl rfl)
  | readResponse v r o =>
    simp only [enrollee_step, Option.some.injEq] at h
    subst h
    obtain ⟨h1, h2, h3⟩ := readResponse_other env m v r o
    cases v with
    | false =>
      rw [h1 rfl]
      exact Or.inl rfl
    | true =>
      by_cases hs : m.state_ = STATE_WAIT_READ_RESPONSE
      · by_cases hr : r ≠ 0 ∨ o = none
        · rw [h3 rfl hs hr]
          exact Or.inr (Or.inl rfl)
        · have hr0 : r = 0 := by
            by_contra hne
            exact hr (Or.inl hne)
          cases o with
          | none => exact absurd (Or.inr rfl) hr
          | some x =>
            obtain ⟨m2, hm1, _, _, hm4⟩ := readResponse_some env m x hs
            rw [hr0, hm4, hs]
            apply enrollee_next_of_read
            have := requestMoreInformationOrStart_next env m2
            rw [hm1] at this
            exact this
      · rw [h2 rfl hs]
        exact Or.inr (Or.inl rfl)
  | start v r =>
    simp only [enrollee_step, Option.some.injEq] at h
    subst h
    obtain ⟨h1, h2, h3, h4, h5⟩ := start_cases env m v r
    cases v with
    | false =>
      rw [h1 rfl]
      exact Or.inl rfl
    | true =>
      by_cases he : m.state_ = STATE_ENROLLED
      · rw [h2 rfl he]
        exact Or.inl rfl
      · by_cases hs : m.state_ = STATE_WAIT_START
        · by_cases hr : r = 0
          · rw [h5 rfl hs hr, hs]
            split_ifs <;> simp [enrollee_next]
          · rw [h4 rfl hs hr]
            exact Or.inr (Or.inl rfl)
        · rw [h3 rfl he hs]
          exact Or.inr (Or.inl rfl)
  | timeout =>
    simp only [enrollee_step, Option.some.injEq] at h
    subst h
    rcases (timer_run_cases m).1 with h | h
    · exact Or.inl h
    · exact Or.inr (Or.inl h)

/-- C21 (as stated, refuted): an enrollee waiting for the connect response receives a start
response whose session descriptor fails `isValidPortId`. The message arrives in a state
other than `WAIT_START_ENROLLMENT_RESPONSE`, and the enrollment is not aborted: the machine
is left as it was, in `WAIT_CONNECT_RESPONSE`, with no `abortEnrollment` call. -/
theorem C21_message_for_another_port_is_not_aborted :
    enrollee_wcr.state_ = STATE_WAIT_CONNECT_RESPONSE ∧
    enrollee_wcr.startResponse false 0 none = enrollee_wcr ∧
    (enrollee_wcr.startResponse false 0 none).state_ ≠ STATE_NULL ∧
    (enrollee_wcr.startResponse false 0 none).trace.filter is_abort = [] := by
  decide

/-- C21 (amended): the enrollee advances along the chain only. `initiateEnrollment` outside
`NULL` raises an exception and leaves the state and the trace as they were, and raises none
in `NULL`. A message that passes the port check (`connectResponse` has none) and arrives in
a state other than the one of its handler aborts the enrollment: the result is the machine
after `abortEnrollment`, in `NULL`, with the call recorded; `start` in `ENROLLED` is
ignored. A message that fails `isValidPortId` is ignored in every state. Every call moves
the state to itself, to `NULL`, or one step along the chain, and `ENROLLED` is entered only
from `WAIT_STOP_ENROLLMENT_RESPONSE`, `WAIT_READ_RESPONSE` or `WAIT_START`. -/
theorem C21_enrollee_chain (env : enrollee_env) (m : EnrolleeStateMachine) :
    (∀ a p, m.state_ ≠ STATE_NULL →
      (m.initiateEnrollment env a p).2 = true ∧
      (m.initiateEnrollment env a p).1.state_ = m.state_ ∧
      (m.initiateEnrollment env a p).1.trace = m.trace) ∧
    (∀ a p, m.state_ = STATE_NULL → (m.initiateEnrollment env a p).2 = false) ∧
    (∀ r, m.state_ ≠ STATE_WAIT_CONNECT_RESPONSE →
      m.connectResponse env r = m.abort MESSAGE_RECEIVED_IN_WRONG_ORDER true true) ∧
    (∀ r o, m.state_ ≠ STATE_WAIT_START_ENROLLMENT_RESPONSE →
      m.startResponse true r o = m.abort START_IN_BAD_STATE true true) ∧
    (∀ e i, m.state_ ≠ STATE_WAIT_STOP_ENROLLMENT_RESPONSE →
      m.stop env true e i = some (m.abort STOP_IN_BAD_STATE true true)) ∧
    (∀ r o, m.state_ ≠ STATE_WAIT_READ_RESPONSE →
      m.readResponse env true r o = (m.abort READ_RESPONSE_IN_BAD_STATE true true, false)) ∧
    (∀ r, m.state_ ≠ STATE_WAIT_START → m.state_ ≠ STATE_ENROLLED →
      m.start env true r = m.abort START_IN_BAD_STATE true true) ∧
    (∀ r, m.state_ = STATE_ENROLLED → m.start env true r = m) ∧
    (∀ reason, (m.abort reason true true).state_ = STATE_NULL ∧
      (m.abort reason true true).trace =
        m.trace ++ [action.abortEnrollment m.port_id_ reason true true]) ∧
    (∀ r o, m.startResponse false r o = m) ∧
    (∀ e i, m.stop env false e i = some m) ∧
    (∀ r o, m.readResponse env false r o = (m, false)) ∧
    (∀ r, m.start env false r = m) ∧
    (∀ c m1, enrollee_step m c = some m1 →
      m1.state_ = m.state_ ∨ m1.state_ = STATE_NULL ∨
        enrollee_next m.state_ m1.state_ = true) ∧
    (∀ c m1, enrollee_step m c = some m1 → m1.state_ = STATE_ENROLLED →
      m.state_ = STATE_ENROLLED ∨ m.state_ = STATE_WAIT_STOP_ENROLLMENT_RESPONSE ∨
        m.state_ = STATE_WAIT_READ_RESPONSE ∨ m.state_ = STATE_WAIT_START) := by
  refine ⟨?_, ?_, ?_, ?_, ?_, ?_, ?_, ?_, ?_, ?_, ?_, ?_, ?_, ?_, ?_⟩
  · intro a p h
    simp [EnrolleeStateMachine.initiateEnrollment, h]
  · intro a p h
    unfold EnrolleeStateMachine.initiateEnrollment
    simp only [h]
    split_ifs <;> simp_all
  · intro r h
    simp [EnrolleeStateMachine.connectResponse, h]
  · intro r o h
    simp [EnrolleeStateMachine.startResponse, h]
  · intro e i h
    exact (stop_other env m true e i).2.1 rfl h
  · intro r o h
    exact (readResponse_other env m true r o).2.1 rfl h
  · intro r h1 h2
    exact (start_cases env m true r).2.2.1 rfl h2 h1
  · intro r h
    exact (start_cases env m true r).2.1 rfl h
  · intro reason
    exact ⟨rfl, rfl⟩
  · intro r o
    simp [EnrolleeStateMachine.startResponse]
  · intro e i
    exact (stop_other env m false e i).1 rfl
  · intro r o
    exact (readResponse_other env m false r o).1 rfl
  · intro r
    exact (start_cases env m false r).1 rfl
  · intro c m1 h
    exact enrollee_step_state m m1 c h
  · intro c m1 h he
    have hs := enrollee_step_state m m1 c h
    rw [he] at hs
    rcases hs with hs | hs | hs
    · exact Or.inl hs.symm
    · cases hs
    · revert hs
      cases m.state_ <;> simp [enrollee_next]

/-- C21 (amended) at concrete inputs: a start response on the machine's port while the enrollee
waits for the connect response aborts the enrollment, and the calls of a complete enrollment end
in `ENROLLED`. -/
theorem C21_enrollee_chain_witness :
    enrollee_wcr.state_ ≠ STATE_WAIT_START_ENROLLMENT_RESPONSE ∧
    enrollee_wcr.startResponse true 0 none = enrollee_wcr.abort START_IN_BAD_STATE true true ∧
    (enrollee_run (EnrolleeStateMachine.create 7) happy_path).map (fun m => m.state_) =
      some STATE_ENROLLED :=
  ⟨by decide, (C21_enrollee_chain env_ok enrollee_wcr).2.2.2.1 0 none (by decide), by decide⟩

/-- C30 (code defect): after `initiateEnrollment` and a positive connect response on which sending
`M_START` raises an exception, the enrollee is in the waiting state `WAIT_CONNECT_RESPONSE`
and no timeout task is pending: `connectResponse` has cancelled the task and its `catch`
block neither schedules one nor aborts. -/
theorem C30_waiting_without_timeout_after_failed_start :
    (enrollee_run (EnrolleeStateMachine.create 7) failed_start_path).map
      (fun m => (m.state_, enrollee_waiting m.state_, m.last_scheduled_task_)) =
      some (STATE_WAIT_CONNECT_RESPONSE, true, none) := by
  decide

/-! ## The enroller state machine -/

theorem enroller_abort_state (m : EnrollerStateMachine) (r : reason_t) (e s : Bool) :
    (m.abort r e s).state_ = STATE_NULL := rfl

theorem enroller_connect_state (env : enroller_env) (m : EnrollerStateMachine) (i p : Int) :
    (m.connect env i p).state_ =
      if m.state_ ≠ STATE_NULL then STATE_NULL
      else if env.isAllowedToJoinDIF = false then STATE_NULL
      else if env.openApplicationConnectionResponse_throws then STATE_NULL
      else STATE_WAIT_START_ENROLLMENT := by
  unfold EnrollerStateMachine.connect
  simp only []
  split_ifs <;>
    simp_all [EnrollerStateMachine.abort, EnrollerStateMachine.onBase, abortEnrollment]

theorem sendNegative_state (env : enroller_env) (m : EnrollerStateMachine) (r : Int)
    (reason : reason_t) (i : Int) :
    (m.sendNegativeStartResponseAndAbortEnrollment env r reason i).state_ = m.state_ ∨
    (m.sendNegativeStartResponseAndAbortEnrollment env r reason i).state_ = STATE_NULL := by
  unfold EnrollerStateMachine.sendNegativeStartResponseAndAbortEnrollment
  simp only []
  split_ifs
  · exact Or.inl rfl
  · exact Or.inr rfl

theorem start_respond_state (env : enroller_env) (m : EnrollerStateMachine) (q : Bool)
    (e : EnrollmentInformationRequest) (i : Int) :
    (m.start_respond env q e i).state_ = m.state_ ∨
    (m.start_respond env q e i).state_ = STATE_NULL ∨
    (m.start_respond env q e i).state_ = STATE_WAIT_STOP_ENROLLMENT_RESPONSE := by
  cases q <;>
  · unfold EnrollerStateMachine.start_respond
    simp only []
    split_ifs <;>
      first
      | exact Or.inr (Or.inr rfl)
      | exact (sendNegative_state env _ (-1) exception_what i).elim
          (fun h => Or.inl (h.trans rfl)) (fun h => Or.inr (Or.inl h))

theorem enroller_start_cases (env : enroller_env) (m : EnrollerStateMachine)
    (e : Option EnrollmentInformationRequest) (i : Int) :
    (m.start env false e i = some m) ∧
    (m.state_ ≠ STATE_WAIT_START_ENROLLMENT →
      m.start env true e i = some (m.abort START_IN_BAD_STATE false true)) ∧
    (m.state_ = STATE_WAIT_START_ENROLLMENT → e = none →
      m.start env true e i =
        if env.LOG_IPCP_DBG_evaluates then none
        else if env.getValidAddress = 0 then
          some ((m.onBase cancelTask).sendNegativeStartResponseAndAbortEnrollment env (-1)
            COULD_NOT_ASSIGN_A_VALID_ADDRESS i)
        else none) ∧
    (∀ r, m.state_ = STATE_WAIT_START_ENROLLMENT → e = some r →
      env.isValidAddress r.address_ = none →
      m.start env true e i =
        some ((m.onBase cancelTask).sendNegativeStartResponseAndAbortEnrollment env (-1)
          exception_what i)) ∧
    (∀ r, m.state_ = STATE_WAIT_START_ENROLLMENT → e = some r →
      env.isValidAddress r.address_ = some true →
      m.start env true e i =
        some (({ m.onBase cancelTask with
          remote_peer_supporting_difs_ :=
            m.remote_peer_supporting_difs_ ++ r.supporting_difs_ }).start_respond env false r i)) ∧
    (∀ r, m.state_ = STATE_WAIT_START_ENROLLMENT → e = some r →
      env.isValidAddress r.address_ = some false →
      m.start env true e i =
        if env.getValidAddress = 0 then
          some (({ m.onBase cancelTask with
            remote_peer_supporting_difs_ :=
              m.remote_peer_supporting_difs_ ++ r.supporting_difs_
            }).sendNegativeStartResponseAndAbortEnrollment env (-1)
              COULD_NOT_ASSIGN_A_VALID_ADDRESS i)
        else
          some (({ m.onBase cancelTask with
            remote_peer_supporting_difs_ :=
              m.remote_peer_supporting_difs_ ++ r.supporting_difs_ }).start_respond env true
              { r with address_ := env.getValidAddress } i)) := by
  refine ⟨?_, ?_, ?_, ?_, ?_, ?_⟩
  · simp [EnrollerStateMachine.start]
  · intro hs
    simp [EnrollerStateMachine.start, hs]
  · intro hs he
    subst he
    simp [EnrollerStateMachine.start, hs]
  · intro r hs he hv
    subst he
    simp [EnrollerStateMachine.start, hs, hv]
  · intro r hs he hv
    subst he
    simp [EnrollerStateMachine.start, hs, hv]
    rfl
  · intro r hs he hv
    subst he
    simp [EnrollerStateMachine.start, hs, hv]
    rfl

theorem enroller_start_state (env : enroller_env) (m m1 : EnrollerStateMachine) (v : Bool)
    (e : Option EnrollmentInformationRequest) (i : Int) (h : m.start env v e i = some m1) :
    m1.state_ = m.state_ ∨ m1.state_ = STATE_NULL ∨
      (m.state_ = STATE_WAIT_START_ENROLLMENT ∧
        m1.state_ = STATE_WAIT_STOP_ENROLLMENT_RESPONSE) := by
  obtain ⟨h1, h2, h3, h4, h5, h6⟩ := enroller_start_cases env m e i
  cases v with
  | false =>
    rw [h1] at h
    cases h
    exact Or.inl rfl
  | true =>
    by_cases hs : m.state_ = STATE_WAIT_START_ENROLLMENT
    · have neg : ∀ (m2 : EnrollerStateMachine) (reason : reason_t), m2.state_ = m.state_ →
          (m2.sendNegativeStartResponseAndAbortEnrollment env (-1) reason i).state_ = m.state_ ∨
          (m2.sendNegativeStartResponseAndAbortEnrollment env (-1) reason i).state_ =
            STATE_NULL ∨
          (m.state_ = STATE_WAIT_START_ENROLLMENT ∧
            (m2.sendNegativeStartResponseAndAbortEnrollment env (-1) reason i).state_ =
              STATE_WAIT_STOP_ENROLLMENT_RESPONSE) := by
        intro m2 reason h2
        rcases sendNegative_state env m2 (-1) reason i with hx | hx
        · exact Or.inl (hx.trans h2)
        · exact Or.inr (Or.inl hx)
      have pos : ∀ (m2 : EnrollerStateMachine) (q : Bool) (r : EnrollmentInformationRequest),
          m2.state_ = m.state_ →
          (m2.start_respond env q r i).state_ = m.state_ ∨
          (m2.start_respond env q r i).state_ = STATE_NULL ∨
          (m.state_ = STATE_WAIT_START_ENROLLMENT ∧
            (m2.start_respond env q r i).state_ = STATE_WAIT_STOP_ENROLLMENT_RESPONSE) := by
        intro m2 q r h2
        rcases start_respond_state env m2 q r i with hx | hx | hx
        · exact Or.inl (hx.trans h2)
        · exact Or.inr (Or.inl hx)
        · exact Or.inr (Or.inr ⟨hs, hx⟩)
      cases e with
      | none =>
        rw [h3 hs rfl] at h
        split_ifs at h
        cases h
        exact neg _ _ rfl
      | some r =>
        cases hv : env.isValidAddress r.address_ with
        | none =>
          rw [h4 r hs rfl hv] at h
          cases h
          exact neg _ _ rfl
        | some valid =>
          cases valid with
          | true =>
            rw [h5 r hs rfl hv] at h
            cases h
            exact pos _ _ _ rfl
          | false =>
            rw [h6 r hs rfl hv] at h
            split_ifs at h
            · cases h
              exact neg _ _ rfl
            · cases h
              exact pos _ _ _ rfl
    · rw [h2 hs] at h
      cases h
      exact Or.inr (Or.inl rfl)

theorem stopResponse_state (m : EnrollerStateMachine) (v : Bool) (r : Int) :
    (m.stopResponse v r).state_ =
      if v = false then m.state_
      else if m.state_ ≠ STATE_WAIT_STOP_ENROLLMENT_RESPONSE then STATE_NULL
      else if r ≠ 0 then STATE_NULL
      else STATE_ENROLLED := by
  unfold EnrollerStateMachine.stopResponse
  cases v
  · simp
  · by_cases h : m.state_ = STATE_WAIT_STOP_ENROLLMENT_RESPONSE
    · by_cases hr : r = 0
      · simp [h, hr, EnrollerStateMachine.enrollmentCompleted, EnrollerStateMachine.onBase, log]
      · simp [h, hr, EnrollerStateMachine.onBase, log, cancelTask]
    · simp [h, enroller_abort_state]

theorem enroller_step_state (m m1 : EnrollerStateMachine) (c : enroller_env × enroller_input)
    (h : enroller_step m c = some m1) :
    m1.state_ = m.state_ ∨ m1.state_ = STATE_NULL ∨ enroller_next m.state_ m1.state_ = true := by
  obtain ⟨env, i⟩ := c
  cases i with
  | connect i p =>
    simp only [enroller_step, Option.some.injEq] at h
    subst h
    rw [enroller_connect_state]
    split_ifs <;> simp_all [enroller_next]
  | start v e i =>
    simp only [enroller_step] at h
    rcases enroller_start_state env m m1 v e i h with h1 | h1 | ⟨h1, h2⟩
    · exact Or.inl h1
    · exact Or.inr (Or.inl h1)
    · right; right
      rw [h1, h2]
      rfl
  | stopResponse v r =>
    simp only [enroller_step, Option.some.injEq] at h
    subst h
    rw [stopResponse_state]
    split_ifs <;> simp_all [enroller_next]
  | timeout =>
    simp only [enroller_step, Option.some.injEq] at h
    subst h
    unfold EnrollerStateMachine.onBase EnrollmentFailedTimerTask_run
    cases ht : m.last_scheduled_task_ with
    | none => simp [ht]
    | some t => simp [ht, abortEnrollment]

/-- C22 (as stated, refuted): an enroller waiting for the START receives a stop response whose
session descriptor fails `isValidPortId`. The message arrives in a state other than
`WAIT_STOP_ENROLLMENT_RESPONSE`, and the enrollment is not aborted: the machine is left as
it was, in `WAIT_START_ENROLLMENT`, with no `abortEnrollment` call. -/
theorem C22_message_for_another_port_is_not_aborted :
    enroller_wse.state_ = STATE_WAIT_START_ENROLLMENT ∧
    enroller_wse.stopResponse false 0 = enroller_wse ∧
    (enroller_wse.stopResponse false 0).state_ ≠ STATE_NULL ∧
    (enroller_wse.stopResponse false 0).trace.filter is_abort = [] := by
  decide

/-- C22 (amended): the enroller advances along
`NULL -> WAIT_START_ENROLLMENT -> WAIT_STOP_ENROLLMENT_RESPONSE -> ENROLLED` only. A
`connect` outside `NULL`, and a `start` or `stopResponse` that passes the port check and
arrives outside the state of its handler, aborts the enrollment: the result is the machine
after `abortEnrollment`, in `NULL`, with the call recorded. A `start` or `stopResponse` that
fails `isValidPortId` is ignored in every state. In `WAIT_STOP_ENROLLMENT_RESPONSE` a
`stopResponse` on the machine's port with result 0 ends in `ENROLLED`, and with another
result it ends in `NULL` with `enrollmentFailed` reported and nothing else. Every call moves
the state to itself, to `NULL`, or one step along the chain. -/
theorem C22_enroller_chain (env : enroller_env) (m : EnrollerStateMachine) :
    (∀ i p, m.state_ ≠ STATE_NULL →
      m.connect env i p =
        m.onBase (fun b => abortEnrollment b p CONNECT_IN_NOT_NULL false true)) ∧
    (∀ e i, m.state_ ≠ STATE_WAIT_START_ENROLLMENT →
      m.start env true e i = some (m.abort START_IN_BAD_STATE false true)) ∧
    (∀ r, m.state_ ≠ STATE_WAIT_STOP_ENROLLMENT_RESPONSE →
      m.stopResponse true r = m.abort STOP_RESPONSE_IN_BAD_STATE false true) ∧
    (∀ p reason, (m.onBase (fun b => abortEnrollment b p reason false true)).state_ =
        STATE_NULL ∧
      (m.onBase (fun b => abortEnrollment b p reason false true)).trace =
        m.trace ++ [action.abortEnrollment p reason false true]) ∧
    (∀ reason, m.abort reason false true =
      m.onBase (fun b => abortEnrollment b m.port_id_ reason false true)) ∧
    (∀ e i, m.start env false e i = some m) ∧
    (∀ r, m.stopResponse false r = m) ∧
    (m.state_ = STATE_WAIT_STOP_ENROLLMENT_RESPONSE →
      (m.stopResponse true 0).state_ = STATE_ENROLLED) ∧
    (∀ r, m.state_ = STATE_WAIT_STOP_ENROLLMENT_RESPONSE → r ≠ 0 →
      (m.stopResponse true r).state_ = STATE_NULL ∧
      (m.stopResponse true r).trace =
        m.trace ++ [action.enrollmentFailed m.port_id_ result_reason false true]) ∧
    (∀ c m1, enroller_step m c = some m1 →
      m1.state_ = m.state_ ∨ m1.state_ = STATE_NULL ∨
        enroller_next m.state_ m1.state_ = true) := by
  refine ⟨?_, ?_, ?_, ?_, ?_, ?_, ?_, ?_, ?_, ?_⟩
  · intro i p h
    simp [EnrollerStateMachine.connect, h]
  · intro e i h
    exact (enroller_start_cases env m e i).2.1 h
  · intro r h
    simp [EnrollerStateMachine.stopResponse, h]
  · intro p reason
    exact ⟨rfl, rfl⟩
  · intro reason
    rfl
  · intro e i
    exact (enroller_start_cases env m e i).1
  · intro r
    simp [EnrollerStateMachine.stopResponse]
  · intro h
    rw [stopResponse_state]
    simp [h]
  · intro r h hr
    refine ⟨?_, ?_⟩
    · rw [stopResponse_state]
      simp [h, hr]
    · simp [EnrollerStateMachine.stopResponse, h, hr, EnrollerStateMachine.onBase, log,
        cancelTask]
  · intro c m1 h
    exact enroller_step_state m m1 c h

/-- C22 (amended) at concrete inputs: a stop response on the machine's port while the enroller
waits for the START aborts the enrollment, and the calls of a complete enrollment end in
`ENROLLED`. -/
theorem C22_enroller_chain_witness :
    enroller_wse.state_ ≠ STATE_WAIT_STOP_ENROLLMENT_RESPONSE ∧
    enroller_wse.stopResponse true 0 =
      enroller_wse.abort STOP_RESPONSE_IN_BAD_STATE false true ∧
    (enroller_run (EnrollerStateMachine.create 7) enroller_happy_path).map
      (fun m => m.state_) = some STATE_ENROLLED :=
  ⟨by decide, (C22_enroller_chain enroller_env_ok enroller_wse).2.2.1 0 (by decide), by decide⟩

/-- The part of C23 the code implements: for a START that carries enrollment information,
accepted in `WAIT_START_ENROLLMENT`, when the positive `M_START_R` does not raise an
exception. With a valid address the response carries no object and the peer gets the
supplied address; with an invalid address and a non-zero address from `getValidAddress`
the response carries that address and the peer gets it; with address 0 from
`getValidAddress` the response is negative, result -1, and the enrollment is aborted when
that response does not raise an exception. -/
theorem enroller_start_with_enrollment_information (env : enroller_env)
    (m : EnrollerStateMachine) (r : EnrollmentInformationRequest) (i : Int)
    (hs : m.state_ = STATE_WAIT_START_ENROLLMENT) :
    (env.isValidAddress r.address_ = some true → env.remoteStartObjectResponse_throws 0 = false →
      ∃ m1, m.start env true (some r) i = some m1 ∧
        action.remoteStartObjectResponse m.port_id_ none 0 i ∈ m1.trace ∧
        m1.remote_peer_address_ = r.address_) ∧
    (env.isValidAddress r.address_ = some false → env.getValidAddress ≠ 0 →
      env.remoteStartObjectResponse_throws 0 = false →
      ∃ m1, m.start env true (some r) i = some m1 ∧
        action.remoteStartObjectResponse m.port_id_
          (some { r with address_ := env.getValidAddress }) 0 i ∈ m1.trace ∧
        m1.remote_peer_address_ = env.getValidAddress) ∧
    (env.isValidAddress r.address_ = some false → env.getValidAddress = 0 →
      env.remoteStartObjectResponse_throws (-1) = false →
      ∃ m1, m.start env true (some r) i = some m1 ∧
        m1.state_ = STATE_NULL ∧
        m1.trace = m.trace ++ [action.remoteStartObjectResponse m.port_id_ none (-1) i,
          action.abortEnrollment m.port_id_ COULD_NOT_ASSIGN_A_VALID_ADDRESS false true]) := by
  obtain ⟨_, _, _, _, h5, h6⟩ := enroller_start_cases env m (some r) i
  have resp : ∀ (m2 : EnrollerStateMachine) (q : Bool) (x : EnrollmentInformationRequest),
      env.remoteStartObjectResponse_throws 0 = false →
      action.remoteStartObjectResponse m2.port_id_ (if q then some x else none) 0 i ∈
        (m2.start_respond env q x i).trace ∧
      (m2.start_respond env q x i).remote_peer_address_ = x.address_ := by
    intro m2 q x ht
    unfold EnrollerStateMachine.start_respond
      EnrollerStateMachine.sendNegativeStartResponseAndAbortEnrollment
    simp only [ht, Bool.false_eq_true, if_false]
    cases q <;> split_ifs <;>
      simp [EnrollerStateMachine.onBase, EnrollerStateMachine.abort, abortEnrollment, log,
        scheduleTask, EnrollerStateMachine.sendDIFStaticInformation,
        EnrollerStateMachine.sendDIFDynamicInformation]
  refine ⟨?_, ?_, ?_⟩
  · intro hv ht
    refine ⟨_, h5 r hs rfl hv, ?_⟩
    exact resp _ false r ht
  · intro hv hg ht
    rw [h6 r hs rfl hv, if_neg hg]
    refine ⟨_, rfl, ?_⟩
    exact resp _ true { r with address_ := env.getValidAddress } ht
  · intro hv hg ht
    rw [h6 r hs rfl hv, if_pos hg]
    refine ⟨_, rfl, ?_, ?_⟩
    · simp [EnrollerStateMachine.sendNegativeStartResponseAndAbortEnrollment, ht,
        enroller_abort_state]
    · simp [EnrollerStateMachine.sendNegativeStartResponseAndAbortEnrollment, ht,
        EnrollerStateMachine.onBase, EnrollerStateMachine.abort, abortEnrollment, log,
        cancelTask]

/-- C23 (code defect): a START without enrollment information (a null `eiRequest`, which
`EnrollmentRIBObject::remoteStartObject` passes for a START without object value), accepted
in `WAIT_START_ENROLLMENT` when `getValidAddress` gives address 42: `start` dereferences the
null pointer, in `eiRequest->address_ = address`, whether `LOG_IPCP_DBG` evaluates its
arguments or not. No `M_START_R` with the address is sent and no address is recorded for
the peer. -/
theorem C23_start_without_enrollment_information_dereferences_null :
    enroller_wse.state_ = STATE_WAIT_START_ENROLLMENT ∧
    enroller_env_ok.getValidAddress = 42 ∧
    enroller_wse.start enroller_env_ok true none 2 = none ∧
    enroller_wse.start enroller_env_dbg true none 2 = none := by
  decide

/-! ## The neighbor enroller and the watchdog -/

theorem isEnrolledTo_iff (machines : List (Nat × state_t)) (name : Nat) :
    isEnrolledTo machines name = true ↔
      ∃ it ∈ machines, it.1 = name ∧ it.2 ≠ STATE_NULL := by
  induction machines with
  | nil => simp [isEnrolledTo]
  | cons x xs ih =>
    unfold isEnrolledTo
    split_ifs with h
    · simp only [true_iff]
      exact ⟨x, List.mem_cons_self _ _, h⟩
    · rw [ih]
      constructor
      · rintro ⟨it, hm, hit⟩
        exact ⟨it, List.mem_cons_of_mem _ hm, hit⟩
      · rintro ⟨it, hm, hit⟩
        rcases List.mem_cons.mp hm with hx | hx
        · subst hx
          exact absurd hit h
        · exact ⟨it, hx, hit⟩

theorem body_attempts_le (machines : List (Nat × state_t)) (max : Nat) (it : Neighbor)
    (h : it.number_of_enrollment_attempts_ ≤ max) :
    (doNeighborsEnrollerWork_body machines max it).1.number_of_enrollment_attempts_ ≤ max := by
  unfold doNeighborsEnrollerWork_body
  split_ifs with h1 h2
  · exact h
  · exact h2
  · exact h

theorem pass_eq_map (machines : List (Nat × state_t)) (max : Nat) (ns : List Neighbor) :
    (doNeighborsEnrollerWork_pass machines max ns).1 =
      ns.map (fun it => (doNeighborsEnrollerWork_body machines max it).1) ∧
    (doNeighborsEnrollerWork_pass machines max ns).2 =
      ns.flatMap (fun it => (doNeighborsEnrollerWork_body machines max it).2) := by
  induction ns with
  | nil => exact ⟨rfl, rfl⟩
  | cons n ns ih =>
    unfold doNeighborsEnrollerWork_pass
    simp only [List.map_cons, List.flatMap_cons]
    rw [ih.1, ih.2]
    exact ⟨rfl, rfl⟩

theorem pass_attempts_le (machines : List (Nat × state_t)) (max : Nat) (ns : List Neighbor)
    (h : ∀ n ∈ ns, n.number_of_enrollment_attempts_ ≤ max) :
    ∀ n ∈ (doNeighborsEnrollerWork_pass machines max ns).1,
      n.number_of_enrollment_attempts_ ≤ max := by
  rw [(pass_eq_map machines max ns).1]
  intro n hn
  obtain ⟨it, hit, rfl⟩ := List.mem_map.mp hn
  exact body_attempts_le machines max it (h it hit)

theorem work_attempts_le (max : Nat) (envs : List pass_env) :
    ∀ ns : List Neighbor, (∀ n ∈ ns, n.number_of_enrollment_attempts_ ≤ max) →
      ∀ n ∈ (doNeighborsEnrollerWork max envs ns).1, n.number_of_enrollment_attempts_ ≤ max := by
  induction envs with
  | nil =>
    intro ns h
    exact h
  | cons e es ih =>
    intro ns h
    unfold doNeighborsEnrollerWork
    apply ih
    apply pass_attempts_le
    intro n hn
    exact h n (List.mem_filter.mp hn).1

/-- C24: in one pass of the neighbor enroller, the body of the loop leaves a neighbor that
is enrolled (some state machine has its process name and is not in `NULL`) untouched and
makes no call for it; for a neighbor that is not enrolled it adds one to the attempt counter
and calls `initiateEnrollment` once when the counter is below the maximum, and otherwise
calls `deleteObject` on the neighbor and leaves the counter as it was. A pass applies the
body to each neighbor in turn. Over any number of passes, whatever the state machines and
the neighbors kept in the RIB at each pass, counters that start at or below the maximum
stay at or below it. -/
theorem C24_neighbor_enroller_attempts (machines : List (Nat × state_t)) (max : Nat) :
    (∀ name, isEnrolledTo machines name = true ↔
      ∃ it ∈ machines, it.1 = name ∧ it.2 ≠ STATE_NULL) ∧
    (∀ it : Neighbor, isEnrolledTo machines it.processName = true →
      doNeighborsEnrollerWork_body machines max it = (it, [])) ∧
    (∀ it : Neighbor, isEnrolledTo machines it.processName = false →
      it.number_of_enrollment_attempts_ < max →
      doNeighborsEnrollerWork_body machines max it =
        ({ it with number_of_enrollment_attempts_ := it.number_of_enrollment_attempts_ + 1 },
          [task_action.initiateEnrollment it.processName])) ∧
    (∀ it : Neighbor, isEnrolledTo machines it.processName = false →
      max ≤ it.number_of_enrollment_attempts_ →
      doNeighborsEnrollerWork_body machines max it =
        (it, [task_action.deleteObject it.processName])) ∧
    (∀ ns : List Neighbor,
      (doNeighborsEnrollerWork_pass machines max ns).1 =
        ns.map (fun it => (doNeighborsEnrollerWork_body machines max it).1) ∧
      (doNeighborsEnrollerWork_pass machines max ns).2 =
        ns.flatMap (fun it => (doNeighborsEnrollerWork_body machines max it).2)) ∧
    (∀ (envs : List pass_env) (ns : List Neighbor),
      (∀ n ∈ ns, n.number_of_enrollment_attempts_ ≤ max) →
      ∀ n ∈ (doNeighborsEnrollerWork max envs ns).1,
        n.number_of_enrollment_attempts_ ≤ max) := by
  refine ⟨isEnrolledTo_iff machines, ?_, ?_, ?_, pass_eq_map machines max,
    fun envs ns => work_attempts_le max envs ns⟩
  · intro it h
    simp [doNeighborsEnrollerWork_body, h]
  · intro it h hlt
    simp [doNeighborsEnrollerWork_body, h, hlt]
  · intro it h hge
    simp [doNeighborsEnrollerWork_body, h, Nat.not_lt.mpr hge]

/-- C24 at a concrete input: a neighbor with two attempts and maximum three gets its third attempt in
the first pass, and after five passes its counter is three. -/
theorem C24_neighbor_enroller_attempts_witness :
    neighbor_silent.number_of_enrollment_attempts_ < 3 ∧
    doNeighborsEnrollerWork_body [] 3 neighbor_silent =
      ({ neighbor_silent with number_of_enrollment_attempts_ := 3 },
        [task_action.initiateEnrollment 1]) ∧
    (doNeighborsEnrollerWork 3 five_passes [neighbor_silent]).1 =
      [{ neighbor_silent with number_of_enrollment_attempts_ := 3 }] :=
  ⟨by decide,
    (C24_neighbor_enroller_attempts [] 3).2.2.1 neighbor_silent (by decide) (by decide),
    by decide⟩

/-- C25 (as stated, refuted): an enrolled neighbor from which nothing was ever heard (last-heard
time 0), with watchdog period 30000, declared-dead interval 120000 and current time 200000.
Its last-heard time plus the interval lies before the current time, yet no
`NeighborDeclaredDeadEvent` is delivered: the neighbor is sent a read request. -/
theorem C25_silent_neighbor_is_polled_not_declared_dead :
    neighbor_silent.enrolled_ = true ∧
    neighbor_silent.last_heard_from_time_in_ms_ + 120000 < 200000 ∧
    sendMessages_body 30000 120000 200000 neighbor_silent = [task_action.remoteReadObject 5] ∧
    sendMessages 30000 120000 200000 [neighbor_silent] = [task_action.remoteReadObject 5] := by
  decide

/-- C25 (amended): in `sendMessages`, a neighbor that is not enrolled, or whose last-heard
time plus the watchdog period is after the current time, gets neither a read request nor an
event. Of the other enrolled neighbors, one whose last-heard time is not 0 and whose
last-heard time plus the declared-dead interval is before the current time gets a
`NeighborDeclaredDeadEvent` and no read request; each of the rest, a neighbor never heard
from (last-heard time 0) included, gets exactly one read request. The pass makes these
calls neighbor by neighbor. -/
theorem C25_watchdog_pass (period interval now : Int) :
    (∀ it : Neighbor, it.enrolled_ = false → sendMessages_body period interval now it = []) ∧
    (∀ it : Neighbor, it.last_heard_from_time_in_ms_ + period > now →
      sendMessages_body period interval now it = []) ∧
    (∀ it : Neighbor, it.enrolled_ = true → it.last_heard_from_time_in_ms_ + period ≤ now →
      it.last_heard_from_time_in_ms_ ≠ 0 →
      it.last_heard_from_time_in_ms_ + interval < now →
      sendMessages_body period interval now it =
        [task_action.deliverEvent_NeighborDeclaredDead it.processName]) ∧
    (∀ it : Neighbor, it.enrolled_ = true → it.last_heard_from_time_in_ms_ + period ≤ now →
      (it.last_heard_from_time_in_ms_ = 0 ∨
        now ≤ it.last_heard_from_time_in_ms_ + interval) →
      sendMessages_body period interval now it =
        [task_action.remoteReadObject it.underlying_port_id_]) ∧
    (∀ ns : List Neighbor,
      sendMessages period interval now ns =
        ns.flatMap (fun it => sendMessages_body period interval now it)) := by
  refine ⟨?_, ?_, ?_, ?_, ?_⟩
  · intro it h
    simp [sendMessages_body, h]
  · intro it h
    unfold sendMessages_body
    split_ifs <;> rfl
  · intro it he hp h0 hi
    unfold sendMessages_body
    rw [if_neg (by simp [he]), if_neg (by omega), if_pos ⟨h0, hi⟩]
  · intro it he hp h
    unfold sendMessages_body
    rw [if_neg (by simp [he]), if_neg (by omega), if_neg]
    rintro ⟨h0, hi⟩
    rcases h with h | h
    · exact h0 h
    · omega
  · intro ns
    induction ns with
    | nil => rfl
    | cons n ns ih =>
      unfold sendMessages
      rw [ih]
      rfl

/-- C25 (amended) at a concrete input: with period 30000, interval 120000 and current time 200000, an enrolled
neighbor last heard at time 1000 is declared dead. -/
theorem C25_watchdog_pass_witness :
    neighbor_old.enrolled_ = true ∧
    neighbor_old.last_heard_from_time_in_ms_ + 30000 ≤ 200000 ∧
    neighbor_old.last_heard_from_time_in_ms_ ≠ 0 ∧
    neighbor_old.last_heard_from_time_in_ms_ + 120000 < 200000 ∧
    sendMessages_body 30000 120000 200000 neighbor_old =
      [task_action.deliverEvent_NeighborDeclaredDead 2] :=
  ⟨by decide, by decide, by decide, by decide,
    (C25_watchdog_pass 30000 120000 200000).2.2.1 neighbor_old (by decide) (by decide)
      (by decide) (by decide)⟩

end Enrollment
